import Mathlib

/-!
A2DP codec capability records of bluez-alsa (`src/a2dp-codecs.h`)

The header declares, for every codec, a packed C struct of `uint8_t` members
and bitfields, once for little-endian hosts and once for big-endian hosts,
together with accessor macros for the values scattered over several members.

Embedding.
* A struct object is a Lean structure holding one `Nat` per declared member.
* The object representation (the bytes of the struct in memory, which are the
  wire bytes) is computed by `packBits` from the members *in declaration
  order*: on a little-endian host the compiler allocates the first declared
  bitfield in the least significant bits of the byte, on a big-endian host in
  the most significant bits.
* A store to a `w`-bit unsigned member keeps the value modulo `2^w`
  (`bitfield w v`).
* The accessor macros are transcribed with the same shifts and masks.
-/

set_option linter.unnecessarySeqFocus false

namespace A2dp

/-! ## Bitfield allocation -/

/-- The two branches of `#if __BYTE_ORDER == __LITTLE_ENDIAN ... #elif
__BYTE_ORDER == __BIG_ENDIAN`. -/
inductive ByteOrder where
  | little
  | big
deriving DecidableEq, Repr, Fintype

/-- A declared member together with the value it holds: `uint8_t name:width`
(or `uint8_t name`, width 8). -/
structure Slot where
  width : Nat
  value : Nat
deriving DecidableEq, Repr

/-- Conversion performed by a store to an unsigned bitfield of `w` bits. -/
def bitfield (w v : Nat) : Nat := v % 2 ^ w

/-- Position (shift from the least significant bit) inside the current byte of
a member of `w` bits when `used` bits of that byte are already allocated. -/
def bitShift : ByteOrder → Nat → Nat → Nat
  | .little, used, _ => used
  | .big, used, w => 8 - used - w

/-- Object representation of a packed struct whose members are `uint8_t`
bitfields: members are allocated consecutively in declaration order, `acc` is
the byte being filled and `used` the number of its bits already allocated. -/
def packBits (o : ByteOrder) : List Slot → Nat → Nat → List Nat
  | [], acc, used => if used = 0 then [] else [acc]
  | s :: ss, acc, used =>
    let acc1 := acc + bitfield s.width s.value * 2 ^ bitShift o used s.width
    if used + s.width = 8 then acc1 :: packBits o ss 0 0
    else packBits o ss acc1 (used + s.width)

/-- Bytes of a struct given its members in declaration order. -/
def pack (o : ByteOrder) (slots : List Slot) : List Nat := packBits o slots 0 0

/-- Read the members of the given widths (declaration order) back from the
bytes of a struct; `used` is the number of bits of the first byte already
read. -/
def unpackBits (o : ByteOrder) : List Nat → List Nat → Nat → List Nat
  | [], _, _ => []
  | _ :: _, [], _ => []
  | w :: ws, b :: bs, used =>
    let v := b / 2 ^ bitShift o used w % 2 ^ w
    if used + w = 8 then v :: unpackBits o ws bs 0
    else v :: unpackBits o ws (b :: bs) (used + w)

/-- Member values of a struct read from its bytes. -/
def unpack (o : ByteOrder) (widths : List Nat) (bytes : List Nat) : List Nat :=
  unpackBits o widths bytes 0

/-- No member of a declaration straddles a byte boundary, and the members fill
whole bytes (true of every struct of the header). -/
def fitsBytes : List Nat → Nat → Bool
  | [], used => used == 0
  | w :: ws, used =>
    if used + w = 8 then fitsBytes ws 0
    else if used + w < 8 then fitsBytes ws (used + w)
    else false

/-- Every member value of a declaration lies within its declared width. -/
def slotsInWidth (slots : List Slot) : Prop := ∀ s ∈ slots, s.value < 2 ^ s.width

instance (slots : List Slot) : Decidable (slotsInWidth slots) := by
  unfold slotsInWidth; infer_instance

/-! ## Vendor codec identifier -/

/-- Struct `a2dp_vendor_codec_t`: six `uint8_t` members, in this order. -/
structure a2dp_vendor_codec_t where
  vendor_id4 : Nat
  vendor_id3 : Nat
  vendor_id2 : Nat
  vendor_id1 : Nat
  codec_id2 : Nat
  codec_id1 : Nat
deriving DecidableEq, Repr

/-- Members of `a2dp_vendor_codec_t` in declaration order (the same in both
branches: the struct is declared once, before the `#if`). -/
def a2dp_vendor_codec_t.slots (a : a2dp_vendor_codec_t) : List Slot :=
  [⟨8, a.vendor_id4⟩, ⟨8, a.vendor_id3⟩, ⟨8, a.vendor_id2⟩, ⟨8, a.vendor_id1⟩,
   ⟨8, a.codec_id2⟩, ⟨8, a.codec_id1⟩]

/-- Widths of the members of `a2dp_vendor_codec_t`. -/
def a2dp_vendor_codec_t.widths : List Nat := [8, 8, 8, 8, 8, 8]

/-- Bytes of an `a2dp_vendor_codec_t` in struct (wire) order. -/
def a2dp_vendor_codec_t.toBytes (o : ByteOrder) (a : a2dp_vendor_codec_t) : List Nat :=
  pack o a.slots

/-- Macro `A2DP_GET_VENDOR_ID(a)`; the casts to `uint32_t` are the `% 2^32`. -/
def A2DP_GET_VENDOR_ID (a : a2dp_vendor_codec_t) : Nat :=
  (((a.vendor_id4 % 2 ^ 32) <<< 0) % 2 ^ 32) |||
  (((a.vendor_id3 % 2 ^ 32) <<< 8) % 2 ^ 32) |||
  (((a.vendor_id2 % 2 ^ 32) <<< 16) % 2 ^ 32) |||
  (((a.vendor_id1 % 2 ^ 32) <<< 24) % 2 ^ 32)

/-- Macro `A2DP_GET_CODEC_ID(a)`; the cast to `uint16_t` is the `% 2^16`. -/
def A2DP_GET_CODEC_ID (a : a2dp_vendor_codec_t) : Nat :=
  a.codec_id2 ||| ((a.codec_id1 % 2 ^ 16) <<< 8)

/-- Macro `A2DP_SET_VENDOR_ID_CODEC_ID(v, c)`: the designated initialiser of
an `a2dp_vendor_codec_t`; every member is a `uint8_t`. -/
def A2DP_SET_VENDOR_ID_CODEC_ID (v c : Nat) : a2dp_vendor_codec_t :=
  { vendor_id4 := bitfield 8 ((v >>> 0) &&& 0xff)
    vendor_id3 := bitfield 8 ((v >>> 8) &&& 0xff)
    vendor_id2 := bitfield 8 ((v >>> 16) &&& 0xff)
    vendor_id1 := bitfield 8 ((v >>> 24) &&& 0xff)
    codec_id2 := bitfield 8 ((c >>> 0) &&& 0xff)
    codec_id1 := bitfield 8 ((c >>> 8) &&& 0xff) }

/-- Members of `a2dp_vendor_codec_t` read from the first six bytes. -/
def a2dp_vendor_codec_t.ofBytes (o : ByteOrder) (bytes : List Nat) :
    Option a2dp_vendor_codec_t :=
  match unpack o a2dp_vendor_codec_t.widths bytes with
  | [v4, v3, v2, v1, c2, c1] =>
    some { vendor_id4 := v4, vendor_id3 := v3, vendor_id2 := v2, vendor_id1 := v1,
           codec_id2 := c2, codec_id1 := c1 }
  | _ => none

/-! ## Flag constants used below -/

def SBC_SAMPLING_FREQ_16000 : Nat := 1 <<< 3
def SBC_SAMPLING_FREQ_32000 : Nat := 1 <<< 2
def SBC_SAMPLING_FREQ_44100 : Nat := 1 <<< 1
def SBC_SAMPLING_FREQ_48000 : Nat := 1

def SBC_CHANNEL_MODE_MONO : Nat := 1 <<< 3
def SBC_CHANNEL_MODE_DUAL_CHANNEL : Nat := 1 <<< 2
def SBC_CHANNEL_MODE_STEREO : Nat := 1 <<< 1
def SBC_CHANNEL_MODE_JOINT_STEREO : Nat := 1

def SBC_BLOCK_LENGTH_4 : Nat := 1 <<< 3
def SBC_BLOCK_LENGTH_8 : Nat := 1 <<< 2
def SBC_BLOCK_LENGTH_12 : Nat := 1 <<< 1
def SBC_BLOCK_LENGTH_16 : Nat := 1

def SBC_SUBBANDS_4 : Nat := 1 <<< 1
def SBC_SUBBANDS_8 : Nat := 1

def SBC_ALLOCATION_SNR : Nat := 1 <<< 1
def SBC_ALLOCATION_LOUDNESS : Nat := 1

def SBC_MIN_BITPOOL : Nat := 2
def SBC_MAX_BITPOOL : Nat := 250

def SBC_BITPOOL_HQ_JOINT_STEREO_44100 : Nat := 53

/-! ## SBC -/

/-- Struct `a2dp_sbc_t`. -/
structure a2dp_sbc_t where
  channel_mode : Nat
  frequency : Nat
  allocation_method : Nat
  subbands : Nat
  block_length : Nat
  min_bitpool : Nat
  max_bitpool : Nat
deriving DecidableEq, Repr

/-- Members of `a2dp_sbc_t` in the declaration order of each branch. -/
def a2dp_sbc_t.slots (o : ByteOrder) (a : a2dp_sbc_t) : List Slot :=
  match o with
  | .little =>
    [⟨4, a.channel_mode⟩, ⟨4, a.frequency⟩,
     ⟨2, a.allocation_method⟩, ⟨2, a.subbands⟩, ⟨4, a.block_length⟩,
     ⟨8, a.min_bitpool⟩, ⟨8, a.max_bitpool⟩]
  | .big =>
    [⟨4, a.frequency⟩, ⟨4, a.channel_mode⟩,
     ⟨4, a.block_length⟩, ⟨2, a.subbands⟩, ⟨2, a.allocation_method⟩,
     ⟨8, a.min_bitpool⟩, ⟨8, a.max_bitpool⟩]

/-- Declared widths of `a2dp_sbc_t` in the declaration order of each branch. -/
def a2dp_sbc_t.widths : ByteOrder → List Nat
  | .little => [4, 4, 2, 2, 4, 8, 8]
  | .big => [4, 4, 4, 2, 2, 8, 8]

/-- Bytes of an `a2dp_sbc_t` object. -/
def a2dp_sbc_t.toBytes (o : ByteOrder) (a : a2dp_sbc_t) : List Nat := pack o (a.slots o)

/-- Members of the `a2dp_sbc_t` overlaid on a buffer. -/
def a2dp_sbc_t.ofBytes (o : ByteOrder) (bytes : List Nat) : Option a2dp_sbc_t :=
  match o, unpack o (a2dp_sbc_t.widths o) bytes with
  | .little, [cm, f, am, sb, bl, mn, mx] =>
    some { channel_mode := cm, frequency := f, allocation_method := am, subbands := sb,
           block_length := bl, min_bitpool := mn, max_bitpool := mx }
  | .big, [f, cm, bl, sb, am, mn, mx] =>
    some { channel_mode := cm, frequency := f, allocation_method := am, subbands := sb,
           block_length := bl, min_bitpool := mn, max_bitpool := mx }
  | _, _ => none

/-- Every member of the record lies within its declared width. -/
def a2dp_sbc_t.InWidth (a : a2dp_sbc_t) : Prop := slotsInWidth (a.slots .little)

instance (a : a2dp_sbc_t) : Decidable a.InWidth := by
  unfold a2dp_sbc_t.InWidth; infer_instance

/-! ## MPEG-1,2 Audio -/

/-- Struct `a2dp_mpeg_t`. -/
structure a2dp_mpeg_t where
  channel_mode : Nat
  crc : Nat
  layer : Nat
  frequency : Nat
  mpf : Nat
  rfa : Nat
  bitrate1 : Nat
  vbr : Nat
  bitrate2 : Nat
deriving DecidableEq, Repr

/-- Members of `a2dp_mpeg_t` in the declaration order of each branch. -/
def a2dp_mpeg_t.slots (o : ByteOrder) (a : a2dp_mpeg_t) : List Slot :=
  match o with
  | .little =>
    [⟨4, a.channel_mode⟩, ⟨1, a.crc⟩, ⟨3, a.layer⟩,
     ⟨6, a.frequency⟩, ⟨1, a.mpf⟩, ⟨1, a.rfa⟩,
     ⟨7, a.bitrate1⟩, ⟨1, a.vbr⟩,
     ⟨8, a.bitrate2⟩]
  | .big =>
    [⟨3, a.layer⟩, ⟨1, a.crc⟩, ⟨4, a.channel_mode⟩,
     ⟨1, a.rfa⟩, ⟨1, a.mpf⟩, ⟨6, a.frequency⟩,
     ⟨1, a.vbr⟩, ⟨7, a.bitrate1⟩,
     ⟨8, a.bitrate2⟩]

/-- Declared widths of `a2dp_mpeg_t` in the declaration order of each branch. -/
def a2dp_mpeg_t.widths : ByteOrder → List Nat
  | .little => [4, 1, 3, 6, 1, 1, 7, 1, 8]
  | .big => [3, 1, 4, 1, 1, 6, 1, 7, 8]

/-- Bytes of an `a2dp_mpeg_t` object. -/
def a2dp_mpeg_t.toBytes (o : ByteOrder) (a : a2dp_mpeg_t) : List Nat := pack o (a.slots o)

/-- Members of the `a2dp_mpeg_t` overlaid on a buffer. -/
def a2dp_mpeg_t.ofBytes (o : ByteOrder) (bytes : List Nat) : Option a2dp_mpeg_t :=
  match o, unpack o (a2dp_mpeg_t.widths o) bytes with
  | .little, [cm, crc, layer, f, mpf, rfa, br1, vbr, br2] =>
    some { channel_mode := cm, crc := crc, layer := layer, frequency := f, mpf := mpf,
           rfa := rfa, bitrate1 := br1, vbr := vbr, bitrate2 := br2 }
  | .big, [layer, crc, cm, rfa, mpf, f, vbr, br1, br2] =>
    some { channel_mode := cm, crc := crc, layer := layer, frequency := f, mpf := mpf,
           rfa := rfa, bitrate1 := br1, vbr := vbr, bitrate2 := br2 }
  | _, _ => none

/-- Every member of the record lies within its declared width. -/
def a2dp_mpeg_t.InWidth (a : a2dp_mpeg_t) : Prop := slotsInWidth (a.slots .little)

instance (a : a2dp_mpeg_t) : Decidable a.InWidth := by
  unfold a2dp_mpeg_t.InWidth; infer_instance

/-- Macro `MPEG_GET_BITRATE(a)`; the cast to `uint16_t` is the `% 2^16`. -/
def MPEG_GET_BITRATE (a : a2dp_mpeg_t) : Nat :=
  ((a.bitrate1 % 2 ^ 16) <<< 8) ||| a.bitrate2

/-- Macro `MPEG_SET_BITRATE(a, b)`: two member stores, in this order. -/
def MPEG_SET_BITRATE (a : a2dp_mpeg_t) (b : Nat) : a2dp_mpeg_t :=
  let a1 := { a with bitrate1 := bitfield 7 ((b >>> 8) &&& 0x7f) }
  { a1 with bitrate2 := bitfield 8 (b &&& 0xff) }

/-! ## MPEG-2,4 AAC (default build: `FHG_HEAAC_IN_A2DP` unset) -/

/-- Struct `a2dp_aac_t`, `#else` branch of `#if FHG_HEAAC_IN_A2DP`. -/
structure a2dp_aac_t where
  object_type : Nat
  frequency1 : Nat
  rfa : Nat
  channels : Nat
  frequency2 : Nat
  bitrate1 : Nat
  vbr : Nat
  bitrate2 : Nat
  bitrate3 : Nat
deriving DecidableEq, Repr

/-- Members of `a2dp_aac_t` in the declaration order of each branch. -/
def a2dp_aac_t.slots (o : ByteOrder) (a : a2dp_aac_t) : List Slot :=
  match o with
  | .little =>
    [⟨8, a.object_type⟩,
     ⟨8, a.frequency1⟩,
     ⟨2, a.rfa⟩, ⟨2, a.channels⟩, ⟨4, a.frequency2⟩,
     ⟨7, a.bitrate1⟩, ⟨1, a.vbr⟩,
     ⟨8, a.bitrate2⟩,
     ⟨8, a.bitrate3⟩]
  | .big =>
    [⟨8, a.object_type⟩,
     ⟨8, a.frequency1⟩,
     ⟨4, a.frequency2⟩, ⟨2, a.channels⟩, ⟨2, a.rfa⟩,
     ⟨1, a.vbr⟩, ⟨7, a.bitrate1⟩,
     ⟨8, a.bitrate2⟩,
     ⟨8, a.bitrate3⟩]

/-- Declared widths of `a2dp_aac_t` in the declaration order of each branch. -/
def a2dp_aac_t.widths : ByteOrder → List Nat
  | .little => [8, 8, 2, 2, 4, 7, 1, 8, 8]
  | .big => [8, 8, 4, 2, 2, 1, 7, 8, 8]

/-- Bytes of an `a2dp_aac_t` object. -/
def a2dp_aac_t.toBytes (o : ByteOrder) (a : a2dp_aac_t) : List Nat := pack o (a.slots o)

/-- Members of the `a2dp_aac_t` overlaid on a buffer. -/
def a2dp_aac_t.ofBytes (o : ByteOrder) (bytes : List Nat) : Option a2dp_aac_t :=
  match o, unpack o (a2dp_aac_t.widths o) bytes with
  | .little, [ot, f1, rfa, ch, f2, br1, vbr, br2, br3] =>
    some { object_type := ot, frequency1 := f1, rfa := rfa, channels := ch, frequency2 := f2,
           bitrate1 := br1, vbr := vbr, bitrate2 := br2, bitrate3 := br3 }
  | .big, [ot, f1, f2, ch, rfa, vbr, br1, br2, br3] =>
    some { object_type := ot, frequency1 := f1, rfa := rfa, channels := ch, frequency2 := f2,
           bitrate1 := br1, vbr := vbr, bitrate2 := br2, bitrate3 := br3 }
  | _, _ => none

/-- Every member of the record lies within its declared width. -/
def a2dp_aac_t.InWidth (a : a2dp_aac_t) : Prop := slotsInWidth (a.slots .little)

instance (a : a2dp_aac_t) : Decidable a.InWidth := by
  unfold a2dp_aac_t.InWidth; infer_instance

/-- Macro `AAC_GET_BITRATE(a)`. -/
def AAC_GET_BITRATE (a : a2dp_aac_t) : Nat :=
  ((a.bitrate1 <<< 16) ||| (a.bitrate2 <<< 8)) ||| a.bitrate3

/-- Macro `AAC_GET_FREQUENCY(a)`. -/
def AAC_GET_FREQUENCY (a : a2dp_aac_t) : Nat :=
  (a.frequency1 <<< 4) ||| a.frequency2

/-- Macro `AAC_SET_BITRATE(a, b)`: three member stores, in this order. -/
def AAC_SET_BITRATE (a : a2dp_aac_t) (b : Nat) : a2dp_aac_t :=
  let a1 := { a with bitrate1 := bitfield 7 ((b >>> 16) &&& 0x7f) }
  let a2 := { a1 with bitrate2 := bitfield 8 ((b >>> 8) &&& 0xff) }
  { a2 with bitrate3 := bitfield 8 (b &&& 0xff) }

/-- Macro `AAC_SET_FREQUENCY(a, f)`: two member stores, in this order. -/
def AAC_SET_FREQUENCY (a : a2dp_aac_t) (f : Nat) : a2dp_aac_t :=
  let a1 := { a with frequency1 := bitfield 8 ((f >>> 4) &&& 0xff) }
  { a1 with frequency2 := bitfield 4 (f &&& 0x0f) }

/-! ## MPEG-2,4 AAC (build with `FHG_HEAAC_IN_A2DP` set) -/

namespace Heaac

/-- Struct `a2dp_aac_t`, `#if FHG_HEAAC_IN_A2DP` branch. -/
structure a2dp_aac_t where
  drc : Nat
  object_type : Nat
  frequency1 : Nat
  channels : Nat
  frequency2 : Nat
  bitrate1 : Nat
  vbr : Nat
  bitrate2 : Nat
  bitrate3 : Nat
deriving DecidableEq, Repr

/-- Members of `a2dp_aac_t` in the declaration order of each branch. -/
def a2dp_aac_t.slots (o : ByteOrder) (a : a2dp_aac_t) : List Slot :=
  match o with
  | .little =>
    [⟨1, a.drc⟩, ⟨7, a.object_type⟩,
     ⟨8, a.frequency1⟩,
     ⟨4, a.channels⟩, ⟨4, a.frequency2⟩,
     ⟨7, a.bitrate1⟩, ⟨1, a.vbr⟩,
     ⟨8, a.bitrate2⟩,
     ⟨8, a.bitrate3⟩]
  | .big =>
    [⟨7, a.object_type⟩, ⟨1, a.drc⟩,
     ⟨8, a.frequency1⟩,
     ⟨4, a.frequency2⟩, ⟨4, a.channels⟩,
     ⟨1, a.vbr⟩, ⟨7, a.bitrate1⟩,
     ⟨8, a.bitrate2⟩,
     ⟨8, a.bitrate3⟩]

/-- Declared widths of `a2dp_aac_t` in the declaration order of each branch. -/
def a2dp_aac_t.widths : ByteOrder → List Nat
  | .little => [1, 7, 8, 4, 4, 7, 1, 8, 8]
  | .big => [7, 1, 8, 4, 4, 1, 7, 8, 8]

/-- Bytes of an `a2dp_aac_t` object. -/
def a2dp_aac_t.toBytes (o : ByteOrder) (a : a2dp_aac_t) : List Nat := pack o (a.slots o)

/-- Members of the `a2dp_aac_t` overlaid on a buffer. -/
def a2dp_aac_t.ofBytes (o : ByteOrder) (bytes : List Nat) : Option a2dp_aac_t :=
  match o, unpack o (a2dp_aac_t.widths o) bytes with
  | .little, [drc, ot, f1, ch, f2, br1, vbr, br2, br3] =>
    some { drc := drc, object_type := ot, frequency1 := f1, channels := ch, frequency2 := f2,
           bitrate1 := br1, vbr := vbr, bitrate2 := br2, bitrate3 := br3 }
  | .big, [ot, drc, f1, f2, ch, vbr, br1, br2, br3] =>
    some { drc := drc, object_type := ot, frequency1 := f1, channels := ch, frequency2 := f2,
           bitrate1 := br1, vbr := vbr, bitrate2 := br2, bitrate3 := br3 }
  | _, _ => none

/-- Every member of the record lies within its declared width. -/
def a2dp_aac_t.InWidth (a : a2dp_aac_t) : Prop := slotsInWidth (a.slots .little)

instance (a : a2dp_aac_t) : Decidable a.InWidth := by
  unfold a2dp_aac_t.InWidth; infer_instance

/-- Macro `AAC_GET_BITRATE(a)`. -/
def AAC_GET_BITRATE (a : a2dp_aac_t) : Nat :=
  ((a.bitrate1 <<< 16) ||| (a.bitrate2 <<< 8)) ||| a.bitrate3

/-- Macro `AAC_GET_FREQUENCY(a)`. -/
def AAC_GET_FREQUENCY (a : a2dp_aac_t) : Nat :=
  (a.frequency1 <<< 4) ||| a.frequency2

/-- Macro `AAC_SET_BITRATE(a, b)`: three member stores, in this order. -/
def AAC_SET_BITRATE (a : a2dp_aac_t) (b : Nat) : a2dp_aac_t :=
  let a1 := { a with bitrate1 := bitfield 7 ((b >>> 16) &&& 0x7f) }
  let a2 := { a1 with bitrate2 := bitfield 8 ((b >>> 8) &&& 0xff) }
  { a2 with bitrate3 := bitfield 8 (b &&& 0xff) }

/-- Macro `AAC_SET_FREQUENCY(a, f)`: two member stores, in this order. -/
def AAC_SET_FREQUENCY (a : a2dp_aac_t) (f : Nat) : a2dp_aac_t :=
  let a1 := { a with frequency1 := bitfield 8 ((f >>> 4) &&& 0xff) }
  { a1 with frequency2 := bitfield 4 (f &&& 0x0f) }

end Heaac

/-! ## MPEG-D USAC (build with `FHG_USAC_IN_A2DP` set) -/

/-- Struct `a2dp_usac_t`. -/
structure a2dp_usac_t where
  frequency1 : Nat
  object_type : Nat
  frequency2 : Nat
  frequency3 : Nat
  channels : Nat
  frequency4 : Nat
  bitrate1 : Nat
  vbr : Nat
  bitrate2 : Nat
  bitrate3 : Nat
deriving DecidableEq, Repr

/-- Members of `a2dp_usac_t` in the declaration order of each branch. -/
def a2dp_usac_t.slots (o : ByteOrder) (a : a2dp_usac_t) : List Slot :=
  match o with
  | .little =>
    [⟨6, a.frequency1⟩, ⟨2, a.object_type⟩,
     ⟨8, a.frequency2⟩,
     ⟨8, a.frequency3⟩,
     ⟨4, a.channels⟩, ⟨4, a.frequency4⟩,
     ⟨7, a.bitrate1⟩, ⟨1, a.vbr⟩,
     ⟨8, a.bitrate2⟩,
     ⟨8, a.bitrate3⟩]
  | .big =>
    [⟨2, a.object_type⟩, ⟨6, a.frequency1⟩,
     ⟨8, a.frequency2⟩,
     ⟨8, a.frequency3⟩,
     ⟨4, a.frequency4⟩, ⟨4, a.channels⟩,
     ⟨1, a.vbr⟩, ⟨7, a.bitrate1⟩,
     ⟨8, a.bitrate2⟩,
     ⟨8, a.bitrate3⟩]

/-- Declared widths of `a2dp_usac_t` in the declaration order of each branch. -/
def a2dp_usac_t.widths : ByteOrder → List Nat
  | .little => [6, 2, 8, 8, 4, 4, 7, 1, 8, 8]
  | .big => [2, 6, 8, 8, 4, 4, 1, 7, 8, 8]

/-- Bytes of an `a2dp_usac_t` object. -/
def a2dp_usac_t.toBytes (o : ByteOrder) (a : a2dp_usac_t) : List Nat := pack o (a.slots o)

/-- Members of the `a2dp_usac_t` overlaid on a buffer. -/
def a2dp_usac_t.ofBytes (o : ByteOrder) (bytes : List Nat) : Option a2dp_usac_t :=
  match o, unpack o (a2dp_usac_t.widths o) bytes with
  | .little, [f1, ot, f2, f3, ch, f4, br1, vbr, br2, br3] =>
    some { frequency1 := f1, object_type := ot, frequency2 := f2, frequency3 := f3,
           channels := ch, frequency4 := f4, bitrate1 := br1, vbr := vbr, bitrate2 := br2,
           bitrate3 := br3 }
  | .big, [ot, f1, f2, f3, f4, ch, vbr, br1, br2, br3] =>
    some { frequency1 := f1, object_type := ot, frequency2 := f2, frequency3 := f3,
           channels := ch, frequency4 := f4, bitrate1 := br1, vbr := vbr, bitrate2 := br2,
           bitrate3 := br3 }
  | _, _ => none

/-- Every member of the record lies within its declared width. -/
def a2dp_usac_t.InWidth (a : a2dp_usac_t) : Prop := slotsInWidth (a.slots .little)

instance (a : a2dp_usac_t) : Decidable a.InWidth := by
  unfold a2dp_usac_t.InWidth; infer_instance

/-- Macro `USAC_GET_BITRATE(a)`. -/
def USAC_GET_BITRATE (a : a2dp_usac_t) : Nat :=
  ((a.bitrate1 <<< 16) ||| (a.bitrate2 <<< 8)) ||| a.bitrate3

/-- Macro `USAC_GET_FREQUENCY(a)`. -/
def USAC_GET_FREQUENCY (a : a2dp_usac_t) : Nat :=
  (((a.frequency1 <<< 20) ||| (a.frequency2 <<< 12)) ||| (a.frequency3 <<< 4)) ||| a.frequency4

/-- Macro `USAC_SET_BITRATE(a, b)`: three member stores, in this order. -/
def USAC_SET_BITRATE (a : a2dp_usac_t) (b : Nat) : a2dp_usac_t :=
  let a1 := { a with bitrate1 := bitfield 7 ((b >>> 16) &&& 0x7f) }
  let a2 := { a1 with bitrate2 := bitfield 8 ((b >>> 8) &&& 0xff) }
  { a2 with bitrate3 := bitfield 8 (b &&& 0xff) }

/-- Macro `USAC_SET_FREQUENCY(a, f)`: four member stores, in this order. -/
def USAC_SET_FREQUENCY (a : a2dp_usac_t) (f : Nat) : a2dp_usac_t :=
  let a1 := { a with frequency1 := bitfield 6 ((f >>> 20) &&& 0x3f) }
  let a2 := { a1 with frequency2 := bitfield 8 ((f >>> 12) &&& 0xff) }
  let a3 := { a2 with frequency3 := bitfield 8 ((f >>> 4) &&& 0xff) }
  { a3 with frequency4 := bitfield 4 (f &&& 0x0f) }

/-! ## ATRAC -/

/-- Struct `a2dp_atrac_t`. -/
structure a2dp_atrac_t where
  rfa1 : Nat
  channel_mode : Nat
  version : Nat
  bitrate1 : Nat
  vbr : Nat
  frequency : Nat
  rfa2 : Nat
  bitrate2 : Nat
  bitrate3 : Nat
  max_sul1 : Nat
  max_sul2 : Nat
  rfa3 : Nat
deriving DecidableEq, Repr

/-- Members of `a2dp_atrac_t` in the declaration order of each branch. -/
def a2dp_atrac_t.slots (o : ByteOrder) (a : a2dp_atrac_t) : List Slot :=
  match o with
  | .little =>
    [⟨2, a.rfa1⟩, ⟨3, a.channel_mode⟩, ⟨3, a.version⟩,
     ⟨3, a.bitrate1⟩, ⟨1, a.vbr⟩, ⟨2, a.frequency⟩, ⟨2, a.rfa2⟩,
     ⟨8, a.bitrate2⟩,
     ⟨8, a.bitrate3⟩,
     ⟨8, a.max_sul1⟩,
     ⟨8, a.max_sul2⟩,
     ⟨8, a.rfa3⟩]
  | .big =>
    [⟨3, a.version⟩, ⟨3, a.channel_mode⟩, ⟨2, a.rfa1⟩,
     ⟨2, a.rfa2⟩, ⟨2, a.frequency⟩, ⟨1, a.vbr⟩, ⟨3, a.bitrate1⟩,
     ⟨8, a.bitrate2⟩,
     ⟨8, a.bitrate3⟩,
     ⟨8, a.max_sul1⟩,
     ⟨8, a.max_sul2⟩,
     ⟨8, a.rfa3⟩]

/-- Declared widths of `a2dp_atrac_t` in the declaration order of each branch. -/
def a2dp_atrac_t.widths : ByteOrder → List Nat
  | .little => [2, 3, 3, 3, 1, 2, 2, 8, 8, 8, 8, 8]
  | .big => [3, 3, 2, 2, 2, 1, 3, 8, 8, 8, 8, 8]

/-- Bytes of an `a2dp_atrac_t` object. -/
def a2dp_atrac_t.toBytes (o : ByteOrder) (a : a2dp_atrac_t) : List Nat := pack o (a.slots o)

/-- Members of the `a2dp_atrac_t` overlaid on a buffer. -/
def a2dp_atrac_t.ofBytes (o : ByteOrder) (bytes : List Nat) : Option a2dp_atrac_t :=
  match o, unpack o (a2dp_atrac_t.widths o) bytes with
  | .little, [rfa1, cm, ver, br1, vbr, f, rfa2, br2, br3, ms1, ms2, rfa3] =>
    some { rfa1 := rfa1, channel_mode := cm, version := ver, bitrate1 := br1, vbr := vbr,
           frequency := f, rfa2 := rfa2, bitrate2 := br2, bitrate3 := br3, max_sul1 := ms1,
           max_sul2 := ms2, rfa3 := rfa3 }
  | .big, [ver, cm, rfa1, rfa2, f, vbr, br1, br2, br3, ms1, ms2, rfa3] =>
    some { rfa1 := rfa1, channel_mode := cm, version := ver, bitrate1 := br1, vbr := vbr,
           frequency := f, rfa2 := rfa2, bitrate2 := br2, bitrate3 := br3, max_sul1 := ms1,
           max_sul2 := ms2, rfa3 := rfa3 }
  | _, _ => none

/-- Every member of the record lies within its declared width. -/
def a2dp_atrac_t.InWidth (a : a2dp_atrac_t) : Prop := slotsInWidth (a.slots .little)

instance (a : a2dp_atrac_t) : Decidable a.InWidth := by
  unfold a2dp_atrac_t.InWidth; infer_instance

/-- Macro `ATRAC_GET_BITRATE(a)`. -/
def ATRAC_GET_BITRATE (a : a2dp_atrac_t) : Nat :=
  ((a.bitrate1 <<< 16) ||| (a.bitrate2 <<< 8)) ||| a.bitrate3

/-- Macro `ATRAC_GET_MAX_SUL(a)`. -/
def ATRAC_GET_MAX_SUL (a : a2dp_atrac_t) : Nat :=
  (a.max_sul1 <<< 8) ||| a.max_sul2

/-! ## aptX -/

/-- Struct `a2dp_aptx_t`. -/
structure a2dp_aptx_t where
  info : a2dp_vendor_codec_t
  channel_mode : Nat
  frequency : Nat
deriving DecidableEq, Repr

/-- Members of `a2dp_aptx_t` in the declaration order of each branch. -/
def a2dp_aptx_t.slots (o : ByteOrder) (a : a2dp_aptx_t) : List Slot :=
  match o with
  | .little => a.info.slots ++ [⟨4, a.channel_mode⟩, ⟨4, a.frequency⟩]
  | .big => a.info.slots ++ [⟨4, a.frequency⟩, ⟨4, a.channel_mode⟩]

/-- Declared widths of `a2dp_aptx_t` in the declaration order of each branch. -/
def a2dp_aptx_t.widths : ByteOrder → List Nat
  | .little => a2dp_vendor_codec_t.widths ++ [4, 4]
  | .big => a2dp_vendor_codec_t.widths ++ [4, 4]

/-- Bytes of an `a2dp_aptx_t` object. -/
def a2dp_aptx_t.toBytes (o : ByteOrder) (a : a2dp_aptx_t) : List Nat := pack o (a.slots o)

/-- Members of the `a2dp_aptx_t` overlaid on a buffer. -/
def a2dp_aptx_t.ofBytes (o : ByteOrder) (bytes : List Nat) : Option a2dp_aptx_t :=
  match o, unpack o (a2dp_aptx_t.widths o) bytes with
  | .little, [v4, v3, v2, v1, c2, c1, cm, f] =>
    some { info := { vendor_id4 := v4, vendor_id3 := v3, vendor_id2 := v2, vendor_id1 := v1,
                     codec_id2 := c2, codec_id1 := c1 },
           channel_mode := cm, frequency := f }
  | .big, [v4, v3, v2, v1, c2, c1, f, cm] =>
    some { info := { vendor_id4 := v4, vendor_id3 := v3, vendor_id2 := v2, vendor_id1 := v1,
                     codec_id2 := c2, codec_id1 := c1 },
           channel_mode := cm, frequency := f }
  | _, _ => none

/-- Every member of the record lies within its declared width. -/
def a2dp_aptx_t.InWidth (a : a2dp_aptx_t) : Prop := slotsInWidth (a.slots .little)

instance (a : a2dp_aptx_t) : Decidable a.InWidth := by
  unfold a2dp_aptx_t.InWidth; infer_instance

/-! ## FastStream -/

/-- Struct `a2dp_faststream_t`. -/
structure a2dp_faststream_t where
  info : a2dp_vendor_codec_t
  direction : Nat
  frequency_music : Nat
  frequency_voice : Nat
deriving DecidableEq, Repr

/-- Members of `a2dp_faststream_t` in the declaration order of each branch. -/
def a2dp_faststream_t.slots (o : ByteOrder) (a : a2dp_faststream_t) : List Slot :=
  match o with
  | .little =>
    a.info.slots ++ [⟨8, a.direction⟩, ⟨4, a.frequency_music⟩, ⟨4, a.frequency_voice⟩]
  | .big =>
    a.info.slots ++ [⟨8, a.direction⟩, ⟨4, a.frequency_voice⟩, ⟨4, a.frequency_music⟩]

/-- Declared widths of `a2dp_faststream_t` in the declaration order of each
branch. -/
def a2dp_faststream_t.widths : ByteOrder → List Nat
  | .little => a2dp_vendor_codec_t.widths ++ [8, 4, 4]
  | .big => a2dp_vendor_codec_t.widths ++ [8, 4, 4]

/-- Bytes of an `a2dp_faststream_t` object. -/
def a2dp_faststream_t.toBytes (o : ByteOrder) (a : a2dp_faststream_t) : List Nat :=
  pack o (a.slots o)

/-- Members of the `a2dp_faststream_t` overlaid on a buffer. -/
def a2dp_faststream_t.ofBytes (o : ByteOrder) (bytes : List Nat) : Option a2dp_faststream_t :=
  match o, unpack o (a2dp_faststream_t.widths o) bytes with
  | .little, [v4, v3, v2, v1, c2, c1, dir, fm, fv] =>
    some { info := { vendor_id4 := v4, vendor_id3 := v3, vendor_id2 := v2, vendor_id1 := v1,
                     codec_id2 := c2, codec_id1 := c1 },
           direction := dir, frequency_music := fm, frequency_voice := fv }
  | .big, [v4, v3, v2, v1, c2, c1, dir, fv, fm] =>
    some { info := { vendor_id4 := v4, vendor_id3 := v3, vendor_id2 := v2, vendor_id1 := v1,
                     codec_id2 := c2, codec_id1 := c1 },
           direction := dir, frequency_music := fm, frequency_voice := fv }
  | _, _ => none

/-- Every member of the record lies within its declared width. -/
def a2dp_faststream_t.InWidth (a : a2dp_faststream_t) : Prop := slotsInWidth (a.slots .little)

instance (a : a2dp_faststream_t) : Decidable a.InWidth := by
  unfold a2dp_faststream_t.InWidth; infer_instance

/-! ## aptX Low Latency -/

/-- Struct `a2dp_aptx_ll_t`; the trailing `new_caps[0]` is a zero-length array
and contributes no byte. -/
structure a2dp_aptx_ll_t where
  aptx : a2dp_aptx_t
  bidirect_link : Nat
  has_new_caps : Nat
  reserved : Nat
deriving DecidableEq, Repr

/-- Members of `a2dp_aptx_ll_t` in the declaration order of each branch. -/
def a2dp_aptx_ll_t.slots (o : ByteOrder) (a : a2dp_aptx_ll_t) : List Slot :=
  match o with
  | .little =>
    a.aptx.slots .little ++ [⟨1, a.bidirect_link⟩, ⟨1, a.has_new_caps⟩, ⟨6, a.reserved⟩]
  | .big =>
    a.aptx.slots .big ++ [⟨6, a.reserved⟩, ⟨1, a.has_new_caps⟩, ⟨1, a.bidirect_link⟩]

/-- Declared widths of `a2dp_aptx_ll_t` in the declaration order of each
branch. -/
def a2dp_aptx_ll_t.widths : ByteOrder → List Nat
  | .little => a2dp_aptx_t.widths .little ++ [1, 1, 6]
  | .big => a2dp_aptx_t.widths .big ++ [6, 1, 1]

/-- Bytes of an `a2dp_aptx_ll_t` object. -/
def a2dp_aptx_ll_t.toBytes (o : ByteOrder) (a : a2dp_aptx_ll_t) : List Nat :=
  pack o (a.slots o)

/-- Members of the `a2dp_aptx_ll_t` overlaid on a buffer. -/
def a2dp_aptx_ll_t.ofBytes (o : ByteOrder) (bytes : List Nat) : Option a2dp_aptx_ll_t :=
  match o, unpack o (a2dp_aptx_ll_t.widths o) bytes with
  | .little, [v4, v3, v2, v1, c2, c1, cm, f, bl, nc, res] =>
    some { aptx := { info := { vendor_id4 := v4, vendor_id3 := v3, vendor_id2 := v2,
                               vendor_id1 := v1, codec_id2 := c2, codec_id1 := c1 },
                     channel_mode := cm, frequency := f },
           bidirect_link := bl, has_new_caps := nc, reserved := res }
  | .big, [v4, v3, v2, v1, c2, c1, f, cm, res, nc, bl] =>
    some { aptx := { info := { vendor_id4 := v4, vendor_id3 := v3, vendor_id2 := v2,
                               vendor_id1 := v1, codec_id2 := c2, codec_id1 := c1 },
                     channel_mode := cm, frequency := f },
           bidirect_link := bl, has_new_caps := nc, reserved := res }
  | _, _ => none

/-- Every member of the record lies within its declared width. -/
def a2dp_aptx_ll_t.InWidth (a : a2dp_aptx_ll_t) : Prop := slotsInWidth (a.slots .little)

instance (a : a2dp_aptx_ll_t) : Decidable a.InWidth := by
  unfold a2dp_aptx_ll_t.InWidth; infer_instance

/-! ## LDAC -/

/-- Struct `a2dp_ldac_t`. -/
structure a2dp_ldac_t where
  info : a2dp_vendor_codec_t
  frequency : Nat
  rfa1 : Nat
  channel_mode : Nat
  rfa2 : Nat
deriving DecidableEq, Repr

/-- Members of `a2dp_ldac_t` in the declaration order of each branch. -/
def a2dp_ldac_t.slots (o : ByteOrder) (a : a2dp_ldac_t) : List Slot :=
  match o with
  | .little =>
    a.info.slots ++ [⟨6, a.frequency⟩, ⟨2, a.rfa1⟩, ⟨3, a.channel_mode⟩, ⟨5, a.rfa2⟩]
  | .big =>
    a.info.slots ++ [⟨2, a.rfa1⟩, ⟨6, a.frequency⟩, ⟨5, a.rfa2⟩, ⟨3, a.channel_mode⟩]

/-- Declared widths of `a2dp_ldac_t` in the declaration order of each branch. -/
def a2dp_ldac_t.widths : ByteOrder → List Nat
  | .little => a2dp_vendor_codec_t.widths ++ [6, 2, 3, 5]
  | .big => a2dp_vendor_codec_t.widths ++ [2, 6, 5, 3]

/-- Bytes of an `a2dp_ldac_t` object. -/
def a2dp_ldac_t.toBytes (o : ByteOrder) (a : a2dp_ldac_t) : List Nat := pack o (a.slots o)

/-- Members of the `a2dp_ldac_t` overlaid on a buffer. -/
def a2dp_ldac_t.ofBytes (o : ByteOrder) (bytes : List Nat) : Option a2dp_ldac_t :=
  match o, unpack o (a2dp_ldac_t.widths o) bytes with
  | .little, [v4, v3, v2, v1, c2, c1, f, rfa1, cm, rfa2] =>
    some { info := { vendor_id4 := v4, vendor_id3 := v3, vendor_id2 := v2, vendor_id1 := v1,
                     codec_id2 := c2, codec_id1 := c1 },
           frequency := f, rfa1 := rfa1, channel_mode := cm, rfa2 := rfa2 }
  | .big, [v4, v3, v2, v1, c2, c1, rfa1, f, rfa2, cm] =>
    some { info := { vendor_id4 := v4, vendor_id3 := v3, vendor_id2 := v2, vendor_id1 := v1,
                     codec_id2 := c2, codec_id1 := c1 },
           frequency := f, rfa1 := rfa1, channel_mode := cm, rfa2 := rfa2 }
  | _, _ => none

/-- Every member of the record lies within its declared width. -/
def a2dp_ldac_t.InWidth (a : a2dp_ldac_t) : Prop := slotsInWidth (a.slots .little)

instance (a : a2dp_ldac_t) : Decidable a.InWidth := by
  unfold a2dp_ldac_t.InWidth; infer_instance

/-! ## aptX HD -/

/-- Struct `a2dp_aptx_hd_t`: an `a2dp_aptx_t` followed by `uint32_t rfa`. -/
structure a2dp_aptx_hd_t where
  aptx : a2dp_aptx_t
  rfa : Nat
deriving DecidableEq, Repr

/-- The four bytes of a `uint32_t` member in the byte order of the host. -/
def uint32Slots : ByteOrder → Nat → List Slot
  | .little, v => [⟨8, v⟩, ⟨8, v >>> 8⟩, ⟨8, v >>> 16⟩, ⟨8, v >>> 24⟩]
  | .big, v => [⟨8, v >>> 24⟩, ⟨8, v >>> 16⟩, ⟨8, v >>> 8⟩, ⟨8, v⟩]

/-- The `uint32_t` held by four consecutive bytes in the byte order of the host. -/
def uint32OfBytes : ByteOrder → Nat → Nat → Nat → Nat → Nat
  | .little, b0, b1, b2, b3 => b0 + b1 * 2 ^ 8 + b2 * 2 ^ 16 + b3 * 2 ^ 24
  | .big, b0, b1, b2, b3 => b0 * 2 ^ 24 + b1 * 2 ^ 16 + b2 * 2 ^ 8 + b3

/-- Members of `a2dp_aptx_hd_t` in declaration order. -/
def a2dp_aptx_hd_t.slots (o : ByteOrder) (a : a2dp_aptx_hd_t) : List Slot :=
  a.aptx.slots o ++ uint32Slots o a.rfa

/-- Declared widths of `a2dp_aptx_hd_t`, the `uint32_t` counted as four bytes. -/
def a2dp_aptx_hd_t.widths (o : ByteOrder) : List Nat :=
  a2dp_aptx_t.widths o ++ [8, 8, 8, 8]

/-- Bytes of an `a2dp_aptx_hd_t` object. -/
def a2dp_aptx_hd_t.toBytes (o : ByteOrder) (a : a2dp_aptx_hd_t) : List Nat :=
  pack o (a.slots o)

/-- Members of the `a2dp_aptx_hd_t` overlaid on a buffer. -/
def a2dp_aptx_hd_t.ofBytes (o : ByteOrder) (bytes : List Nat) : Option a2dp_aptx_hd_t :=
  match o, unpack o (a2dp_aptx_hd_t.widths o) bytes with
  | .little, [v4, v3, v2, v1, c2, c1, cm, f, r0, r1, r2, r3] =>
    some { aptx := { info := { vendor_id4 := v4, vendor_id3 := v3, vendor_id2 := v2,
                               vendor_id1 := v1, codec_id2 := c2, codec_id1 := c1 },
                     channel_mode := cm, frequency := f },
           rfa := uint32OfBytes .little r0 r1 r2 r3 }
  | .big, [v4, v3, v2, v1, c2, c1, f, cm, r0, r1, r2, r3] =>
    some { aptx := { info := { vendor_id4 := v4, vendor_id3 := v3, vendor_id2 := v2,
                               vendor_id1 := v1, codec_id2 := c2, codec_id1 := c1 },
                     channel_mode := cm, frequency := f },
           rfa := uint32OfBytes .big r0 r1 r2 r3 }
  | _, _ => none

/-- Every member of the record lies within its declared width. -/
def a2dp_aptx_hd_t.InWidth (a : a2dp_aptx_hd_t) : Prop := a.aptx.InWidth ∧ a.rfa < 2 ^ 32

instance (a : a2dp_aptx_hd_t) : Decidable a.InWidth := by
  unfold a2dp_aptx_hd_t.InWidth; infer_instance

/-! ## aptX Low Latency: new capabilities -/

/-- Struct `a2dp_aptx_ll_new_caps_t`: nine `uint8_t` members, declared once,
before the `#if`. -/
structure a2dp_aptx_ll_new_caps_t where
  reserved : Nat
  target_level2 : Nat
  target_level1 : Nat
  initial_level2 : Nat
  initial_level1 : Nat
  sra_max_rate : Nat
  sra_avg_time : Nat
  good_working_level2 : Nat
  good_working_level1 : Nat
deriving DecidableEq, Repr

/-- Members of `a2dp_aptx_ll_new_caps_t` in declaration order. -/
def a2dp_aptx_ll_new_caps_t.slots (a : a2dp_aptx_ll_new_caps_t) : List Slot :=
  [⟨8, a.reserved⟩, ⟨8, a.target_level2⟩, ⟨8, a.target_level1⟩, ⟨8, a.initial_level2⟩,
   ⟨8, a.initial_level1⟩, ⟨8, a.sra_max_rate⟩, ⟨8, a.sra_avg_time⟩,
   ⟨8, a.good_working_level2⟩, ⟨8, a.good_working_level1⟩]

/-- Declared widths of `a2dp_aptx_ll_new_caps_t`. -/
def a2dp_aptx_ll_new_caps_t.widths : List Nat := [8, 8, 8, 8, 8, 8, 8, 8, 8]

/-- Bytes of an `a2dp_aptx_ll_new_caps_t` object. -/
def a2dp_aptx_ll_new_caps_t.toBytes (o : ByteOrder) (a : a2dp_aptx_ll_new_caps_t) :
    List Nat :=
  pack o a.slots

/-- Members of the `a2dp_aptx_ll_new_caps_t` overlaid on a buffer. -/
def a2dp_aptx_ll_new_caps_t.ofBytes (o : ByteOrder) (bytes : List Nat) :
    Option a2dp_aptx_ll_new_caps_t :=
  match unpack o a2dp_aptx_ll_new_caps_t.widths bytes with
  | [res, tl2, tl1, il2, il1, rate, time, gw2, gw1] =>
    some { reserved := res, target_level2 := tl2, target_level1 := tl1,
           initial_level2 := il2, initial_level1 := il1, sra_max_rate := rate,
           sra_avg_time := time, good_working_level2 := gw2, good_working_level1 := gw1 }
  | _ => none

/-! ## Sizes -/

/-- Size in bytes of a packed struct whose members have the given widths. -/
def sizeofWidths (widths : List Nat) : Nat := widths.sum / 8

/-- The C expression `sizeof(a2dp_vendor_codec_t)`. -/
def a2dp_vendor_codec_t.sizeof : Nat := sizeofWidths a2dp_vendor_codec_t.widths

/-- The C expression `sizeof(a2dp_sbc_t)`. -/
def a2dp_sbc_t.sizeof : Nat := sizeofWidths (a2dp_sbc_t.widths .little)

/-- The C expression `sizeof(a2dp_mpeg_t)`. -/
def a2dp_mpeg_t.sizeof : Nat := sizeofWidths (a2dp_mpeg_t.widths .little)

/-- The C expression `sizeof(a2dp_aac_t)`, default build. -/
def a2dp_aac_t.sizeof : Nat := sizeofWidths (a2dp_aac_t.widths .little)

/-- The C expression `sizeof(a2dp_aac_t)`, build with `FHG_HEAAC_IN_A2DP`. -/
def Heaac.a2dp_aac_t.sizeof : Nat := sizeofWidths (Heaac.a2dp_aac_t.widths .little)

/-- The C expression `sizeof(a2dp_usac_t)`. -/
def a2dp_usac_t.sizeof : Nat := sizeofWidths (a2dp_usac_t.widths .little)

/-- The C expression `sizeof(a2dp_atrac_t)`. -/
def a2dp_atrac_t.sizeof : Nat := sizeofWidths (a2dp_atrac_t.widths .little)

/-- The C expression `sizeof(a2dp_aptx_t)`. -/
def a2dp_aptx_t.sizeof : Nat := sizeofWidths (a2dp_aptx_t.widths .little)

/-- The C expression `sizeof(a2dp_faststream_t)`. -/
def a2dp_faststream_t.sizeof : Nat := sizeofWidths (a2dp_faststream_t.widths .little)

/-- The C expression `sizeof(a2dp_aptx_ll_t)`. -/
def a2dp_aptx_ll_t.sizeof : Nat := sizeofWidths (a2dp_aptx_ll_t.widths .little)

/-- The C expression `sizeof(a2dp_aptx_hd_t)`. -/
def a2dp_aptx_hd_t.sizeof : Nat := sizeofWidths (a2dp_aptx_hd_t.widths .little)

/-- The C expression `sizeof(a2dp_ldac_t)`. -/
def a2dp_ldac_t.sizeof : Nat := sizeofWidths (a2dp_ldac_t.widths .little)

/-- The C expression `sizeof(a2dp_aptx_ll_new_caps_t)`. -/
def a2dp_aptx_ll_new_caps_t.sizeof : Nat := sizeofWidths a2dp_aptx_ll_new_caps_t.widths

/-! ## USAC sampling frequency flags -/

def USAC_SAMPLING_FREQ_7350 : Nat := 0x02000000
def USAC_SAMPLING_FREQ_8000 : Nat := 0x01000000
def USAC_SAMPLING_FREQ_8820 : Nat := 0x00800000
def USAC_SAMPLING_FREQ_9600 : Nat := 0x00400000
def USAC_SAMPLING_FREQ_11025 : Nat := 0x00200000
def USAC_SAMPLING_FREQ_11760 : Nat := 0x00100000
def USAC_SAMPLING_FREQ_12000 : Nat := 0x00080000
def USAC_SAMPLING_FREQ_12800 : Nat := 0x00040000
def USAC_SAMPLING_FREQ_14700 : Nat := 0x00020000
def USAC_SAMPLING_FREQ_16000 : Nat := 0x00010000
def USAC_SAMPLING_FREQ_17640 : Nat := 0x00008000
def USAC_SAMPLING_FREQ_19200 : Nat := 0x00004000
def USAC_SAMPLING_FREQ_22050 : Nat := 0x00002000
def USAC_SAMPLING_FREQ_24000 : Nat := 0x00001000
def USAC_SAMPLING_FREQ_29400 : Nat := 0x00000800
def USAC_SAMPLING_FREQ_32000 : Nat := 0x00000400
def USAC_SAMPLING_FREQ_35280 : Nat := 0x00000200
def USAC_SAMPLING_FREQ_38400 : Nat := 0x00000100
def USAC_SAMPLING_FREQ_44100 : Nat := 0x00000080
def USAC_SAMPLING_FREQ_48000 : Nat := 0x00000040
def USAC_SAMPLING_FREQ_58800 : Nat := 0x00000020
def USAC_SAMPLING_FREQ_64000 : Nat := 0x00000010
def USAC_SAMPLING_FREQ_70560 : Nat := 0x00000008
def USAC_SAMPLING_FREQ_76800 : Nat := 0x00000004
def USAC_SAMPLING_FREQ_88200 : Nat := 0x00000002
def USAC_SAMPLING_FREQ_96000 : Nat := 0x00000001

/-! ## Zero-initialised objects -/

/-- An `a2dp_vendor_codec_t` with every member zero. -/
def a2dp_vendor_codec_t.zero : a2dp_vendor_codec_t :=
  { vendor_id4 := 0, vendor_id3 := 0, vendor_id2 := 0, vendor_id1 := 0,
    codec_id2 := 0, codec_id1 := 0 }

/-- An `a2dp_sbc_t` with every member zero. -/
def a2dp_sbc_t.zero : a2dp_sbc_t :=
  { channel_mode := 0, frequency := 0, allocation_method := 0, subbands := 0,
    block_length := 0, min_bitpool := 0, max_bitpool := 0 }

/-- An `a2dp_mpeg_t` with every member zero. -/
def a2dp_mpeg_t.zero : a2dp_mpeg_t :=
  { channel_mode := 0, crc := 0, layer := 0, frequency := 0, mpf := 0, rfa := 0,
    bitrate1 := 0, vbr := 0, bitrate2 := 0 }

/-- An `a2dp_aac_t` with every member zero, default build. -/
def a2dp_aac_t.zero : a2dp_aac_t :=
  { object_type := 0, frequency1 := 0, rfa := 0, channels := 0, frequency2 := 0,
    bitrate1 := 0, vbr := 0, bitrate2 := 0, bitrate3 := 0 }

/-- An `a2dp_aac_t` with every member zero, build with `FHG_HEAAC_IN_A2DP`. -/
def Heaac.a2dp_aac_t.zero : Heaac.a2dp_aac_t :=
  { drc := 0, object_type := 0, frequency1 := 0, channels := 0, frequency2 := 0,
    bitrate1 := 0, vbr := 0, bitrate2 := 0, bitrate3 := 0 }

/-- An `a2dp_usac_t` with every member zero. -/
def a2dp_usac_t.zero : a2dp_usac_t :=
  { frequency1 := 0, object_type := 0, frequency2 := 0, frequency3 := 0, channels := 0,
    frequency4 := 0, bitrate1 := 0, vbr := 0, bitrate2 := 0, bitrate3 := 0 }

/-- An `a2dp_atrac_t` with every member zero. -/
def a2dp_atrac_t.zero : a2dp_atrac_t :=
  { rfa1 := 0, channel_mode := 0, version := 0, bitrate1 := 0, vbr := 0, frequency := 0,
    rfa2 := 0, bitrate2 := 0, bitrate3 := 0, max_sul1 := 0, max_sul2 := 0, rfa3 := 0 }

/-- An `a2dp_aptx_t` with every member zero. -/
def a2dp_aptx_t.zero : a2dp_aptx_t :=
  { info := a2dp_vendor_codec_t.zero, channel_mode := 0, frequency := 0 }

/-- An `a2dp_faststream_t` with every member zero. -/
def a2dp_faststream_t.zero : a2dp_faststream_t :=
  { info := a2dp_vendor_codec_t.zero, direction := 0, frequency_music := 0,
    frequency_voice := 0 }

/-- An `a2dp_aptx_ll_t` with every member zero. -/
def a2dp_aptx_ll_t.zero : a2dp_aptx_ll_t :=
  { aptx := a2dp_aptx_t.zero, bidirect_link := 0, has_new_caps := 0, reserved := 0 }

/-- An `a2dp_aptx_hd_t` with every member zero. -/
def a2dp_aptx_hd_t.zero : a2dp_aptx_hd_t :=
  { aptx := a2dp_aptx_t.zero, rfa := 0 }

/-- An `a2dp_ldac_t` with every member zero. -/
def a2dp_ldac_t.zero : a2dp_ldac_t :=
  { info := a2dp_vendor_codec_t.zero, frequency := 0, rfa1 := 0, channel_mode := 0,
    rfa2 := 0 }

/-- An `a2dp_aptx_ll_new_caps_t` with every member zero. -/
def a2dp_aptx_ll_new_caps_t.zero : a2dp_aptx_ll_new_caps_t :=
  { reserved := 0, target_level2 := 0, target_level1 := 0, initial_level2 := 0,
    initial_level1 := 0, sra_max_rate := 0, sra_avg_time := 0, good_working_level2 := 0,
    good_working_level1 := 0 }

/-! ## Initialiser macros

`X_INIT_*(v)` expands to designators (`.member = value,`) of a designated
initialiser; the members the initialiser does not name are zero-initialised.
Each macro is the function applying its designators to the object under
construction, and an initialiser holding only such macros starts from the zero
object. -/

/-- Macro `MPEG_INIT_BITRATE(b)`. -/
def MPEG_INIT_BITRATE (b : Nat) (a : a2dp_mpeg_t) : a2dp_mpeg_t :=
  { a with
    bitrate1 := bitfield 7 ((b >>> 8) &&& 0x7f)
    bitrate2 := bitfield 8 (b &&& 0xff) }

/-- Macro `AAC_INIT_BITRATE(b)`, default build. -/
def AAC_INIT_BITRATE (b : Nat) (a : a2dp_aac_t) : a2dp_aac_t :=
  { a with
    bitrate1 := bitfield 7 ((b >>> 16) &&& 0x7f)
    bitrate2 := bitfield 8 ((b >>> 8) &&& 0xff)
    bitrate3 := bitfield 8 (b &&& 0xff) }

/-- Macro `AAC_INIT_FREQUENCY(f)`, default build. -/
def AAC_INIT_FREQUENCY (f : Nat) (a : a2dp_aac_t) : a2dp_aac_t :=
  { a with
    frequency1 := bitfield 8 ((f >>> 4) &&& 0xff)
    frequency2 := bitfield 4 (f &&& 0x0f) }

/-- Macro `AAC_INIT_BITRATE(b)`, build with `FHG_HEAAC_IN_A2DP`. -/
def Heaac.AAC_INIT_BITRATE (b : Nat) (a : Heaac.a2dp_aac_t) : Heaac.a2dp_aac_t :=
  { a with
    bitrate1 := bitfield 7 ((b >>> 16) &&& 0x7f)
    bitrate2 := bitfield 8 ((b >>> 8) &&& 0xff)
    bitrate3 := bitfield 8 (b &&& 0xff) }

/-- Macro `AAC_INIT_FREQUENCY(f)`, build with `FHG_HEAAC_IN_A2DP`. -/
def Heaac.AAC_INIT_FREQUENCY (f : Nat) (a : Heaac.a2dp_aac_t) : Heaac.a2dp_aac_t :=
  { a with
    frequency1 := bitfield 8 ((f >>> 4) &&& 0xff)
    frequency2 := bitfield 4 (f &&& 0x0f) }

/-- Macro `USAC_INIT_BITRATE(b)`. -/
def USAC_INIT_BITRATE (b : Nat) (a : a2dp_usac_t) : a2dp_usac_t :=
  { a with
    bitrate1 := bitfield 7 ((b >>> 16) &&& 0x7f)
    bitrate2 := bitfield 8 ((b >>> 8) &&& 0xff)
    bitrate3 := bitfield 8 (b &&& 0xff) }

/-- Macro `USAC_INIT_FREQUENCY(f)`. -/
def USAC_INIT_FREQUENCY (f : Nat) (a : a2dp_usac_t) : a2dp_usac_t :=
  { a with
    frequency1 := bitfield 6 ((f >>> 20) &&& 0x3f)
    frequency2 := bitfield 8 ((f >>> 12) &&& 0xff)
    frequency3 := bitfield 8 ((f >>> 4) &&& 0xff)
    frequency4 := bitfield 4 (f &&& 0x0f) }

/-! ## Wire bit ranges, as the specification numbers them -/

/-- Specification side: the bytes read as one number, first byte most
significant (network order). -/
def specWireValue : List Nat → Nat
  | [] => 0
  | b :: bs => b * 2 ^ (8 * bs.length) + specWireValue bs

/-- Specification side: the value of the `len` wire bits starting at bit
`first`, bit 0 being the most significant bit of the first byte. -/
def specWireBits (bytes : List Nat) (first len : Nat) : Nat :=
  specWireValue bytes / 2 ^ (8 * bytes.length - first - len) % 2 ^ len

/-! ## Decoding with length validation -/

def A2DP_CODEC_SBC : Nat := 0x00
def A2DP_CODEC_MPEG12 : Nat := 0x01
def A2DP_CODEC_MPEG24 : Nat := 0x02
def A2DP_CODEC_ATRAC : Nat := 0x04
/-- Defined only in the build with `FHG_USAC_IN_A2DP`. -/
def A2DP_CODEC_MPEGD : Nat := 0x08

def A2DP_CODEC_VENDOR : Nat := 0xFF

def A2DP_CODEC_VENDOR_APTX : Nat := 0x4FFF
def A2DP_CODEC_VENDOR_APTX_AD : Nat := 0xADFF
def A2DP_CODEC_VENDOR_APTX_HD : Nat := 0x24FF
def A2DP_CODEC_VENDOR_APTX_LL : Nat := 0xA2FF
def A2DP_CODEC_VENDOR_APTX_TWS : Nat := 0x25FF
def A2DP_CODEC_VENDOR_FASTSTREAM : Nat := 0xA1FF
def A2DP_CODEC_VENDOR_LDAC : Nat := 0x2DFF
def A2DP_CODEC_VENDOR_LHDC : Nat := 0x4CFF
def A2DP_CODEC_VENDOR_LHDC_V1 : Nat := 0x48FF
def A2DP_CODEC_VENDOR_LLAC : Nat := 0x44FF
def A2DP_CODEC_VENDOR_SAMSUNG_HD : Nat := 0x52FF
def A2DP_CODEC_VENDOR_SAMSUNG_SC : Nat := 0x53FF

/-! ## MPEG flags -/

def MPEG_CHANNEL_MODE_MONO : Nat := 1 <<< 3
def MPEG_CHANNEL_MODE_DUAL_CHANNEL : Nat := 1 <<< 2
def MPEG_CHANNEL_MODE_STEREO : Nat := 1 <<< 1
def MPEG_CHANNEL_MODE_JOINT_STEREO : Nat := 1

def MPEG_LAYER_MP1 : Nat := 1 <<< 2
def MPEG_LAYER_MP2 : Nat := 1 <<< 1
def MPEG_LAYER_MP3 : Nat := 1

def MPEG_SAMPLING_FREQ_16000 : Nat := 1 <<< 5
def MPEG_SAMPLING_FREQ_22050 : Nat := 1 <<< 4
def MPEG_SAMPLING_FREQ_24000 : Nat := 1 <<< 3
def MPEG_SAMPLING_FREQ_32000 : Nat := 1 <<< 2
def MPEG_SAMPLING_FREQ_44100 : Nat := 1 <<< 1
def MPEG_SAMPLING_FREQ_48000 : Nat := 1

def MPEG_BIT_RATE_INDEX_0 : Nat := 1 <<< 0
def MPEG_BIT_RATE_INDEX_1 : Nat := 1 <<< 1
def MPEG_BIT_RATE_INDEX_2 : Nat := 1 <<< 2
def MPEG_BIT_RATE_INDEX_3 : Nat := 1 <<< 3
def MPEG_BIT_RATE_INDEX_4 : Nat := 1 <<< 4
def MPEG_BIT_RATE_INDEX_5 : Nat := 1 <<< 5
def MPEG_BIT_RATE_INDEX_6 : Nat := 1 <<< 6
def MPEG_BIT_RATE_INDEX_7 : Nat := 1 <<< 7
def MPEG_BIT_RATE_INDEX_8 : Nat := 1 <<< 8
def MPEG_BIT_RATE_INDEX_9 : Nat := 1 <<< 9
def MPEG_BIT_RATE_INDEX_10 : Nat := 1 <<< 10
def MPEG_BIT_RATE_INDEX_11 : Nat := 1 <<< 11
def MPEG_BIT_RATE_INDEX_12 : Nat := 1 <<< 12
def MPEG_BIT_RATE_INDEX_13 : Nat := 1 <<< 13
def MPEG_BIT_RATE_INDEX_14 : Nat := 1 <<< 14

def MPEG_MP1_BIT_RATE_32000 : Nat := MPEG_BIT_RATE_INDEX_1
def MPEG_MP1_BIT_RATE_64000 : Nat := MPEG_BIT_RATE_INDEX_2
def MPEG_MP1_BIT_RATE_96000 : Nat := MPEG_BIT_RATE_INDEX_3
def MPEG_MP1_BIT_RATE_128000 : Nat := MPEG_BIT_RATE_INDEX_4
def MPEG_MP1_BIT_RATE_160000 : Nat := MPEG_BIT_RATE_INDEX_5
def MPEG_MP1_BIT_RATE_192000 : Nat := MPEG_BIT_RATE_INDEX_6
def MPEG_MP1_BIT_RATE_224000 : Nat := MPEG_BIT_RATE_INDEX_7
def MPEG_MP1_BIT_RATE_256000 : Nat := MPEG_BIT_RATE_INDEX_8
def MPEG_MP1_BIT_RATE_288000 : Nat := MPEG_BIT_RATE_INDEX_9
def MPEG_MP1_BIT_RATE_320000 : Nat := MPEG_BIT_RATE_INDEX_10
def MPEG_MP1_BIT_RATE_352000 : Nat := MPEG_BIT_RATE_INDEX_11
def MPEG_MP1_BIT_RATE_384000 : Nat := MPEG_BIT_RATE_INDEX_12
def MPEG_MP1_BIT_RATE_416000 : Nat := MPEG_BIT_RATE_INDEX_13
def MPEG_MP1_BIT_RATE_448000 : Nat := MPEG_BIT_RATE_INDEX_14

def MPEG_MP2_BIT_RATE_32000 : Nat := MPEG_BIT_RATE_INDEX_1
def MPEG_MP2_BIT_RATE_48000 : Nat := MPEG_BIT_RATE_INDEX_2
def MPEG_MP2_BIT_RATE_56000 : Nat := MPEG_BIT_RATE_INDEX_3
def MPEG_MP2_BIT_RATE_64000 : Nat := MPEG_BIT_RATE_INDEX_4
def MPEG_MP2_BIT_RATE_80000 : Nat := MPEG_BIT_RATE_INDEX_5
def MPEG_MP2_BIT_RATE_96000 : Nat := MPEG_BIT_RATE_INDEX_6
def MPEG_MP2_BIT_RATE_112000 : Nat := MPEG_BIT_RATE_INDEX_7
def MPEG_MP2_BIT_RATE_128000 : Nat := MPEG_BIT_RATE_INDEX_8
def MPEG_MP2_BIT_RATE_160000 : Nat := MPEG_BIT_RATE_INDEX_9
def MPEG_MP2_BIT_RATE_192000 : Nat := MPEG_BIT_RATE_INDEX_10
def MPEG_MP2_BIT_RATE_224000 : Nat := MPEG_BIT_RATE_INDEX_11
def MPEG_MP2_BIT_RATE_256000 : Nat := MPEG_BIT_RATE_INDEX_12
def MPEG_MP2_BIT_RATE_320000 : Nat := MPEG_BIT_RATE_INDEX_13
def MPEG_MP2_BIT_RATE_384000 : Nat := MPEG_BIT_RATE_INDEX_14

def MPEG_MP3_BIT_RATE_32000 : Nat := MPEG_BIT_RATE_INDEX_1
def MPEG_MP3_BIT_RATE_40000 : Nat := MPEG_BIT_RATE_INDEX_2
def MPEG_MP3_BIT_RATE_48000 : Nat := MPEG_BIT_RATE_INDEX_3
def MPEG_MP3_BIT_RATE_56000 : Nat := MPEG_BIT_RATE_INDEX_4
def MPEG_MP3_BIT_RATE_64000 : Nat := MPEG_BIT_RATE_INDEX_5
def MPEG_MP3_BIT_RATE_80000 : Nat := MPEG_BIT_RATE_INDEX_6
def MPEG_MP3_BIT_RATE_96000 : Nat := MPEG_BIT_RATE_INDEX_7
def MPEG_MP3_BIT_RATE_112000 : Nat := MPEG_BIT_RATE_INDEX_8
def MPEG_MP3_BIT_RATE_128000 : Nat := MPEG_BIT_RATE_INDEX_9
def MPEG_MP3_BIT_RATE_160000 : Nat := MPEG_BIT_RATE_INDEX_10
def MPEG_MP3_BIT_RATE_192000 : Nat := MPEG_BIT_RATE_INDEX_11
def MPEG_MP3_BIT_RATE_224000 : Nat := MPEG_BIT_RATE_INDEX_12
def MPEG_MP3_BIT_RATE_256000 : Nat := MPEG_BIT_RATE_INDEX_13
def MPEG_MP3_BIT_RATE_320000 : Nat := MPEG_BIT_RATE_INDEX_14

def MPEG_BIT_RATE_FREE : Nat := MPEG_BIT_RATE_INDEX_0

/-! ## AAC flags (default build) -/

def AAC_OBJECT_TYPE_MPEG2_AAC_LC : Nat := 0x80
def AAC_OBJECT_TYPE_MPEG4_AAC_LC : Nat := 0x40
def AAC_OBJECT_TYPE_MPEG4_AAC_LTP : Nat := 0x20
def AAC_OBJECT_TYPE_MPEG4_AAC_SCA : Nat := 0x10

def AAC_SAMPLING_FREQ_8000 : Nat := 0x0800
def AAC_SAMPLING_FREQ_11025 : Nat := 0x0400
def AAC_SAMPLING_FREQ_12000 : Nat := 0x0200
def AAC_SAMPLING_FREQ_16000 : Nat := 0x0100
def AAC_SAMPLING_FREQ_22050 : Nat := 0x0080
def AAC_SAMPLING_FREQ_24000 : Nat := 0x0040
def AAC_SAMPLING_FREQ_32000 : Nat := 0x0020
def AAC_SAMPLING_FREQ_44100 : Nat := 0x0010
def AAC_SAMPLING_FREQ_48000 : Nat := 0x0008
def AAC_SAMPLING_FREQ_64000 : Nat := 0x0004
def AAC_SAMPLING_FREQ_88200 : Nat := 0x0002
def AAC_SAMPLING_FREQ_96000 : Nat := 0x0001

def AAC_CHANNELS_1 : Nat := 0x02
def AAC_CHANNELS_2 : Nat := 0x01

/-! ## AAC flags (build with `FHG_HEAAC_IN_A2DP`) -/

def Heaac.AAC_OBJECT_TYPE_MPEG2_AAC_LC : Nat := 0x40
def Heaac.AAC_OBJECT_TYPE_MPEG4_AAC_LC : Nat := 0x20
def Heaac.AAC_OBJECT_TYPE_MPEG4_AAC_LTP : Nat := 0x10
def Heaac.AAC_OBJECT_TYPE_MPEG4_AAC_SCA : Nat := 0x08
def Heaac.AAC_OBJECT_TYPE_MPEG4_HEAAC : Nat := 0x04
def Heaac.AAC_OBJECT_TYPE_MPEG4_HEAACV2 : Nat := 0x02
def Heaac.AAC_OBJECT_TYPE_MPEG4_ELDV2 : Nat := 0x01

def Heaac.AAC_CHANNELS_1 : Nat := 0x08
def Heaac.AAC_CHANNELS_2 : Nat := 0x04
def Heaac.AAC_CHANNELS_6 : Nat := 0x02
def Heaac.AAC_CHANNELS_8 : Nat := 0x01

/-! ## USAC, ATRAC, aptX, FastStream and LDAC flags -/

def USAC_OBJECT_TYPE_MPEGD_USAC_WITH_DRC : Nat := 0x02

def USAC_CHANNELS_1 : Nat := 0x08
def USAC_CHANNELS_2 : Nat := 0x04

def ATRAC_CHANNEL_MODE_MONO : Nat := 0x04
def ATRAC_CHANNEL_MODE_DUAL_CHANNEL : Nat := 0x02
def ATRAC_CHANNEL_MODE_JOINT_STEREO : Nat := 0x01

def ATRAC_SAMPLING_FREQ_44100 : Nat := 0x02
def ATRAC_SAMPLING_FREQ_48000 : Nat := 0x01

def APTX_CHANNEL_MODE_MONO : Nat := 0x01
def APTX_CHANNEL_MODE_STEREO : Nat := 0x02
def APTX_CHANNEL_MODE_TWS : Nat := 0x08

def APTX_SAMPLING_FREQ_16000 : Nat := 0x08
def APTX_SAMPLING_FREQ_32000 : Nat := 0x04
def APTX_SAMPLING_FREQ_44100 : Nat := 0x02
def APTX_SAMPLING_FREQ_48000 : Nat := 0x01

def FASTSTREAM_DIRECTION_VOICE : Nat := 0x2
def FASTSTREAM_DIRECTION_MUSIC : Nat := 0x1

def FASTSTREAM_SAMPLING_FREQ_MUSIC_44100 : Nat := 0x2
def FASTSTREAM_SAMPLING_FREQ_MUSIC_48000 : Nat := 0x1

def FASTSTREAM_SAMPLING_FREQ_VOICE_16000 : Nat := 0x2

def LDAC_SAMPLING_FREQ_44100 : Nat := 0x20
def LDAC_SAMPLING_FREQ_48000 : Nat := 0x10
def LDAC_SAMPLING_FREQ_88200 : Nat := 0x08
def LDAC_SAMPLING_FREQ_96000 : Nat := 0x04
def LDAC_SAMPLING_FREQ_176400 : Nat := 0x02
def LDAC_SAMPLING_FREQ_192000 : Nat := 0x01

def LDAC_CHANNEL_MODE_MONO : Nat := 0x04
def LDAC_CHANNEL_MODE_DUAL : Nat := 0x02
def LDAC_CHANNEL_MODE_STEREO : Nat := 0x01

/-! ## Default parameters for the aptX Low Latency encoder -/

def APTX_LL_TARGET_LEVEL2 : Nat := 0xb4
def APTX_LL_TARGET_LEVEL1 : Nat := 0x00

def APTX_LL_INITIAL_LEVEL2 : Nat := 0x68
def APTX_LL_INITIAL_LEVEL1 : Nat := 0x01

def APTX_LL_SRA_MAX_RATE : Nat := 0x32

def APTX_LL_SRA_AVG_TIME : Nat := 0x01

def APTX_LL_GOOD_WORKING_LEVEL2 : Nat := 0xB4
def APTX_LL_GOOD_WORKING_LEVEL1 : Nat := 0x00

/-! ## Flag constants grouped by the record member that holds them -/

/-- Bitwise OR of a list of flags. -/
def orAll (flags : List Nat) : Nat := flags.foldr (· ||| ·) 0

/-- The flag constants `flags` fit a member of `w` bits: each is a single set
bit below bit `w`, they are pairwise distinct, and their OR is below `2^w`. -/
def FlagsFit (w : Nat) (flags : List Nat) : Prop :=
  (∀ c ∈ flags, ∃ k, k < w ∧ c = 2 ^ k) ∧ flags.Nodup ∧ orAll flags < 2 ^ w

instance (w : Nat) (flags : List Nat) : Decidable (FlagsFit w flags) := by
  unfold FlagsFit; infer_instance

/-- Flags of `a2dp_sbc_t.frequency`. -/
def sbcFrequencyFlags : List Nat :=
  [SBC_SAMPLING_FREQ_16000, SBC_SAMPLING_FREQ_32000, SBC_SAMPLING_FREQ_44100,
   SBC_SAMPLING_FREQ_48000]

/-- Flags of `a2dp_sbc_t.channel_mode`. -/
def sbcChannelModeFlags : List Nat :=
  [SBC_CHANNEL_MODE_MONO, SBC_CHANNEL_MODE_DUAL_CHANNEL, SBC_CHANNEL_MODE_STEREO,
   SBC_CHANNEL_MODE_JOINT_STEREO]

/-- Flags of `a2dp_sbc_t.block_length`. -/
def sbcBlockLengthFlags : List Nat :=
  [SBC_BLOCK_LENGTH_4, SBC_BLOCK_LENGTH_8, SBC_BLOCK_LENGTH_12, SBC_BLOCK_LENGTH_16]

/-- Flags of `a2dp_sbc_t.subbands`. -/
def sbcSubbandsFlags : List Nat := [SBC_SUBBANDS_4, SBC_SUBBANDS_8]

/-- Flags of `a2dp_sbc_t.allocation_method`. -/
def sbcAllocationFlags : List Nat := [SBC_ALLOCATION_SNR, SBC_ALLOCATION_LOUDNESS]

/-- Flags of `a2dp_mpeg_t.channel_mode`. -/
def mpegChannelModeFlags : List Nat :=
  [MPEG_CHANNEL_MODE_MONO, MPEG_CHANNEL_MODE_DUAL_CHANNEL, MPEG_CHANNEL_MODE_STEREO,
   MPEG_CHANNEL_MODE_JOINT_STEREO]

/-- Flags of `a2dp_mpeg_t.layer`. -/
def mpegLayerFlags : List Nat := [MPEG_LAYER_MP1, MPEG_LAYER_MP2, MPEG_LAYER_MP3]

/-- Flags of `a2dp_mpeg_t.frequency`. -/
def mpegFrequencyFlags : List Nat :=
  [MPEG_SAMPLING_FREQ_16000, MPEG_SAMPLING_FREQ_22050, MPEG_SAMPLING_FREQ_24000,
   MPEG_SAMPLING_FREQ_32000, MPEG_SAMPLING_FREQ_44100, MPEG_SAMPLING_FREQ_48000]

/-- Flags of the MPEG bitrate (`bitrate1`, `bitrate2`): the fifteen
`MPEG_BIT_RATE_INDEX_*` constants. -/
def mpegBitRateIndexFlags : List Nat :=
  [MPEG_BIT_RATE_INDEX_0, MPEG_BIT_RATE_INDEX_1, MPEG_BIT_RATE_INDEX_2,
   MPEG_BIT_RATE_INDEX_3, MPEG_BIT_RATE_INDEX_4, MPEG_BIT_RATE_INDEX_5,
   MPEG_BIT_RATE_INDEX_6, MPEG_BIT_RATE_INDEX_7, MPEG_BIT_RATE_INDEX_8,
   MPEG_BIT_RATE_INDEX_9, MPEG_BIT_RATE_INDEX_10, MPEG_BIT_RATE_INDEX_11,
   MPEG_BIT_RATE_INDEX_12, MPEG_BIT_RATE_INDEX_13, MPEG_BIT_RATE_INDEX_14]

/-- Layer 1 names of the MPEG bitrate flags (`MPEG_MP1_BIT_RATE_*`). -/
def mpegMp1BitRateFlags : List Nat :=
  [MPEG_MP1_BIT_RATE_32000, MPEG_MP1_BIT_RATE_64000, MPEG_MP1_BIT_RATE_96000,
   MPEG_MP1_BIT_RATE_128000, MPEG_MP1_BIT_RATE_160000, MPEG_MP1_BIT_RATE_192000,
   MPEG_MP1_BIT_RATE_224000, MPEG_MP1_BIT_RATE_256000, MPEG_MP1_BIT_RATE_288000,
   MPEG_MP1_BIT_RATE_320000, MPEG_MP1_BIT_RATE_352000, MPEG_MP1_BIT_RATE_384000,
   MPEG_MP1_BIT_RATE_416000, MPEG_MP1_BIT_RATE_448000]

/-- Layer 2 names of the MPEG bitrate flags (`MPEG_MP2_BIT_RATE_*`). -/
def mpegMp2BitRateFlags : List Nat :=
  [MPEG_MP2_BIT_RATE_32000, MPEG_MP2_BIT_RATE_48000, MPEG_MP2_BIT_RATE_56000,
   MPEG_MP2_BIT_RATE_64000, MPEG_MP2_BIT_RATE_80000, MPEG_MP2_BIT_RATE_96000,
   MPEG_MP2_BIT_RATE_112000, MPEG_MP2_BIT_RATE_128000, MPEG_MP2_BIT_RATE_160000,
   MPEG_MP2_BIT_RATE_192000, MPEG_MP2_BIT_RATE_224000, MPEG_MP2_BIT_RATE_256000,
   MPEG_MP2_BIT_RATE_320000, MPEG_MP2_BIT_RATE_384000]

/-- Layer 3 names of the MPEG bitrate flags (`MPEG_MP3_BIT_RATE_*`). -/
def mpegMp3BitRateFlags : List Nat :=
  [MPEG_MP3_BIT_RATE_32000, MPEG_MP3_BIT_RATE_40000, MPEG_MP3_BIT_RATE_48000,
   MPEG_MP3_BIT_RATE_56000, MPEG_MP3_BIT_RATE_64000, MPEG_MP3_BIT_RATE_80000,
   MPEG_MP3_BIT_RATE_96000, MPEG_MP3_BIT_RATE_112000, MPEG_MP3_BIT_RATE_128000,
   MPEG_MP3_BIT_RATE_160000, MPEG_MP3_BIT_RATE_192000, MPEG_MP3_BIT_RATE_224000,
   MPEG_MP3_BIT_RATE_256000, MPEG_MP3_BIT_RATE_320000]

/-- Flags of `a2dp_aac_t.object_type`, default build. -/
def aacObjectTypeFlags : List Nat :=
  [AAC_OBJECT_TYPE_MPEG2_AAC_LC, AAC_OBJECT_TYPE_MPEG4_AAC_LC, AAC_OBJECT_TYPE_MPEG4_AAC_LTP,
   AAC_OBJECT_TYPE_MPEG4_AAC_SCA]

/-- Flags of the AAC frequency (`frequency1`, `frequency2`), both builds. -/
def aacFrequencyFlags : List Nat :=
  [AAC_SAMPLING_FREQ_8000, AAC_SAMPLING_FREQ_11025, AAC_SAMPLING_FREQ_12000,
   AAC_SAMPLING_FREQ_16000, AAC_SAMPLING_FREQ_22050, AAC_SAMPLING_FREQ_24000,
   AAC_SAMPLING_FREQ_32000, AAC_SAMPLING_FREQ_44100, AAC_SAMPLING_FREQ_48000,
   AAC_SAMPLING_FREQ_64000, AAC_SAMPLING_FREQ_88200, AAC_SAMPLING_FREQ_96000]

/-- Flags of `a2dp_aac_t.channels`, default build. -/
def aacChannelsFlags : List Nat := [AAC_CHANNELS_1, AAC_CHANNELS_2]

/-- Flags of `a2dp_aac_t.object_type`, build with `FHG_HEAAC_IN_A2DP`. -/
def Heaac.aacObjectTypeFlags : List Nat :=
  [Heaac.AAC_OBJECT_TYPE_MPEG2_AAC_LC, Heaac.AAC_OBJECT_TYPE_MPEG4_AAC_LC,
   Heaac.AAC_OBJECT_TYPE_MPEG4_AAC_LTP, Heaac.AAC_OBJECT_TYPE_MPEG4_AAC_SCA,
   Heaac.AAC_OBJECT_TYPE_MPEG4_HEAAC, Heaac.AAC_OBJECT_TYPE_MPEG4_HEAACV2,
   Heaac.AAC_OBJECT_TYPE_MPEG4_ELDV2]

/-- Flags of `a2dp_aac_t.channels`, build with `FHG_HEAAC_IN_A2DP`. -/
def Heaac.aacChannelsFlags : List Nat :=
  [Heaac.AAC_CHANNELS_1, Heaac.AAC_CHANNELS_2, Heaac.AAC_CHANNELS_6, Heaac.AAC_CHANNELS_8]

/-- Flags of `a2dp_usac_t.object_type`. -/
def usacObjectTypeFlags : List Nat := [USAC_OBJECT_TYPE_MPEGD_USAC_WITH_DRC]

/-- Flags of the USAC frequency (`frequency1` .. `frequency4`). -/
def usacFrequencyFlags : List Nat :=
  [USAC_SAMPLING_FREQ_7350, USAC_SAMPLING_FREQ_8000, USAC_SAMPLING_FREQ_8820,
   USAC_SAMPLING_FREQ_9600, USAC_SAMPLING_FREQ_11025, USAC_SAMPLING_FREQ_11760,
   USAC_SAMPLING_FREQ_12000, USAC_SAMPLING_FREQ_12800, USAC_SAMPLING_FREQ_14700,
   USAC_SAMPLING_FREQ_16000, USAC_SAMPLING_FREQ_17640, USAC_SAMPLING_FREQ_19200,
   USAC_SAMPLING_FREQ_22050, USAC_SAMPLING_FREQ_24000, USAC_SAMPLING_FREQ_29400,
   USAC_SAMPLING_FREQ_32000, USAC_SAMPLING_FREQ_35280, USAC_SAMPLING_FREQ_38400,
   USAC_SAMPLING_FREQ_44100, USAC_SAMPLING_FREQ_48000, USAC_SAMPLING_FREQ_58800,
   USAC_SAMPLING_FREQ_64000, USAC_SAMPLING_FREQ_70560, USAC_SAMPLING_FREQ_76800,
   USAC_SAMPLING_FREQ_88200, USAC_SAMPLING_FREQ_96000]

/-- Flags of `a2dp_usac_t.channels`. -/
def usacChannelsFlags : List Nat := [USAC_CHANNELS_1, USAC_CHANNELS_2]

/-- Flags of `a2dp_atrac_t.channel_mode`. -/
def atracChannelModeFlags : List Nat :=
  [ATRAC_CHANNEL_MODE_MONO, ATRAC_CHANNEL_MODE_DUAL_CHANNEL, ATRAC_CHANNEL_MODE_JOINT_STEREO]

/-- Flags of `a2dp_atrac_t.frequency`. -/
def atracFrequencyFlags : List Nat := [ATRAC_SAMPLING_FREQ_44100, ATRAC_SAMPLING_FREQ_48000]

/-- Flags of `a2dp_aptx_t.channel_mode`. -/
def aptxChannelModeFlags : List Nat :=
  [APTX_CHANNEL_MODE_MONO, APTX_CHANNEL_MODE_STEREO, APTX_CHANNEL_MODE_TWS]

/-- Flags of `a2dp_aptx_t.frequency`. -/
def aptxFrequencyFlags : List Nat :=
  [APTX_SAMPLING_FREQ_16000, APTX_SAMPLING_FREQ_32000, APTX_SAMPLING_FREQ_44100,
   APTX_SAMPLING_FREQ_48000]

/-- Flags of `a2dp_faststream_t.direction`. -/
def faststreamDirectionFlags : List Nat :=
  [FASTSTREAM_DIRECTION_VOICE, FASTSTREAM_DIRECTION_MUSIC]

/-- Flags of `a2dp_faststream_t.frequency_music`. -/
def faststreamFrequencyMusicFlags : List Nat :=
  [FASTSTREAM_SAMPLING_FREQ_MUSIC_44100, FASTSTREAM_SAMPLING_FREQ_MUSIC_48000]

/-- Flags of `a2dp_faststream_t.frequency_voice`. -/
def faststreamFrequencyVoiceFlags : List Nat := [FASTSTREAM_SAMPLING_FREQ_VOICE_16000]

/-- Flags of `a2dp_ldac_t.frequency`. -/
def ldacFrequencyFlags : List Nat :=
  [LDAC_SAMPLING_FREQ_44100, LDAC_SAMPLING_FREQ_48000, LDAC_SAMPLING_FREQ_88200,
   LDAC_SAMPLING_FREQ_96000, LDAC_SAMPLING_FREQ_176400, LDAC_SAMPLING_FREQ_192000]

/-- Flags of `a2dp_ldac_t.channel_mode`. -/
def ldacChannelModeFlags : List Nat :=
  [LDAC_CHANNEL_MODE_MONO, LDAC_CHANNEL_MODE_DUAL, LDAC_CHANNEL_MODE_STEREO]

/-- The twelve BlueALSA 16-bit vendor codec extension codes. -/
def vendorCodecCodes : List Nat :=
  [A2DP_CODEC_VENDOR_APTX, A2DP_CODEC_VENDOR_APTX_AD, A2DP_CODEC_VENDOR_APTX_HD,
   A2DP_CODEC_VENDOR_APTX_LL, A2DP_CODEC_VENDOR_APTX_TWS, A2DP_CODEC_VENDOR_FASTSTREAM,
   A2DP_CODEC_VENDOR_LDAC, A2DP_CODEC_VENDOR_LHDC, A2DP_CODEC_VENDOR_LHDC_V1,
   A2DP_CODEC_VENDOR_LLAC, A2DP_CODEC_VENDOR_SAMSUNG_HD, A2DP_CODEC_VENDOR_SAMSUNG_SC]

/-- The standard 8-bit codec codes (`A2DP_CODEC_MPEGD` exists with
`FHG_USAC_IN_A2DP`). -/
def standardCodecCodes : List Nat :=
  [A2DP_CODEC_SBC, A2DP_CODEC_MPEG12, A2DP_CODEC_MPEG24, A2DP_CODEC_ATRAC, A2DP_CODEC_MPEGD]

/-! ## Broadcom vendor command for reading the SCO routing (`src/hci.c`) -/

namespace Hci

/-- The local packed struct `rp` of `hci_bcm_read_sco_pcm_params`: six
`uint8_t` reply parameters. -/
structure sco_pcm_params_rp where
  status : Nat
  sco_routing : Nat
  pcm_interface_rate : Nat
  pcm_frame_type : Nat
  pcm_sync_mode : Nat
  pcm_clock_mode : Nat
deriving DecidableEq, Repr

/-- Members of `rp` in declaration order. -/
def sco_pcm_params_rp.widths : List Nat := [8, 8, 8, 8, 8, 8]

/-- The struct `rp` as `hci_send_req` fills it through `rq.rparam` with the
`rq.rlen = sizeof(rp)` reply bytes. -/
def sco_pcm_params_rp.ofBytes (o : ByteOrder) (reply : List Nat) : Option sco_pcm_params_rp :=
  match unpack o sco_pcm_params_rp.widths reply with
  | [st, routing, rate, frame, sync, clock] =>
    some { status := st, sco_routing := routing, pcm_interface_rate := rate,
           pcm_frame_type := frame, pcm_sync_mode := sync, pcm_clock_mode := clock }
  | _ => none

/-- An output parameter `uint8_t *p`: `none` is `NULL`, `some v` points to a
byte that holds `v`. -/
abbrev OutPtr := Option Nat

/-- The statement `if (p != NULL) *p = v;`. -/
def storeIfNotNull (p : OutPtr) (v : Nat) : OutPtr :=
  match p with
  | none => none
  | some _ => some (v % 2 ^ 8)

/-- What the call of `hci_send_req(dd, &rq, to)` does, as far as the caller
sees it: its return value, the contents of `rp` after the call and the value
of `errno` after the call. -/
structure SendReq where
  ret : Int
  rp : sco_pcm_params_rp
  errno : Nat
deriving DecidableEq, Repr

/-- Everything `hci_bcm_read_sco_pcm_params` returns or may change: the return
value, `errno` and the bytes behind the five output pointers. -/
structure Outcome where
  ret : Int
  errno : Nat
  routing : OutPtr
  rate : OutPtr
  frame : OutPtr
  sync : OutPtr
  clock : OutPtr
deriving DecidableEq, Repr

/-- Function `hci_bcm_read_sco_pcm_params`. The `errno.h` constant `EIO` is a
parameter; `send` is the effect of the call of `hci_send_req`. -/
def hci_bcm_read_sco_pcm_params ( EIO : Nat) (send : SendReq)
    (routing rate frame sync clock : OutPtr) : Outcome :=
  if send.ret < 0 then
    { ret := -1, errno := send.errno, routing := routing, rate := rate, frame := frame,
      sync := sync, clock := clock }
  else if send.rp.status ≠ 0 then
    { ret := -1, errno := EIO, routing := routing, rate := rate, frame := frame,
      sync := sync, clock := clock }
  else
    { ret := 0, errno := send.errno,
      routing := storeIfNotNull routing send.rp.sco_routing,
      rate := storeIfNotNull rate send.rp.pcm_interface_rate,
      frame := storeIfNotNull frame send.rp.pcm_frame_type,
      sync := storeIfNotNull sync send.rp.pcm_sync_mode,
      clock := storeIfNotNull clock send.rp.pcm_clock_mode }

end Hci

/-! ## Shift and mask arithmetic -/

theorem and_mask (x n : Nat) : x &&& (2 ^ n - 1) = x % 2 ^ n :=
  Nat.and_pow_two_sub_one_eq_mod x n

theorem and_0xff (x : Nat) : x &&& 0xff = x % 256 := and_mask x 8

theorem and_0x7f (x : Nat) : x &&& 0x7f = x % 128 := and_mask x 7

theorem and_0x3f (x : Nat) : x &&& 0x3f = x % 64 := and_mask x 6

theorem and_0x0f (x : Nat) : x &&& 0x0f = x % 16 := and_mask x 4

theorem and_0x07 (x : Nat) : x &&& 0x07 = x % 8 := and_mask x 3

/-- The value `hi << n | lo` is `hi * 2^n + lo` when `lo` fits `n` bits. -/
theorem shl_or (hi lo n : Nat) (h : lo < 2 ^ n) : (hi <<< n) ||| lo = hi * 2 ^ n + lo := by
  rw [Nat.shiftLeft_eq, Nat.mul_comm, Nat.mul_add_lt_is_or h]

/-- The value `lo | hi << n` is `hi * 2^n + lo` when `lo` fits `n` bits. -/
theorem or_shl (hi lo n : Nat) (h : lo < 2 ^ n) : lo ||| (hi <<< n) = hi * 2 ^ n + lo := by
  rw [Nat.lor_comm, shl_or hi lo n h]


/-! ## Object representation of each record -/

/-- In both branches the members of every declaration fill whole bytes and none
straddles a byte boundary, so `packBits` and `unpackBits` allocate them as the
compiler does. -/
theorem declarations_fit_bytes (o : ByteOrder) :
    fitsBytes a2dp_vendor_codec_t.widths 0 = true ∧
    fitsBytes (a2dp_sbc_t.widths o) 0 = true ∧
    fitsBytes (a2dp_mpeg_t.widths o) 0 = true ∧
    fitsBytes (a2dp_aac_t.widths o) 0 = true ∧
    fitsBytes (Heaac.a2dp_aac_t.widths o) 0 = true ∧
    fitsBytes (a2dp_usac_t.widths o) 0 = true ∧
    fitsBytes (a2dp_atrac_t.widths o) 0 = true ∧
    fitsBytes (a2dp_aptx_t.widths o) 0 = true ∧
    fitsBytes (a2dp_faststream_t.widths o) 0 = true ∧
    fitsBytes (a2dp_aptx_ll_t.widths o) 0 = true ∧
    fitsBytes (a2dp_ldac_t.widths o) 0 = true := by
  cases o <;> decide

/-- The widths used for reading are the declared widths of the members. -/
theorem widths_of_slots (o : ByteOrder) :
    (∀ a : a2dp_vendor_codec_t, a.slots.map Slot.width = a2dp_vendor_codec_t.widths) ∧
    (∀ a : a2dp_sbc_t, (a.slots o).map Slot.width = a2dp_sbc_t.widths o) ∧
    (∀ a : a2dp_mpeg_t, (a.slots o).map Slot.width = a2dp_mpeg_t.widths o) ∧
    (∀ a : a2dp_aac_t, (a.slots o).map Slot.width = a2dp_aac_t.widths o) ∧
    (∀ a : Heaac.a2dp_aac_t, (a.slots o).map Slot.width = Heaac.a2dp_aac_t.widths o) ∧
    (∀ a : a2dp_usac_t, (a.slots o).map Slot.width = a2dp_usac_t.widths o) ∧
    (∀ a : a2dp_atrac_t, (a.slots o).map Slot.width = a2dp_atrac_t.widths o) ∧
    (∀ a : a2dp_aptx_t, (a.slots o).map Slot.width = a2dp_aptx_t.widths o) ∧
    (∀ a : a2dp_faststream_t, (a.slots o).map Slot.width = a2dp_faststream_t.widths o) ∧
    (∀ a : a2dp_aptx_ll_t, (a.slots o).map Slot.width = a2dp_aptx_ll_t.widths o) ∧
    (∀ a : a2dp_ldac_t, (a.slots o).map Slot.width = a2dp_ldac_t.widths o) := by
  cases o <;> exact ⟨fun _ => rfl, fun _ => rfl, fun _ => rfl, fun _ => rfl, fun _ => rfl,
    fun _ => rfl, fun _ => rfl, fun _ => rfl, fun _ => rfl, fun _ => rfl, fun _ => rfl⟩

theorem vendor_codec_toBytes_eq (o : ByteOrder) (a : a2dp_vendor_codec_t) :
    a.toBytes o =
      [a.vendor_id4 % 256, a.vendor_id3 % 256, a.vendor_id2 % 256, a.vendor_id1 % 256,
       a.codec_id2 % 256, a.codec_id1 % 256] := by
  cases o <;>
    simp [a2dp_vendor_codec_t.toBytes, a2dp_vendor_codec_t.slots, pack, packBits, bitfield,
      bitShift]

theorem sbc_toBytes_eq (o : ByteOrder) (a : a2dp_sbc_t) :
    a.toBytes o =
      [a.frequency % 16 * 16 + a.channel_mode % 16,
       a.block_length % 16 * 16 + a.subbands % 4 * 4 + a.allocation_method % 4,
       a.min_bitpool % 256, a.max_bitpool % 256] := by
  cases o <;>
    simp [a2dp_sbc_t.toBytes, a2dp_sbc_t.slots, pack, packBits, bitfield, bitShift] <;>
    omega

theorem mpeg_toBytes_eq (o : ByteOrder) (a : a2dp_mpeg_t) :
    a.toBytes o =
      [a.layer % 8 * 32 + a.crc % 2 * 16 + a.channel_mode % 16,
       a.rfa % 2 * 128 + a.mpf % 2 * 64 + a.frequency % 64,
       a.vbr % 2 * 128 + a.bitrate1 % 128,
       a.bitrate2 % 256] := by
  cases o <;>
    simp [a2dp_mpeg_t.toBytes, a2dp_mpeg_t.slots, pack, packBits, bitfield, bitShift] <;>
    omega

theorem aac_toBytes_eq (o : ByteOrder) (a : a2dp_aac_t) :
    a.toBytes o =
      [a.object_type % 256,
       a.frequency1 % 256,
       a.frequency2 % 16 * 16 + a.channels % 4 * 4 + a.rfa % 4,
       a.vbr % 2 * 128 + a.bitrate1 % 128,
       a.bitrate2 % 256,
       a.bitrate3 % 256] := by
  cases o <;>
    simp [a2dp_aac_t.toBytes, a2dp_aac_t.slots, pack, packBits, bitfield, bitShift] <;>
    omega

theorem heaac_toBytes_eq (o : ByteOrder) (a : Heaac.a2dp_aac_t) :
    a.toBytes o =
      [a.object_type % 128 * 2 + a.drc % 2,
       a.frequency1 % 256,
       a.frequency2 % 16 * 16 + a.channels % 16,
       a.vbr % 2 * 128 + a.bitrate1 % 128,
       a.bitrate2 % 256,
       a.bitrate3 % 256] := by
  cases o <;>
    simp [Heaac.a2dp_aac_t.toBytes, Heaac.a2dp_aac_t.slots, pack, packBits, bitfield,
      bitShift] <;>
    omega

theorem usac_toBytes_eq (o : ByteOrder) (a : a2dp_usac_t) :
    a.toBytes o =
      [a.object_type % 4 * 64 + a.frequency1 % 64,
       a.frequency2 % 256,
       a.frequency3 % 256,
       a.frequency4 % 16 * 16 + a.channels % 16,
       a.vbr % 2 * 128 + a.bitrate1 % 128,
       a.bitrate2 % 256,
       a.bitrate3 % 256] := by
  cases o <;>
    simp [a2dp_usac_t.toBytes, a2dp_usac_t.slots, pack, packBits, bitfield, bitShift] <;>
    omega

theorem atrac_toBytes_eq (o : ByteOrder) (a : a2dp_atrac_t) :
    a.toBytes o =
      [a.version % 8 * 32 + a.channel_mode % 8 * 4 + a.rfa1 % 4,
       a.rfa2 % 4 * 64 + a.frequency % 4 * 16 + a.vbr % 2 * 8 + a.bitrate1 % 8,
       a.bitrate2 % 256,
       a.bitrate3 % 256,
       a.max_sul1 % 256,
       a.max_sul2 % 256,
       a.rfa3 % 256] := by
  cases o <;>
    simp [a2dp_atrac_t.toBytes, a2dp_atrac_t.slots, pack, packBits, bitfield, bitShift] <;>
    omega

theorem aptx_toBytes_eq (o : ByteOrder) (a : a2dp_aptx_t) :
    a.toBytes o =
      [a.info.vendor_id4 % 256, a.info.vendor_id3 % 256, a.info.vendor_id2 % 256,
       a.info.vendor_id1 % 256, a.info.codec_id2 % 256, a.info.codec_id1 % 256,
       a.frequency % 16 * 16 + a.channel_mode % 16] := by
  cases o <;>
    simp [a2dp_aptx_t.toBytes, a2dp_aptx_t.slots, a2dp_vendor_codec_t.slots, pack, packBits,
      bitfield, bitShift] <;>
    omega

theorem faststream_toBytes_eq (o : ByteOrder) (a : a2dp_faststream_t) :
    a.toBytes o =
      [a.info.vendor_id4 % 256, a.info.vendor_id3 % 256, a.info.vendor_id2 % 256,
       a.info.vendor_id1 % 256, a.info.codec_id2 % 256, a.info.codec_id1 % 256,
       a.direction % 256,
       a.frequency_voice % 16 * 16 + a.frequency_music % 16] := by
  cases o <;>
    simp [a2dp_faststream_t.toBytes, a2dp_faststream_t.slots, a2dp_vendor_codec_t.slots, pack,
      packBits, bitfield, bitShift] <;>
    omega

theorem aptx_ll_toBytes_eq (o : ByteOrder) (a : a2dp_aptx_ll_t) :
    a.toBytes o =
      [a.aptx.info.vendor_id4 % 256, a.aptx.info.vendor_id3 % 256,
       a.aptx.info.vendor_id2 % 256, a.aptx.info.vendor_id1 % 256,
       a.aptx.info.codec_id2 % 256, a.aptx.info.codec_id1 % 256,
       a.aptx.frequency % 16 * 16 + a.aptx.channel_mode % 16,
       a.reserved % 64 * 4 + a.has_new_caps % 2 * 2 + a.bidirect_link % 2] := by
  cases o <;>
    simp [a2dp_aptx_ll_t.toBytes, a2dp_aptx_ll_t.slots, a2dp_aptx_t.slots,
      a2dp_vendor_codec_t.slots, pack, packBits, bitfield, bitShift] <;>
    omega

theorem ldac_toBytes_eq (o : ByteOrder) (a : a2dp_ldac_t) :
    a.toBytes o =
      [a.info.vendor_id4 % 256, a.info.vendor_id3 % 256, a.info.vendor_id2 % 256,
       a.info.vendor_id1 % 256, a.info.codec_id2 % 256, a.info.codec_id1 % 256,
       a.rfa1 % 4 * 64 + a.frequency % 64,
       a.rfa2 % 32 * 8 + a.channel_mode % 8] := by
  cases o <;>
    simp [a2dp_ldac_t.toBytes, a2dp_ldac_t.slots, a2dp_vendor_codec_t.slots, pack, packBits,
      bitfield, bitShift] <;>
    omega


/-! ## Reading the members back -/

theorem vendor_codec_ofBytes_cons (o : ByteOrder) (b0 b1 b2 b3 b4 b5 : Nat) (rest : List Nat) :
    a2dp_vendor_codec_t.ofBytes o (b0 :: b1 :: b2 :: b3 :: b4 :: b5 :: rest) =
      some { vendor_id4 := b0 % 256, vendor_id3 := b1 % 256, vendor_id2 := b2 % 256,
             vendor_id1 := b3 % 256, codec_id2 := b4 % 256, codec_id1 := b5 % 256 } := by
  cases o <;>
    simp [a2dp_vendor_codec_t.ofBytes, a2dp_vendor_codec_t.widths, unpack, unpackBits, bitShift]

theorem vendor_codec_ofBytes_order (bytes : List Nat) :
    a2dp_vendor_codec_t.ofBytes .little bytes = a2dp_vendor_codec_t.ofBytes .big bytes := by
  rcases bytes with _ | ⟨b0, _ | ⟨b1, _ | ⟨b2, _ | ⟨b3, _ | ⟨b4, _ | ⟨b5, rest⟩⟩⟩⟩⟩⟩ <;>
    simp [a2dp_vendor_codec_t.ofBytes, a2dp_vendor_codec_t.widths, unpack, unpackBits, bitShift]

theorem sbc_ofBytes_cons (o : ByteOrder) (b0 b1 b2 b3 : Nat) (rest : List Nat) :
    a2dp_sbc_t.ofBytes o (b0 :: b1 :: b2 :: b3 :: rest) =
      some { channel_mode := b0 % 16, frequency := b0 / 16 % 16,
             allocation_method := b1 % 4, subbands := b1 / 4 % 4, block_length := b1 / 16 % 16,
             min_bitpool := b2 % 256, max_bitpool := b3 % 256 } := by
  cases o <;>
    simp [a2dp_sbc_t.ofBytes, a2dp_sbc_t.widths, unpack, unpackBits, bitShift]

theorem sbc_ofBytes_order (bytes : List Nat) :
    a2dp_sbc_t.ofBytes .little bytes = a2dp_sbc_t.ofBytes .big bytes := by
  rcases bytes with _ | ⟨b0, _ | ⟨b1, _ | ⟨b2, _ | ⟨b3, rest⟩⟩⟩⟩ <;>
    simp [a2dp_sbc_t.ofBytes, a2dp_sbc_t.widths, unpack, unpackBits, bitShift]

theorem sbc_roundtrip (o : ByteOrder) (a : a2dp_sbc_t) (h : a.InWidth) :
    a2dp_sbc_t.ofBytes o (a.toBytes o) = some a := by
  obtain ⟨cm, f, am, sb, bl, mn, mx⟩ := a
  simp [a2dp_sbc_t.InWidth, slotsInWidth, a2dp_sbc_t.slots] at h
  rw [sbc_toBytes_eq, sbc_ofBytes_cons]
  simp only [Option.some.injEq, a2dp_sbc_t.mk.injEq]
  omega

theorem mpeg_ofBytes_cons (o : ByteOrder) (b0 b1 b2 b3 : Nat) (rest : List Nat) :
    a2dp_mpeg_t.ofBytes o (b0 :: b1 :: b2 :: b3 :: rest) =
      some { channel_mode := b0 % 16, crc := b0 / 16 % 2, layer := b0 / 32 % 8,
             frequency := b1 % 64, mpf := b1 / 64 % 2, rfa := b1 / 128 % 2,
             bitrate1 := b2 % 128, vbr := b2 / 128 % 2, bitrate2 := b3 % 256 } := by
  cases o <;>
    simp [a2dp_mpeg_t.ofBytes, a2dp_mpeg_t.widths, unpack, unpackBits, bitShift]

theorem mpeg_ofBytes_order (bytes : List Nat) :
    a2dp_mpeg_t.ofBytes .little bytes = a2dp_mpeg_t.ofBytes .big bytes := by
  rcases bytes with _ | ⟨b0, _ | ⟨b1, _ | ⟨b2, _ | ⟨b3, rest⟩⟩⟩⟩ <;>
    simp [a2dp_mpeg_t.ofBytes, a2dp_mpeg_t.widths, unpack, unpackBits, bitShift]

theorem mpeg_roundtrip (o : ByteOrder) (a : a2dp_mpeg_t) (h : a.InWidth) :
    a2dp_mpeg_t.ofBytes o (a.toBytes o) = some a := by
  obtain ⟨cm, crc, layer, f, mpf, rfa, br1, vbr, br2⟩ := a
  simp [a2dp_mpeg_t.InWidth, slotsInWidth, a2dp_mpeg_t.slots] at h
  rw [mpeg_toBytes_eq, mpeg_ofBytes_cons]
  simp only [Option.some.injEq, a2dp_mpeg_t.mk.injEq]
  omega

theorem aac_ofBytes_cons (o : ByteOrder) (b0 b1 b2 b3 b4 b5 : Nat) (rest : List Nat) :
    a2dp_aac_t.ofBytes o (b0 :: b1 :: b2 :: b3 :: b4 :: b5 :: rest) =
      some { object_type := b0 % 256, frequency1 := b1 % 256,
             rfa := b2 % 4, channels := b2 / 4 % 4, frequency2 := b2 / 16 % 16,
             bitrate1 := b3 % 128, vbr := b3 / 128 % 2, bitrate2 := b4 % 256,
             bitrate3 := b5 % 256 } := by
  cases o <;>
    simp [a2dp_aac_t.ofBytes, a2dp_aac_t.widths, unpack, unpackBits, bitShift]

theorem aac_ofBytes_order (bytes : List Nat) :
    a2dp_aac_t.ofBytes .little bytes = a2dp_aac_t.ofBytes .big bytes := by
  rcases bytes with _ | ⟨b0, _ | ⟨b1, _ | ⟨b2, _ | ⟨b3, _ | ⟨b4, _ | ⟨b5, rest⟩⟩⟩⟩⟩⟩ <;>
    simp [a2dp_aac_t.ofBytes, a2dp_aac_t.widths, unpack, unpackBits, bitShift]

theorem aac_roundtrip (o : ByteOrder) (a : a2dp_aac_t) (h : a.InWidth) :
    a2dp_aac_t.ofBytes o (a.toBytes o) = some a := by
  obtain ⟨ot, f1, rfa, ch, f2, br1, vbr, br2, br3⟩ := a
  simp [a2dp_aac_t.InWidth, slotsInWidth, a2dp_aac_t.slots] at h
  rw [aac_toBytes_eq, aac_ofBytes_cons]
  simp only [Option.some.injEq, a2dp_aac_t.mk.injEq]
  omega

theorem heaac_ofBytes_cons (o : ByteOrder) (b0 b1 b2 b3 b4 b5 : Nat) (rest : List Nat) :
    Heaac.a2dp_aac_t.ofBytes o (b0 :: b1 :: b2 :: b3 :: b4 :: b5 :: rest) =
      some { drc := b0 % 2, object_type := b0 / 2 % 128, frequency1 := b1 % 256,
             channels := b2 % 16, frequency2 := b2 / 16 % 16,
             bitrate1 := b3 % 128, vbr := b3 / 128 % 2, bitrate2 := b4 % 256,
             bitrate3 := b5 % 256 } := by
  cases o <;>
    simp [Heaac.a2dp_aac_t.ofBytes, Heaac.a2dp_aac_t.widths, unpack, unpackBits, bitShift]

theorem heaac_ofBytes_order (bytes : List Nat) :
    Heaac.a2dp_aac_t.ofBytes .little bytes = Heaac.a2dp_aac_t.ofBytes .big bytes := by
  rcases bytes with _ | ⟨b0, _ | ⟨b1, _ | ⟨b2, _ | ⟨b3, _ | ⟨b4, _ | ⟨b5, rest⟩⟩⟩⟩⟩⟩ <;>
    simp [Heaac.a2dp_aac_t.ofBytes, Heaac.a2dp_aac_t.widths, unpack, unpackBits, bitShift]

theorem heaac_roundtrip (o : ByteOrder) (a : Heaac.a2dp_aac_t) (h : a.InWidth) :
    Heaac.a2dp_aac_t.ofBytes o (a.toBytes o) = some a := by
  obtain ⟨drc, ot, f1, ch, f2, br1, vbr, br2, br3⟩ := a
  simp [Heaac.a2dp_aac_t.InWidth, slotsInWidth, Heaac.a2dp_aac_t.slots] at h
  rw [heaac_toBytes_eq, heaac_ofBytes_cons]
  simp only [Option.some.injEq, Heaac.a2dp_aac_t.mk.injEq]
  omega

theorem usac_ofBytes_cons (o : ByteOrder) (b0 b1 b2 b3 b4 b5 b6 : Nat) (rest : List Nat) :
    a2dp_usac_t.ofBytes o (b0 :: b1 :: b2 :: b3 :: b4 :: b5 :: b6 :: rest) =
      some { frequency1 := b0 % 64, object_type := b0 / 64 % 4, frequency2 := b1 % 256,
             frequency3 := b2 % 256, channels := b3 % 16, frequency4 := b3 / 16 % 16,
             bitrate1 := b4 % 128, vbr := b4 / 128 % 2, bitrate2 := b5 % 256,
             bitrate3 := b6 % 256 } := by
  cases o <;>
    simp [a2dp_usac_t.ofBytes, a2dp_usac_t.widths, unpack, unpackBits, bitShift]

theorem usac_ofBytes_order (bytes : List Nat) :
    a2dp_usac_t.ofBytes .little bytes = a2dp_usac_t.ofBytes .big bytes := by
  rcases bytes with _ | ⟨b0, _ | ⟨b1, _ | ⟨b2, _ | ⟨b3, _ | ⟨b4, _ | ⟨b5, _ | ⟨b6, rest⟩⟩⟩⟩⟩⟩⟩ <;>
    simp [a2dp_usac_t.ofBytes, a2dp_usac_t.widths, unpack, unpackBits, bitShift]

theorem usac_roundtrip (o : ByteOrder) (a : a2dp_usac_t) (h : a.InWidth) :
    a2dp_usac_t.ofBytes o (a.toBytes o) = some a := by
  obtain ⟨f1, ot, f2, f3, ch, f4, br1, vbr, br2, br3⟩ := a
  simp [a2dp_usac_t.InWidth, slotsInWidth, a2dp_usac_t.slots] at h
  rw [usac_toBytes_eq, usac_ofBytes_cons]
  simp only [Option.some.injEq, a2dp_usac_t.mk.injEq]
  omega

theorem atrac_ofBytes_cons (o : ByteOrder) (b0 b1 b2 b3 b4 b5 b6 : Nat) (rest : List Nat) :
    a2dp_atrac_t.ofBytes o (b0 :: b1 :: b2 :: b3 :: b4 :: b5 :: b6 :: rest) =
      some { rfa1 := b0 % 4, channel_mode := b0 / 4 % 8, version := b0 / 32 % 8,
             bitrate1 := b1 % 8, vbr := b1 / 8 % 2, frequency := b1 / 16 % 4,
             rfa2 := b1 / 64 % 4, bitrate2 := b2 % 256, bitrate3 := b3 % 256,
             max_sul1 := b4 % 256, max_sul2 := b5 % 256, rfa3 := b6 % 256 } := by
  cases o <;>
    simp [a2dp_atrac_t.ofBytes, a2dp_atrac_t.widths, unpack, unpackBits, bitShift]

theorem atrac_ofBytes_order (bytes : List Nat) :
    a2dp_atrac_t.ofBytes .little bytes = a2dp_atrac_t.ofBytes .big bytes := by
  rcases bytes with _ | ⟨b0, _ | ⟨b1, _ | ⟨b2, _ | ⟨b3, _ | ⟨b4, _ | ⟨b5, _ | ⟨b6, rest⟩⟩⟩⟩⟩⟩⟩ <;>
    simp [a2dp_atrac_t.ofBytes, a2dp_atrac_t.widths, unpack, unpackBits, bitShift]

theorem atrac_roundtrip (o : ByteOrder) (a : a2dp_atrac_t) (h : a.InWidth) :
    a2dp_atrac_t.ofBytes o (a.toBytes o) = some a := by
  obtain ⟨rfa1, cm, ver, br1, vbr, f, rfa2, br2, br3, ms1, ms2, rfa3⟩ := a
  simp [a2dp_atrac_t.InWidth, slotsInWidth, a2dp_atrac_t.slots] at h
  rw [atrac_toBytes_eq, atrac_ofBytes_cons]
  simp only [Option.some.injEq, a2dp_atrac_t.mk.injEq]
  omega

theorem aptx_ofBytes_cons (o : ByteOrder) (b0 b1 b2 b3 b4 b5 b6 : Nat) (rest : List Nat) :
    a2dp_aptx_t.ofBytes o (b0 :: b1 :: b2 :: b3 :: b4 :: b5 :: b6 :: rest) =
      some { info := { vendor_id4 := b0 % 256, vendor_id3 := b1 % 256, vendor_id2 := b2 % 256,
                       vendor_id1 := b3 % 256, codec_id2 := b4 % 256, codec_id1 := b5 % 256 },
             channel_mode := b6 % 16, frequency := b6 / 16 % 16 } := by
  cases o <;>
    simp [a2dp_aptx_t.ofBytes, a2dp_aptx_t.widths, a2dp_vendor_codec_t.widths, unpack, unpackBits,
      bitShift]

theorem aptx_ofBytes_order (bytes : List Nat) :
    a2dp_aptx_t.ofBytes .little bytes = a2dp_aptx_t.ofBytes .big bytes := by
  rcases bytes with _ | ⟨b0, _ | ⟨b1, _ | ⟨b2, _ | ⟨b3, _ | ⟨b4, _ | ⟨b5, _ | ⟨b6, rest⟩⟩⟩⟩⟩⟩⟩ <;>
    simp [a2dp_aptx_t.ofBytes, a2dp_aptx_t.widths, a2dp_vendor_codec_t.widths, unpack, unpackBits,
      bitShift]

theorem aptx_roundtrip (o : ByteOrder) (a : a2dp_aptx_t) (h : a.InWidth) :
    a2dp_aptx_t.ofBytes o (a.toBytes o) = some a := by
  obtain ⟨⟨v4, v3, v2, v1, c2, c1⟩, cm, f⟩ := a
  simp [a2dp_aptx_t.InWidth, slotsInWidth, a2dp_aptx_t.slots, a2dp_vendor_codec_t.slots] at h
  rw [aptx_toBytes_eq, aptx_ofBytes_cons]
  simp only [Option.some.injEq, a2dp_aptx_t.mk.injEq, a2dp_vendor_codec_t.mk.injEq]
  omega

theorem faststream_ofBytes_cons (o : ByteOrder) (b0 b1 b2 b3 b4 b5 b6 b7 : Nat) (rest : List Nat) :
    a2dp_faststream_t.ofBytes o (b0 :: b1 :: b2 :: b3 :: b4 :: b5 :: b6 :: b7 :: rest) =
      some { info := { vendor_id4 := b0 % 256, vendor_id3 := b1 % 256, vendor_id2 := b2 % 256,
                       vendor_id1 := b3 % 256, codec_id2 := b4 % 256, codec_id1 := b5 % 256 },
             direction := b6 % 256, frequency_music := b7 % 16,
             frequency_voice := b7 / 16 % 16 } := by
  cases o <;>
    simp [a2dp_faststream_t.ofBytes, a2dp_faststream_t.widths, a2dp_vendor_codec_t.widths, unpack,
      unpackBits, bitShift]

theorem faststream_ofBytes_order (bytes : List Nat) :
    a2dp_faststream_t.ofBytes .little bytes = a2dp_faststream_t.ofBytes .big bytes := by
  rcases bytes with _ | ⟨b0, _ | ⟨b1, _ | ⟨b2, _ | ⟨b3, _ | ⟨b4, _ | ⟨b5, _ | ⟨b6, _ | ⟨b7, rest⟩⟩⟩⟩⟩⟩⟩⟩ <;>
    simp [a2dp_faststream_t.ofBytes, a2dp_faststream_t.widths, a2dp_vendor_codec_t.widths, unpack,
      unpackBits, bitShift]

theorem faststream_roundtrip (o : ByteOrder) (a : a2dp_faststream_t) (h : a.InWidth) :
    a2dp_faststream_t.ofBytes o (a.toBytes o) = some a := by
  obtain ⟨⟨v4, v3, v2, v1, c2, c1⟩, dir, fm, fv⟩ := a
  simp [a2dp_faststream_t.InWidth, slotsInWidth, a2dp_faststream_t.slots,
    a2dp_vendor_codec_t.slots] at h
  rw [faststream_toBytes_eq, faststream_ofBytes_cons]
  simp only [Option.some.injEq, a2dp_faststream_t.mk.injEq, a2dp_vendor_codec_t.mk.injEq]
  omega

theorem aptx_ll_ofBytes_cons (o : ByteOrder) (b0 b1 b2 b3 b4 b5 b6 b7 : Nat) (rest : List Nat) :
    a2dp_aptx_ll_t.ofBytes o (b0 :: b1 :: b2 :: b3 :: b4 :: b5 :: b6 :: b7 :: rest) =
      some { aptx := { info := { vendor_id4 := b0 % 256, vendor_id3 := b1 % 256,
                                 vendor_id2 := b2 % 256, vendor_id1 := b3 % 256,
                                 codec_id2 := b4 % 256, codec_id1 := b5 % 256 },
                       channel_mode := b6 % 16, frequency := b6 / 16 % 16 },
             bidirect_link := b7 % 2, has_new_caps := b7 / 2 % 2, reserved := b7 / 4 % 64 } := by
  cases o <;>
    simp [a2dp_aptx_ll_t.ofBytes, a2dp_aptx_ll_t.widths, a2dp_aptx_t.widths,
      a2dp_vendor_codec_t.widths, unpack, unpackBits, bitShift]

theorem aptx_ll_ofBytes_order (bytes : List Nat) :
    a2dp_aptx_ll_t.ofBytes .little bytes = a2dp_aptx_ll_t.ofBytes .big bytes := by
  rcases bytes with _ | ⟨b0, _ | ⟨b1, _ | ⟨b2, _ | ⟨b3, _ | ⟨b4, _ | ⟨b5, _ | ⟨b6, _ | ⟨b7, rest⟩⟩⟩⟩⟩⟩⟩⟩ <;>
    simp [a2dp_aptx_ll_t.ofBytes, a2dp_aptx_ll_t.widths, a2dp_aptx_t.widths,
      a2dp_vendor_codec_t.widths, unpack, unpackBits, bitShift]

theorem aptx_ll_roundtrip (o : ByteOrder) (a : a2dp_aptx_ll_t) (h : a.InWidth) :
    a2dp_aptx_ll_t.ofBytes o (a.toBytes o) = some a := by
  obtain ⟨⟨⟨v4, v3, v2, v1, c2, c1⟩, cm, f⟩, bl, nc, res⟩ := a
  simp [a2dp_aptx_ll_t.InWidth, slotsInWidth, a2dp_aptx_ll_t.slots, a2dp_aptx_t.slots,
    a2dp_vendor_codec_t.slots] at h
  rw [aptx_ll_toBytes_eq, aptx_ll_ofBytes_cons]
  simp only [Option.some.injEq, a2dp_aptx_ll_t.mk.injEq, a2dp_aptx_t.mk.injEq, a2dp_vendor_codec_t.mk.injEq]
  omega

theorem ldac_ofBytes_cons (o : ByteOrder) (b0 b1 b2 b3 b4 b5 b6 b7 : Nat) (rest : List Nat) :
    a2dp_ldac_t.ofBytes o (b0 :: b1 :: b2 :: b3 :: b4 :: b5 :: b6 :: b7 :: rest) =
      some { info := { vendor_id4 := b0 % 256, vendor_id3 := b1 % 256, vendor_id2 := b2 % 256,
                       vendor_id1 := b3 % 256, codec_id2 := b4 % 256, codec_id1 := b5 % 256 },
             frequency := b6 % 64, rfa1 := b6 / 64 % 4, channel_mode := b7 % 8,
             rfa2 := b7 / 8 % 32 } := by
  cases o <;>
    simp [a2dp_ldac_t.ofBytes, a2dp_ldac_t.widths, a2dp_vendor_codec_t.widths, unpack, unpackBits,
      bitShift]

theorem ldac_ofBytes_order (bytes : List Nat) :
    a2dp_ldac_t.ofBytes .little bytes = a2dp_ldac_t.ofBytes .big bytes := by
  rcases bytes with _ | ⟨b0, _ | ⟨b1, _ | ⟨b2, _ | ⟨b3, _ | ⟨b4, _ | ⟨b5, _ | ⟨b6, _ | ⟨b7, rest⟩⟩⟩⟩⟩⟩⟩⟩ <;>
    simp [a2dp_ldac_t.ofBytes, a2dp_ldac_t.widths, a2dp_vendor_codec_t.widths, unpack, unpackBits,
      bitShift]

theorem ldac_roundtrip (o : ByteOrder) (a : a2dp_ldac_t) (h : a.InWidth) :
    a2dp_ldac_t.ofBytes o (a.toBytes o) = some a := by
  obtain ⟨⟨v4, v3, v2, v1, c2, c1⟩, f, rfa1, cm, rfa2⟩ := a
  simp [a2dp_ldac_t.InWidth, slotsInWidth, a2dp_ldac_t.slots, a2dp_vendor_codec_t.slots] at h
  rw [ldac_toBytes_eq, ldac_ofBytes_cons]
  simp only [Option.some.injEq, a2dp_ldac_t.mk.injEq, a2dp_vendor_codec_t.mk.injEq]
  omega

/-! ## Values assembled by the getter macros -/

/-- Three chunks joined by shift and or add up when the lower chunks fit. -/
theorem shl_or3 (x1 x2 x3 k n : Nat) (hn : n ≤ k) (h2 : x2 < 2 ^ (k - n)) (h3 : x3 < 2 ^ n) :
    ((x1 <<< k) ||| (x2 <<< n)) ||| x3 = x1 * 2 ^ k + x2 * 2 ^ n + x3 := by
  obtain ⟨m, rfl⟩ : ∃ m, k = m + n := ⟨k - n, by omega⟩
  rw [Nat.add_sub_cancel] at h2
  have h2n : x2 <<< n < 2 ^ (m + n) := by
    rw [Nat.shiftLeft_eq, Nat.pow_add]
    exact Nat.mul_lt_mul_of_pos_right h2 (Nat.two_pow_pos n)
  have e : x1 * 2 ^ (m + n) + x2 <<< n = (x1 * 2 ^ m + x2) <<< n := by
    simp only [Nat.shiftLeft_eq, Nat.pow_add]; ring
  rw [shl_or x1 _ (m + n) h2n, e, shl_or _ x3 n h3, Nat.pow_add]; ring

theorem vendor_id_value (b0 b1 b2 b3 : Nat) (h0 : b0 < 256) (h1 : b1 < 256)
    (h2 : b2 < 256) (h3 : b3 < 256) :
    (((b0 % 2 ^ 32) <<< 0) % 2 ^ 32) ||| (((b1 % 2 ^ 32) <<< 8) % 2 ^ 32) |||
      (((b2 % 2 ^ 32) <<< 16) % 2 ^ 32) ||| (((b3 % 2 ^ 32) <<< 24) % 2 ^ 32)
      = b0 + b1 * 2 ^ 8 + b2 * 2 ^ 16 + b3 * 2 ^ 24 := by
  have e0 : ((b0 % 2 ^ 32) <<< 0) % 2 ^ 32 = b0 := by
    rw [Nat.shiftLeft_eq]; omega
  have e1 : ((b1 % 2 ^ 32) <<< 8) % 2 ^ 32 = b1 <<< 8 := by
    simp only [Nat.shiftLeft_eq]; omega
  have e2 : ((b2 % 2 ^ 32) <<< 16) % 2 ^ 32 = b2 <<< 16 := by
    simp only [Nat.shiftLeft_eq]; omega
  have e3 : ((b3 % 2 ^ 32) <<< 24) % 2 ^ 32 = b3 <<< 24 := by
    simp only [Nat.shiftLeft_eq]; omega
  rw [e0, e1, e2, e3, or_shl b1 b0 8 (by omega), or_shl b2 _ 16 (by omega),
    or_shl b3 _ 24 (by omega)]
  omega

theorem codec_id_value (c0 c1 : Nat) (h0 : c0 < 256) :
    c0 ||| ((c1 % 2 ^ 16) <<< 8) = c0 + (c1 % 2 ^ 16) * 2 ^ 8 := by
  rw [or_shl _ c0 8 (by omega)]; omega

/-- What `A2DP_GET_VENDOR_ID` returns after `A2DP_SET_VENDOR_ID_CODEC_ID(v, c)`. -/
theorem vendor_id_get_set (v c : Nat) :
    A2DP_GET_VENDOR_ID (A2DP_SET_VENDOR_ID_CODEC_ID v c) = v % 2 ^ 32 := by
  simp only [A2DP_GET_VENDOR_ID, A2DP_SET_VENDOR_ID_CODEC_ID, bitfield, and_0xff,
    Nat.shiftRight_eq_div_pow]
  rw [vendor_id_value _ _ _ _ (by omega) (by omega) (by omega) (by omega)]
  omega

/-- What `A2DP_GET_CODEC_ID` returns after `A2DP_SET_VENDOR_ID_CODEC_ID(v, c)`. -/
theorem codec_id_get_set (v c : Nat) :
    A2DP_GET_CODEC_ID (A2DP_SET_VENDOR_ID_CODEC_ID v c) = c % 2 ^ 16 := by
  simp only [A2DP_GET_CODEC_ID, A2DP_SET_VENDOR_ID_CODEC_ID, bitfield, and_0xff,
    Nat.shiftRight_eq_div_pow]
  rw [codec_id_value _ _ (by omega)]
  omega

/-- The initialiser `A2DP_SET_VENDOR_ID_CODEC_ID` survives being stored and read. -/
theorem vendor_codec_stored (o : ByteOrder) (v c : Nat) :
    a2dp_vendor_codec_t.ofBytes o ((A2DP_SET_VENDOR_ID_CODEC_ID v c).toBytes o) =
      some (A2DP_SET_VENDOR_ID_CODEC_ID v c) := by
  rw [vendor_codec_toBytes_eq, vendor_codec_ofBytes_cons]
  simp [A2DP_SET_VENDOR_ID_CODEC_ID, bitfield]

/-! ## Vendor codec identifier -/

/-- C1. Vendor codec identifier round trip: for `v < 2^32` and `c < 2^16` the
record built by `A2DP_SET_VENDOR_ID_CODEC_ID(v, c)` gives back `v` through
`A2DP_GET_VENDOR_ID` and `c` through `A2DP_GET_CODEC_ID`, also after the record
has been written to its six bytes and read back, under either byte order. -/
theorem C1_vendor_codec_round_trip (v c : Nat) (hv : v < 2 ^ 32) (hc : c < 2 ^ 16) :
    A2DP_GET_VENDOR_ID (A2DP_SET_VENDOR_ID_CODEC_ID v c) = v ∧
    A2DP_GET_CODEC_ID (A2DP_SET_VENDOR_ID_CODEC_ID v c) = c ∧
    ∀ o : ByteOrder,
      (a2dp_vendor_codec_t.ofBytes o ((A2DP_SET_VENDOR_ID_CODEC_ID v c).toBytes o)).map
        (fun a => (A2DP_GET_VENDOR_ID a, A2DP_GET_CODEC_ID a)) = some (v, c) := by
  have e1 := vendor_id_get_set v c
  have e2 := codec_id_get_set v c
  rw [Nat.mod_eq_of_lt hv] at e1
  rw [Nat.mod_eq_of_lt hc] at e2
  refine ⟨e1, e2, fun o => ?_⟩
  rw [vendor_codec_stored, Option.map_some', e1, e2]

/-- C1 at the Sony LDAC identifier pair `v = 0x012d`, `c = 0x00aa`. -/
theorem C1_vendor_codec_round_trip_witness :
    0x012d < 2 ^ 32 ∧ 0x00aa < 2 ^ 16 ∧
    A2DP_GET_VENDOR_ID (A2DP_SET_VENDOR_ID_CODEC_ID 0x012d 0x00aa) = 0x012d ∧
    A2DP_GET_CODEC_ID (A2DP_SET_VENDOR_ID_CODEC_ID 0x012d 0x00aa) = 0x00aa :=
  ⟨by decide, by decide,
    (C1_vendor_codec_round_trip 0x012d 0x00aa (by decide) (by decide)).1,
    (C1_vendor_codec_round_trip 0x012d 0x00aa (by decide) (by decide)).2.1⟩

/-- C2. Vendor codec identifier wire layout: the bytes of the record built by
`A2DP_SET_VENDOR_ID_CODEC_ID(v, c)`, in struct order, are the four bytes of `v`
least significant first followed by the two bytes of `c` least significant
first, under either byte order; `v = 0x0000000A`, `c = 0x0001` gives
`[0x0A, 0x00, 0x00, 0x00, 0x01, 0x00]`. -/
theorem C2_vendor_codec_wire_layout :
    (∀ (o : ByteOrder) (v c : Nat),
      (A2DP_SET_VENDOR_ID_CODEC_ID v c).toBytes o =
        [v &&& 0xff, (v >>> 8) &&& 0xff, (v >>> 16) &&& 0xff, (v >>> 24) &&& 0xff,
         c &&& 0xff, (c >>> 8) &&& 0xff]) ∧
    (∀ o : ByteOrder,
      (A2DP_SET_VENDOR_ID_CODEC_ID 0x0000000A 0x0001).toBytes o =
        [0x0A, 0x00, 0x00, 0x00, 0x01, 0x00]) := by
  constructor
  · intro o v c
    rw [vendor_codec_toBytes_eq]
    simp [A2DP_SET_VENDOR_ID_CODEC_ID, bitfield, and_0xff]
  · decide

/-! ## Scattered fields -/

/-- What `MPEG_GET_BITRATE` returns after `MPEG_SET_BITRATE(a, x)`. -/
theorem mpeg_bitrate_get_set (a : a2dp_mpeg_t) (x : Nat) :
    MPEG_GET_BITRATE (MPEG_SET_BITRATE a x) = x % 2 ^ 15 := by
  simp only [MPEG_GET_BITRATE, MPEG_SET_BITRATE, bitfield, and_0xff, and_0x7f,
    Nat.shiftRight_eq_div_pow]
  rw [shl_or _ _ 8 (by omega)]
  omega

/-- What `AAC_GET_BITRATE` returns after `AAC_SET_BITRATE(a, x)`. -/
theorem aac_bitrate_get_set (a : a2dp_aac_t) (x : Nat) :
    AAC_GET_BITRATE (AAC_SET_BITRATE a x) = x % 2 ^ 23 := by
  simp only [AAC_GET_BITRATE, AAC_SET_BITRATE, bitfield, and_0xff, and_0x7f,
    Nat.shiftRight_eq_div_pow]
  rw [shl_or3 _ _ _ 16 8 (by omega) (by omega) (by omega)]
  omega

/-- What `AAC_GET_FREQUENCY` returns after `AAC_SET_FREQUENCY(a, x)`. -/
theorem aac_frequency_get_set (a : a2dp_aac_t) (x : Nat) :
    AAC_GET_FREQUENCY (AAC_SET_FREQUENCY a x) = x % 2 ^ 12 := by
  simp only [AAC_GET_FREQUENCY, AAC_SET_FREQUENCY, bitfield, and_0xff, and_0x0f,
    Nat.shiftRight_eq_div_pow]
  rw [shl_or _ _ 4 (by omega)]
  omega

/-- What `AAC_GET_BITRATE` returns after `AAC_SET_BITRATE(a, x)`, HE-AAC build. -/
theorem heaac_bitrate_get_set (a : Heaac.a2dp_aac_t) (x : Nat) :
    Heaac.AAC_GET_BITRATE (Heaac.AAC_SET_BITRATE a x) = x % 2 ^ 23 := by
  simp only [Heaac.AAC_GET_BITRATE, Heaac.AAC_SET_BITRATE, bitfield, and_0xff, and_0x7f,
    Nat.shiftRight_eq_div_pow]
  rw [shl_or3 _ _ _ 16 8 (by omega) (by omega) (by omega)]
  omega

/-- What `AAC_GET_FREQUENCY` returns after `AAC_SET_FREQUENCY(a, x)`, HE-AAC build. -/
theorem heaac_frequency_get_set (a : Heaac.a2dp_aac_t) (x : Nat) :
    Heaac.AAC_GET_FREQUENCY (Heaac.AAC_SET_FREQUENCY a x) = x % 2 ^ 12 := by
  simp only [Heaac.AAC_GET_FREQUENCY, Heaac.AAC_SET_FREQUENCY, bitfield, and_0xff, and_0x0f,
    Nat.shiftRight_eq_div_pow]
  rw [shl_or _ _ 4 (by omega)]
  omega

/-- The value `MPEG_GET_BITRATE` reads from a buffer, under either byte order. -/
theorem mpeg_bitrate_of_bytes (o : ByteOrder) (b0 b1 b2 b3 : Nat) (rest : List Nat) :
    (a2dp_mpeg_t.ofBytes o (b0 :: b1 :: b2 :: b3 :: rest)).map MPEG_GET_BITRATE =
      some (b2 % 128 * 256 + b3 % 256) := by
  rw [mpeg_ofBytes_cons]
  simp only [Option.map_some', MPEG_GET_BITRATE, Option.some.injEq]
  rw [shl_or _ _ 8 (by omega)]
  omega

/-- The value `AAC_GET_BITRATE` reads from a buffer, under either byte order. -/
theorem aac_bitrate_of_bytes (o : ByteOrder) (b0 b1 b2 b3 b4 b5 : Nat) (rest : List Nat) :
    (a2dp_aac_t.ofBytes o (b0 :: b1 :: b2 :: b3 :: b4 :: b5 :: rest)).map AAC_GET_BITRATE =
      some (b3 % 128 * 65536 + b4 % 256 * 256 + b5 % 256) := by
  rw [aac_ofBytes_cons]
  simp only [Option.map_some', AAC_GET_BITRATE, Option.some.injEq]
  rw [shl_or3 _ _ _ 16 8 (by omega) (by omega) (by omega)]
  omega

/-- The value `AAC_GET_FREQUENCY` reads from a buffer, under either byte order. -/
theorem aac_frequency_of_bytes (o : ByteOrder) (b0 b1 b2 b3 b4 b5 : Nat) (rest : List Nat) :
    (a2dp_aac_t.ofBytes o (b0 :: b1 :: b2 :: b3 :: b4 :: b5 :: rest)).map AAC_GET_FREQUENCY =
      some (b1 % 256 * 16 + b2 / 16 % 16) := by
  rw [aac_ofBytes_cons]
  simp only [Option.map_some', AAC_GET_FREQUENCY, Option.some.injEq]
  rw [shl_or _ _ 4 (by omega)]
  omega

/-- The value `AAC_GET_BITRATE` reads from a buffer, HE-AAC build. -/
theorem heaac_bitrate_of_bytes (o : ByteOrder) (b0 b1 b2 b3 b4 b5 : Nat) (rest : List Nat) :
    (Heaac.a2dp_aac_t.ofBytes o (b0 :: b1 :: b2 :: b3 :: b4 :: b5 :: rest)).map
      Heaac.AAC_GET_BITRATE = some (b3 % 128 * 65536 + b4 % 256 * 256 + b5 % 256) := by
  rw [heaac_ofBytes_cons]
  simp only [Option.map_some', Heaac.AAC_GET_BITRATE, Option.some.injEq]
  rw [shl_or3 _ _ _ 16 8 (by omega) (by omega) (by omega)]
  omega

/-- The value `AAC_GET_FREQUENCY` reads from a buffer, HE-AAC build. -/
theorem heaac_frequency_of_bytes (o : ByteOrder) (b0 b1 b2 b3 b4 b5 : Nat)
    (rest : List Nat) :
    (Heaac.a2dp_aac_t.ofBytes o (b0 :: b1 :: b2 :: b3 :: b4 :: b5 :: rest)).map
      Heaac.AAC_GET_FREQUENCY = some (b1 % 256 * 16 + b2 / 16 % 16) := by
  rw [heaac_ofBytes_cons]
  simp only [Option.map_some', Heaac.AAC_GET_FREQUENCY, Option.some.injEq]
  rw [shl_or _ _ 4 (by omega)]
  omega

/-- After `MPEG_SET_BITRATE(a, x)` the stored record reads back `x` modulo `2^15`. -/
theorem mpeg_bitrate_stored (o : ByteOrder) (a : a2dp_mpeg_t) (x : Nat) :
    (a2dp_mpeg_t.ofBytes o ((MPEG_SET_BITRATE a x).toBytes o)).map MPEG_GET_BITRATE =
      some (x % 2 ^ 15) := by
  rw [mpeg_toBytes_eq, mpeg_bitrate_of_bytes]
  simp only [MPEG_SET_BITRATE, bitfield, and_0xff, and_0x7f, Nat.shiftRight_eq_div_pow,
    Option.some.injEq]
  omega

/-- After `AAC_SET_BITRATE(a, x)` the stored record reads back `x` modulo `2^23`. -/
theorem aac_bitrate_stored (o : ByteOrder) (a : a2dp_aac_t) (x : Nat) :
    (a2dp_aac_t.ofBytes o ((AAC_SET_BITRATE a x).toBytes o)).map AAC_GET_BITRATE =
      some (x % 2 ^ 23) := by
  rw [aac_toBytes_eq, aac_bitrate_of_bytes]
  simp only [AAC_SET_BITRATE, bitfield, and_0xff, and_0x7f, Nat.shiftRight_eq_div_pow,
    Option.some.injEq]
  omega

/-- After `AAC_SET_FREQUENCY(a, x)` the stored record reads back `x` modulo `2^12`. -/
theorem aac_frequency_stored (o : ByteOrder) (a : a2dp_aac_t) (x : Nat) :
    (a2dp_aac_t.ofBytes o ((AAC_SET_FREQUENCY a x).toBytes o)).map AAC_GET_FREQUENCY =
      some (x % 2 ^ 12) := by
  rw [aac_toBytes_eq, aac_frequency_of_bytes]
  simp only [AAC_SET_FREQUENCY, bitfield, and_0xff, and_0x0f, Nat.shiftRight_eq_div_pow,
    Option.some.injEq]
  omega

/-- After `AAC_SET_BITRATE(a, x)` the stored record reads back `x` modulo
`2^23`, HE-AAC build. -/
theorem heaac_bitrate_stored (o : ByteOrder) (a : Heaac.a2dp_aac_t) (x : Nat) :
    (Heaac.a2dp_aac_t.ofBytes o ((Heaac.AAC_SET_BITRATE a x).toBytes o)).map
      Heaac.AAC_GET_BITRATE = some (x % 2 ^ 23) := by
  rw [heaac_toBytes_eq, heaac_bitrate_of_bytes]
  simp only [Heaac.AAC_SET_BITRATE, bitfield, and_0xff, and_0x7f, Nat.shiftRight_eq_div_pow,
    Option.some.injEq]
  omega

/-- After `AAC_SET_FREQUENCY(a, x)` the stored record reads back `x` modulo
`2^12`, HE-AAC build. -/
theorem heaac_frequency_stored (o : ByteOrder) (a : Heaac.a2dp_aac_t) (x : Nat) :
    (Heaac.a2dp_aac_t.ofBytes o ((Heaac.AAC_SET_FREQUENCY a x).toBytes o)).map
      Heaac.AAC_GET_FREQUENCY = some (x % 2 ^ 12) := by
  rw [heaac_toBytes_eq, heaac_frequency_of_bytes]
  simp only [Heaac.AAC_SET_FREQUENCY, bitfield, and_0xff, and_0x0f,
    Nat.shiftRight_eq_div_pow, Option.some.injEq]
  omega

/-! ## Byte-order independence -/

/-- C3. Byte-order independence of the record layouts: for each of
`a2dp_sbc_t`, `a2dp_mpeg_t`, `a2dp_aac_t` (both builds), `a2dp_usac_t`,
`a2dp_atrac_t`, `a2dp_aptx_t`, `a2dp_faststream_t`, `a2dp_aptx_ll_t` and
`a2dp_ldac_t`, the little-endian declaration laid out first-member-lowest and
the big-endian declaration laid out first-member-highest give the same bytes
for every assignment of the members, and read the same member values from
every buffer. For LDAC both give `frequency = byte6 & 0x3F` and
`channel_mode = byte7 & 0x07`. -/
theorem C3_layout_byte_order_independent :
    (∀ a : a2dp_sbc_t, a.toBytes .little = a.toBytes .big) ∧
    (∀ bytes, a2dp_sbc_t.ofBytes .little bytes = a2dp_sbc_t.ofBytes .big bytes) ∧
    (∀ a : a2dp_mpeg_t, a.toBytes .little = a.toBytes .big) ∧
    (∀ bytes, a2dp_mpeg_t.ofBytes .little bytes = a2dp_mpeg_t.ofBytes .big bytes) ∧
    (∀ a : a2dp_aac_t, a.toBytes .little = a.toBytes .big) ∧
    (∀ bytes, a2dp_aac_t.ofBytes .little bytes = a2dp_aac_t.ofBytes .big bytes) ∧
    (∀ a : Heaac.a2dp_aac_t, a.toBytes .little = a.toBytes .big) ∧
    (∀ bytes, Heaac.a2dp_aac_t.ofBytes .little bytes = Heaac.a2dp_aac_t.ofBytes .big bytes) ∧
    (∀ a : a2dp_usac_t, a.toBytes .little = a.toBytes .big) ∧
    (∀ bytes, a2dp_usac_t.ofBytes .little bytes = a2dp_usac_t.ofBytes .big bytes) ∧
    (∀ a : a2dp_atrac_t, a.toBytes .little = a.toBytes .big) ∧
    (∀ bytes, a2dp_atrac_t.ofBytes .little bytes = a2dp_atrac_t.ofBytes .big bytes) ∧
    (∀ a : a2dp_aptx_t, a.toBytes .little = a.toBytes .big) ∧
    (∀ bytes, a2dp_aptx_t.ofBytes .little bytes = a2dp_aptx_t.ofBytes .big bytes) ∧
    (∀ a : a2dp_faststream_t, a.toBytes .little = a.toBytes .big) ∧
    (∀ bytes, a2dp_faststream_t.ofBytes .little bytes = a2dp_faststream_t.ofBytes .big bytes) ∧
    (∀ a : a2dp_aptx_ll_t, a.toBytes .little = a.toBytes .big) ∧
    (∀ bytes, a2dp_aptx_ll_t.ofBytes .little bytes = a2dp_aptx_ll_t.ofBytes .big bytes) ∧
    (∀ a : a2dp_ldac_t, a.toBytes .little = a.toBytes .big) ∧
    (∀ bytes, a2dp_ldac_t.ofBytes .little bytes = a2dp_ldac_t.ofBytes .big bytes) ∧
    (∀ (o : ByteOrder) (b0 b1 b2 b3 b4 b5 b6 b7 : Nat),
      (a2dp_ldac_t.ofBytes o [b0, b1, b2, b3, b4, b5, b6, b7]).map
        (fun a => (a.frequency, a.channel_mode)) = some (b6 &&& 0x3F, b7 &&& 0x07)) := by
  refine ⟨fun a => ?_, sbc_ofBytes_order, fun a => ?_, mpeg_ofBytes_order,
    fun a => ?_, aac_ofBytes_order, fun a => ?_, heaac_ofBytes_order,
    fun a => ?_, usac_ofBytes_order, fun a => ?_, atrac_ofBytes_order,
    fun a => ?_, aptx_ofBytes_order, fun a => ?_, faststream_ofBytes_order,
    fun a => ?_, aptx_ll_ofBytes_order, fun a => ?_, ldac_ofBytes_order, ?_⟩
  · rw [sbc_toBytes_eq, sbc_toBytes_eq]
  · rw [mpeg_toBytes_eq, mpeg_toBytes_eq]
  · rw [aac_toBytes_eq, aac_toBytes_eq]
  · rw [heaac_toBytes_eq, heaac_toBytes_eq]
  · rw [usac_toBytes_eq, usac_toBytes_eq]
  · rw [atrac_toBytes_eq, atrac_toBytes_eq]
  · rw [aptx_toBytes_eq, aptx_toBytes_eq]
  · rw [faststream_toBytes_eq, faststream_toBytes_eq]
  · rw [aptx_ll_toBytes_eq, aptx_ll_toBytes_eq]
  · rw [ldac_toBytes_eq, ldac_toBytes_eq]
  · intro o b0 b1 b2 b3 b4 b5 b6 b7
    rw [ldac_ofBytes_cons, Option.map_some', and_0x3f, and_0x07]

/-! ## Scattered field round trips -/

/-- C4. AAC bitrate round trip: for every `a2dp_aac_t` record `a`, whatever its
`vbr` flag, and every `b < 2^23`, `AAC_GET_BITRATE` after `AAC_SET_BITRATE(a, b)`
is `b`, also when the record is read back from its bytes under either byte
order; the same holds in the build with `FHG_HEAAC_IN_A2DP`. -/
theorem C4_aac_bitrate_round_trip (b : Nat) (hb : b < 2 ^ 23) :
    (∀ a : a2dp_aac_t,
      AAC_GET_BITRATE (AAC_SET_BITRATE a b) = b ∧
      ∀ o : ByteOrder,
        (a2dp_aac_t.ofBytes o ((AAC_SET_BITRATE a b).toBytes o)).map AAC_GET_BITRATE
          = some b) ∧
    (∀ a : Heaac.a2dp_aac_t,
      Heaac.AAC_GET_BITRATE (Heaac.AAC_SET_BITRATE a b) = b ∧
      ∀ o : ByteOrder,
        (Heaac.a2dp_aac_t.ofBytes o ((Heaac.AAC_SET_BITRATE a b).toBytes o)).map
          Heaac.AAC_GET_BITRATE = some b) := by
  refine ⟨fun a => ⟨?_, fun o => ?_⟩, fun a => ⟨?_, fun o => ?_⟩⟩
  · rw [aac_bitrate_get_set, Nat.mod_eq_of_lt hb]
  · rw [aac_bitrate_stored, Nat.mod_eq_of_lt hb]
  · rw [heaac_bitrate_get_set, Nat.mod_eq_of_lt hb]
  · rw [heaac_bitrate_stored, Nat.mod_eq_of_lt hb]

/-- C4 at `b = 128000`, once with `vbr = 0` and once with `vbr = 1`. -/
theorem C4_aac_bitrate_round_trip_witness :
    128000 < 2 ^ 23 ∧
    AAC_GET_BITRATE (AAC_SET_BITRATE
      { object_type := 0x80, frequency1 := 0, rfa := 0, channels := 1, frequency2 := 1,
        bitrate1 := 0, vbr := 0, bitrate2 := 0, bitrate3 := 0 } 128000) = 128000 ∧
    AAC_GET_BITRATE (AAC_SET_BITRATE
      { object_type := 0x80, frequency1 := 0, rfa := 0, channels := 1, frequency2 := 1,
        bitrate1 := 0, vbr := 1, bitrate2 := 0, bitrate3 := 0 } 128000) = 128000 :=
  ⟨by decide,
    ((C4_aac_bitrate_round_trip 128000 (by decide)).1 _).1,
    ((C4_aac_bitrate_round_trip 128000 (by decide)).1 _).1⟩

/-- C5. MPEG bitrate round trip: for every `a2dp_mpeg_t` record `a` and every
`b < 2^15`, `MPEG_GET_BITRATE` after `MPEG_SET_BITRATE(a, b)` is `b`, also when
the record is read back from its bytes under either byte order. -/
theorem C5_mpeg_bitrate_round_trip (a : a2dp_mpeg_t) (b : Nat) (hb : b < 2 ^ 15) :
    MPEG_GET_BITRATE (MPEG_SET_BITRATE a b) = b ∧
    ∀ o : ByteOrder,
      (a2dp_mpeg_t.ofBytes o ((MPEG_SET_BITRATE a b).toBytes o)).map MPEG_GET_BITRATE
        = some b := by
  refine ⟨?_, fun o => ?_⟩
  · rw [mpeg_bitrate_get_set, Nat.mod_eq_of_lt hb]
  · rw [mpeg_bitrate_stored, Nat.mod_eq_of_lt hb]

/-- C5 at `b = MPEG_BIT_RATE_INDEX_14 = 1 << 14` on a record with `vbr = 1`. -/
theorem C5_mpeg_bitrate_round_trip_witness :
    1 <<< 14 < 2 ^ 15 ∧
    MPEG_GET_BITRATE (MPEG_SET_BITRATE
      { channel_mode := 1, crc := 1, layer := 1, frequency := 2, mpf := 0, rfa := 0,
        bitrate1 := 0x7f, vbr := 1, bitrate2 := 0xff } (1 <<< 14)) = 1 <<< 14 :=
  ⟨by decide, (C5_mpeg_bitrate_round_trip _ (1 <<< 14) (by decide)).1⟩

/-- C6. AAC frequency round trip: for every `a2dp_aac_t` record `a` and every
`f < 2^12`, `AAC_GET_FREQUENCY` after `AAC_SET_FREQUENCY(a, f)` is `f`, also when
the record is read back from its bytes under either byte order; the same holds
in the build with `FHG_HEAAC_IN_A2DP`. -/
theorem C6_aac_frequency_round_trip (f : Nat) (hf : f < 2 ^ 12) :
    (∀ a : a2dp_aac_t,
      AAC_GET_FREQUENCY (AAC_SET_FREQUENCY a f) = f ∧
      ∀ o : ByteOrder,
        (a2dp_aac_t.ofBytes o ((AAC_SET_FREQUENCY a f).toBytes o)).map AAC_GET_FREQUENCY
          = some f) ∧
    (∀ a : Heaac.a2dp_aac_t,
      Heaac.AAC_GET_FREQUENCY (Heaac.AAC_SET_FREQUENCY a f) = f ∧
      ∀ o : ByteOrder,
        (Heaac.a2dp_aac_t.ofBytes o ((Heaac.AAC_SET_FREQUENCY a f).toBytes o)).map
          Heaac.AAC_GET_FREQUENCY = some f) := by
  refine ⟨fun a => ⟨?_, fun o => ?_⟩, fun a => ⟨?_, fun o => ?_⟩⟩
  · rw [aac_frequency_get_set, Nat.mod_eq_of_lt hf]
  · rw [aac_frequency_stored, Nat.mod_eq_of_lt hf]
  · rw [heaac_frequency_get_set, Nat.mod_eq_of_lt hf]
  · rw [heaac_frequency_stored, Nat.mod_eq_of_lt hf]

/-- C6 at `f = AAC_SAMPLING_FREQ_44100 | AAC_SAMPLING_FREQ_8000 = 0x0810` on a
record whose `channels` and `rfa` bits are all set. -/
theorem C6_aac_frequency_round_trip_witness :
    0x0810 < 2 ^ 12 ∧
    AAC_GET_FREQUENCY (AAC_SET_FREQUENCY
      { object_type := 0x80, frequency1 := 0, rfa := 3, channels := 3, frequency2 := 0,
        bitrate1 := 0, vbr := 1, bitrate2 := 0, bitrate3 := 0 } 0x0810) = 0x0810 :=
  ⟨by decide, ((C6_aac_frequency_round_trip 0x0810 (by decide)).1 _).1⟩

/-! ## Frame of the setter macros -/

/-- C7. Setters touch only their own field: `MPEG_SET_BITRATE`,
`AAC_SET_BITRATE`, `AAC_SET_FREQUENCY` (both builds), `USAC_SET_BITRATE` and
`USAC_SET_FREQUENCY` leave every other member unchanged for every record and
every input value, in particular `vbr`, `channels` and `rfa`. On the bytes,
under either byte order: `MPEG_SET_BITRATE` leaves bytes 0-1 and bit 7 of byte
2, `AAC_SET_BITRATE` leaves bytes 0-2 and bit 7 of byte 3, `AAC_SET_FREQUENCY`
leaves bytes 0, 3, 4, 5 and the low nibble of byte 2. -/
theorem C7_setters_frame :
    (∀ (a : a2dp_mpeg_t) (x : Nat),
      { MPEG_SET_BITRATE a x with bitrate1 := a.bitrate1, bitrate2 := a.bitrate2 } = a ∧
      (MPEG_SET_BITRATE a x).vbr = a.vbr) ∧
    (∀ (a : a2dp_aac_t) (x : Nat),
      { AAC_SET_BITRATE a x with
          bitrate1 := a.bitrate1, bitrate2 := a.bitrate2, bitrate3 := a.bitrate3 } = a ∧
      (AAC_SET_BITRATE a x).vbr = a.vbr) ∧
    (∀ (a : a2dp_aac_t) (x : Nat),
      { AAC_SET_FREQUENCY a x with frequency1 := a.frequency1, frequency2 := a.frequency2 } = a ∧
      (AAC_SET_FREQUENCY a x).channels = a.channels ∧ (AAC_SET_FREQUENCY a x).rfa = a.rfa) ∧
    (∀ (a : Heaac.a2dp_aac_t) (x : Nat),
      { Heaac.AAC_SET_BITRATE a x with
          bitrate1 := a.bitrate1, bitrate2 := a.bitrate2, bitrate3 := a.bitrate3 } = a ∧
      (Heaac.AAC_SET_BITRATE a x).vbr = a.vbr) ∧
    (∀ (a : Heaac.a2dp_aac_t) (x : Nat),
      { Heaac.AAC_SET_FREQUENCY a x with
          frequency1 := a.frequency1, frequency2 := a.frequency2 } = a ∧
      (Heaac.AAC_SET_FREQUENCY a x).channels = a.channels) ∧
    (∀ (a : a2dp_usac_t) (x : Nat),
      { USAC_SET_BITRATE a x with
          bitrate1 := a.bitrate1, bitrate2 := a.bitrate2, bitrate3 := a.bitrate3 } = a ∧
      (USAC_SET_BITRATE a x).vbr = a.vbr) ∧
    (∀ (a : a2dp_usac_t) (x : Nat),
      { USAC_SET_FREQUENCY a x with
          frequency1 := a.frequency1, frequency2 := a.frequency2,
          frequency3 := a.frequency3, frequency4 := a.frequency4 } = a ∧
      (USAC_SET_FREQUENCY a x).channels = a.channels ∧
      (USAC_SET_FREQUENCY a x).object_type = a.object_type) ∧
    (∀ (o : ByteOrder) (a : a2dp_mpeg_t) (x : Nat),
      ((MPEG_SET_BITRATE a x).toBytes o).take 2 = (a.toBytes o).take 2 ∧
      (((MPEG_SET_BITRATE a x).toBytes o)[2]?).map (· / 128) =
        ((a.toBytes o)[2]?).map (· / 128)) ∧
    (∀ (o : ByteOrder) (a : a2dp_aac_t) (x : Nat),
      ((AAC_SET_BITRATE a x).toBytes o).take 3 = (a.toBytes o).take 3 ∧
      (((AAC_SET_BITRATE a x).toBytes o)[3]?).map (· / 128) =
        ((a.toBytes o)[3]?).map (· / 128)) ∧
    (∀ (o : ByteOrder) (a : a2dp_aac_t) (x : Nat),
      ((AAC_SET_FREQUENCY a x).toBytes o)[0]? = (a.toBytes o)[0]? ∧
      ((AAC_SET_FREQUENCY a x).toBytes o).drop 3 = (a.toBytes o).drop 3 ∧
      (((AAC_SET_FREQUENCY a x).toBytes o)[2]?).map (· % 16) =
        ((a.toBytes o)[2]?).map (· % 16)) ∧
    (∀ (o : ByteOrder) (a : Heaac.a2dp_aac_t) (x : Nat),
      ((Heaac.AAC_SET_BITRATE a x).toBytes o).take 3 = (a.toBytes o).take 3 ∧
      (((Heaac.AAC_SET_BITRATE a x).toBytes o)[3]?).map (· / 128) =
        ((a.toBytes o)[3]?).map (· / 128)) ∧
    (∀ (o : ByteOrder) (a : Heaac.a2dp_aac_t) (x : Nat),
      ((Heaac.AAC_SET_FREQUENCY a x).toBytes o)[0]? = (a.toBytes o)[0]? ∧
      ((Heaac.AAC_SET_FREQUENCY a x).toBytes o).drop 3 = (a.toBytes o).drop 3 ∧
      (((Heaac.AAC_SET_FREQUENCY a x).toBytes o)[2]?).map (· % 16) =
        ((a.toBytes o)[2]?).map (· % 16)) := by
  refine ⟨fun a x => ⟨rfl, rfl⟩, fun a x => ⟨rfl, rfl⟩, fun a x => ⟨rfl, rfl, rfl⟩,
    fun a x => ⟨rfl, rfl⟩, fun a x => ⟨rfl, rfl⟩, fun a x => ⟨rfl, rfl⟩,
    fun a x => ⟨rfl, rfl, rfl⟩, fun o a x => ?_, fun o a x => ?_, fun o a x => ?_,
    fun o a x => ?_, fun o a x => ?_⟩
  · rw [mpeg_toBytes_eq, mpeg_toBytes_eq]
    simp [MPEG_SET_BITRATE, bitfield]
    omega
  · rw [aac_toBytes_eq, aac_toBytes_eq]
    simp [AAC_SET_BITRATE, bitfield]
    omega
  · rw [aac_toBytes_eq, aac_toBytes_eq]
    simp [AAC_SET_FREQUENCY, bitfield]
    omega
  · rw [heaac_toBytes_eq, heaac_toBytes_eq]
    simp [Heaac.AAC_SET_BITRATE, bitfield]
    omega
  · rw [heaac_toBytes_eq, heaac_toBytes_eq]
    simp [Heaac.AAC_SET_FREQUENCY, bitfield]
    omega

/-! ## SBC -/

/-- C8. SBC concrete scenario: the record with `channel_mode =
SBC_CHANNEL_MODE_STEREO` (0b0010), `frequency = SBC_SAMPLING_FREQ_44100`
(0b0010), `block_length = SBC_BLOCK_LENGTH_16`, `subbands = SBC_SUBBANDS_8`,
`allocation_method = SBC_ALLOCATION_LOUDNESS`, `min_bitpool = 2`,
`max_bitpool = 53` occupies the bytes `[0x22, 0x15, 0x02, 0x35]` under either
layout, and those bytes read back as the same seven values. -/
theorem C8_sbc_scenario :
    SBC_CHANNEL_MODE_STEREO = 0b0010 ∧ SBC_SAMPLING_FREQ_44100 = 0b0010 ∧
    ∀ o : ByteOrder,
      a2dp_sbc_t.toBytes o
        { channel_mode := SBC_CHANNEL_MODE_STEREO, frequency := SBC_SAMPLING_FREQ_44100,
          block_length := SBC_BLOCK_LENGTH_16, subbands := SBC_SUBBANDS_8,
          allocation_method := SBC_ALLOCATION_LOUDNESS,
          min_bitpool := 2, max_bitpool := 53 } = [0x22, 0x15, 0x02, 0x35] ∧
      a2dp_sbc_t.ofBytes o [0x22, 0x15, 0x02, 0x35] =
        some { channel_mode := SBC_CHANNEL_MODE_STEREO, frequency := SBC_SAMPLING_FREQ_44100,
               block_length := SBC_BLOCK_LENGTH_16, subbands := SBC_SUBBANDS_8,
               allocation_method := SBC_ALLOCATION_LOUDNESS,
               min_bitpool := 2, max_bitpool := 53 } := by
  decide

/-- C9 as stated fails: the in-width record with `channel_mode =
SBC_CHANNEL_MODE_JOINT_STEREO` (1) and `frequency = SBC_SAMPLING_FREQ_44100`
(2) has first byte `0x21` under either layout, whereas
`channel_mode << 4 | frequency` is `0x12`. -/
theorem C9_sbc_bit_positions_counterexample :
    a2dp_sbc_t.InWidth
      { channel_mode := SBC_CHANNEL_MODE_JOINT_STEREO, frequency := SBC_SAMPLING_FREQ_44100,
        block_length := SBC_BLOCK_LENGTH_16, subbands := SBC_SUBBANDS_8,
        allocation_method := SBC_ALLOCATION_LOUDNESS, min_bitpool := 2, max_bitpool := 53 } ∧
    (SBC_CHANNEL_MODE_JOINT_STEREO <<< 4 ||| SBC_SAMPLING_FREQ_44100) = 0x12 ∧
    ∀ o : ByteOrder,
      a2dp_sbc_t.toBytes o
        { channel_mode := SBC_CHANNEL_MODE_JOINT_STEREO, frequency := SBC_SAMPLING_FREQ_44100,
          block_length := SBC_BLOCK_LENGTH_16, subbands := SBC_SUBBANDS_8,
          allocation_method := SBC_ALLOCATION_LOUDNESS, min_bitpool := 2, max_bitpool := 53 }
        = [0x21, 0x15, 0x02, 0x35] ∧
      a2dp_sbc_t.toBytes o
        { channel_mode := SBC_CHANNEL_MODE_JOINT_STEREO, frequency := SBC_SAMPLING_FREQ_44100,
          block_length := SBC_BLOCK_LENGTH_16, subbands := SBC_SUBBANDS_8,
          allocation_method := SBC_ALLOCATION_LOUDNESS, min_bitpool := 2, max_bitpool := 53 }
        ≠ [SBC_CHANNEL_MODE_JOINT_STEREO <<< 4 ||| SBC_SAMPLING_FREQ_44100,
           SBC_BLOCK_LENGTH_16 <<< 4 ||| SBC_SUBBANDS_8 <<< 2 ||| SBC_ALLOCATION_LOUDNESS,
           2, 53] := by
  decide

/-- C9, amended. SBC bit positions: for every in-width `a2dp_sbc_t` record the
bytes are `byte0 = frequency << 4 | channel_mode`,
`byte1 = block_length << 4 | subbands << 2 | allocation_method`,
`byte2 = min_bitpool`, `byte3 = max_bitpool`, under either layout. -/
theorem C9_sbc_bit_positions (o : ByteOrder) (a : a2dp_sbc_t) (h : a.InWidth) :
    a.toBytes o =
      [a.frequency <<< 4 ||| a.channel_mode,
       a.block_length <<< 4 ||| a.subbands <<< 2 ||| a.allocation_method,
       a.min_bitpool, a.max_bitpool] := by
  obtain ⟨cm, f, am, sb, bl, mn, mx⟩ := a
  simp [a2dp_sbc_t.InWidth, slotsInWidth, a2dp_sbc_t.slots] at h
  rw [sbc_toBytes_eq, shl_or f cm 4 (by omega),
    shl_or3 bl sb am 4 2 (by omega) (by omega) (by omega)]
  simp only [List.cons.injEq, and_true]
  omega

/-- C9 amended, at the record of the counterexample. -/
theorem C9_sbc_bit_positions_witness :
    a2dp_sbc_t.InWidth
      { channel_mode := SBC_CHANNEL_MODE_JOINT_STEREO, frequency := SBC_SAMPLING_FREQ_44100,
        block_length := SBC_BLOCK_LENGTH_16, subbands := SBC_SUBBANDS_8,
        allocation_method := SBC_ALLOCATION_LOUDNESS, min_bitpool := 2, max_bitpool := 53 } ∧
    a2dp_sbc_t.toBytes .little
      { channel_mode := SBC_CHANNEL_MODE_JOINT_STEREO, frequency := SBC_SAMPLING_FREQ_44100,
        block_length := SBC_BLOCK_LENGTH_16, subbands := SBC_SUBBANDS_8,
        allocation_method := SBC_ALLOCATION_LOUDNESS, min_bitpool := 2, max_bitpool := 53 } =
      [SBC_SAMPLING_FREQ_44100 <<< 4 ||| SBC_CHANNEL_MODE_JOINT_STEREO,
       SBC_BLOCK_LENGTH_16 <<< 4 ||| SBC_SUBBANDS_8 <<< 2 ||| SBC_ALLOCATION_LOUDNESS,
       2, 53] :=
  ⟨by decide, C9_sbc_bit_positions .little _ (by decide)⟩

/-! ## Record round trip -/

/-- C10. Record round trip: for each of SBC, MPEG, AAC (both builds), USAC,
ATRAC, aptX, FastStream, aptX-LL and LDAC and every record whose members lie
within their declared widths, writing the record to its bytes and reading the
members back yields the record, under either layout. -/
theorem C10_record_round_trip (o : ByteOrder) :
    (∀ a : a2dp_sbc_t, a.InWidth → a2dp_sbc_t.ofBytes o (a.toBytes o) = some a) ∧
    (∀ a : a2dp_mpeg_t, a.InWidth → a2dp_mpeg_t.ofBytes o (a.toBytes o) = some a) ∧
    (∀ a : a2dp_aac_t, a.InWidth → a2dp_aac_t.ofBytes o (a.toBytes o) = some a) ∧
    (∀ a : Heaac.a2dp_aac_t, a.InWidth →
      Heaac.a2dp_aac_t.ofBytes o (a.toBytes o) = some a) ∧
    (∀ a : a2dp_usac_t, a.InWidth → a2dp_usac_t.ofBytes o (a.toBytes o) = some a) ∧
    (∀ a : a2dp_atrac_t, a.InWidth → a2dp_atrac_t.ofBytes o (a.toBytes o) = some a) ∧
    (∀ a : a2dp_aptx_t, a.InWidth → a2dp_aptx_t.ofBytes o (a.toBytes o) = some a) ∧
    (∀ a : a2dp_faststream_t, a.InWidth →
      a2dp_faststream_t.ofBytes o (a.toBytes o) = some a) ∧
    (∀ a : a2dp_aptx_ll_t, a.InWidth → a2dp_aptx_ll_t.ofBytes o (a.toBytes o) = some a) ∧
    (∀ a : a2dp_ldac_t, a.InWidth → a2dp_ldac_t.ofBytes o (a.toBytes o) = some a) :=
  ⟨sbc_roundtrip o, mpeg_roundtrip o, aac_roundtrip o,
    heaac_roundtrip o, usac_roundtrip o, atrac_roundtrip o,
    aptx_roundtrip o, faststream_roundtrip o, aptx_ll_roundtrip o,
    ldac_roundtrip o⟩

/-- C10 at an LDAC record (Sony identifier, 44.1 and 96 kHz, stereo) and at an
ATRAC record, on a little-endian and on a big-endian host. -/
theorem C10_record_round_trip_witness :
    a2dp_ldac_t.InWidth
      { info := A2DP_SET_VENDOR_ID_CODEC_ID 0x012d 0x00aa,
        frequency := 0x24, rfa1 := 0, channel_mode := 0x01, rfa2 := 0 } ∧
    a2dp_ldac_t.ofBytes .little (a2dp_ldac_t.toBytes .little
      { info := A2DP_SET_VENDOR_ID_CODEC_ID 0x012d 0x00aa,
        frequency := 0x24, rfa1 := 0, channel_mode := 0x01, rfa2 := 0 }) =
      some { info := A2DP_SET_VENDOR_ID_CODEC_ID 0x012d 0x00aa,
             frequency := 0x24, rfa1 := 0, channel_mode := 0x01, rfa2 := 0 } ∧
    a2dp_atrac_t.InWidth
      { rfa1 := 0, channel_mode := 0x01, version := 1, bitrate1 := 5, vbr := 1,
        frequency := 0x02, rfa2 := 0, bitrate2 := 0x12, bitrate3 := 0x34, max_sul1 := 1,
        max_sul2 := 2, rfa3 := 0 } ∧
    a2dp_atrac_t.ofBytes .big (a2dp_atrac_t.toBytes .big
      { rfa1 := 0, channel_mode := 0x01, version := 1, bitrate1 := 5, vbr := 1,
        frequency := 0x02, rfa2 := 0, bitrate2 := 0x12, bitrate3 := 0x34, max_sul1 := 1,
        max_sul2 := 2, rfa3 := 0 }) =
      some { rfa1 := 0, channel_mode := 0x01, version := 1, bitrate1 := 5, vbr := 1,
             frequency := 0x02, rfa2 := 0, bitrate2 := 0x12, bitrate3 := 0x34, max_sul1 := 1,
             max_sul2 := 2, rfa3 := 0 } :=
  ⟨by decide, (C10_record_round_trip .little).2.2.2.2.2.2.2.2.2 _ (by decide),
    by decide, (C10_record_round_trip .big).2.2.2.2.2.1 _ (by decide)⟩


/-! ## aptX HD and the aptX Low Latency sub-record -/

theorem aptx_hd_toBytes_eq (o : ByteOrder) (a : a2dp_aptx_hd_t) :
    a.toBytes o =
      [a.aptx.info.vendor_id4 % 256, a.aptx.info.vendor_id3 % 256,
       a.aptx.info.vendor_id2 % 256, a.aptx.info.vendor_id1 % 256,
       a.aptx.info.codec_id2 % 256, a.aptx.info.codec_id1 % 256,
       a.aptx.frequency % 16 * 16 + a.aptx.channel_mode % 16] ++
      (match o with
       | .little => [a.rfa % 256, a.rfa / 2 ^ 8 % 256, a.rfa / 2 ^ 16 % 256,
                     a.rfa / 2 ^ 24 % 256]
       | .big => [a.rfa / 2 ^ 24 % 256, a.rfa / 2 ^ 16 % 256, a.rfa / 2 ^ 8 % 256,
                  a.rfa % 256]) := by
  cases o <;>
    simp [a2dp_aptx_hd_t.toBytes, a2dp_aptx_hd_t.slots, a2dp_aptx_t.slots, uint32Slots,
      a2dp_vendor_codec_t.slots, pack, packBits, bitfield, bitShift,
      Nat.shiftRight_eq_div_pow] <;>
    omega

theorem aptx_hd_ofBytes_cons (o : ByteOrder) (b0 b1 b2 b3 b4 b5 b6 b7 b8 b9 b10 : Nat)
    (rest : List Nat) :
    a2dp_aptx_hd_t.ofBytes o
        (b0 :: b1 :: b2 :: b3 :: b4 :: b5 :: b6 :: b7 :: b8 :: b9 :: b10 :: rest) =
      some { aptx := { info := { vendor_id4 := b0 % 256, vendor_id3 := b1 % 256,
                                 vendor_id2 := b2 % 256, vendor_id1 := b3 % 256,
                                 codec_id2 := b4 % 256, codec_id1 := b5 % 256 },
                       channel_mode := b6 % 16, frequency := b6 / 16 % 16 },
             rfa := uint32OfBytes o (b7 % 256) (b8 % 256) (b9 % 256) (b10 % 256) } := by
  cases o <;>
    simp [a2dp_aptx_hd_t.ofBytes, a2dp_aptx_hd_t.widths, a2dp_aptx_t.widths,
      a2dp_vendor_codec_t.widths, unpack, unpackBits, bitShift]

theorem aptx_hd_roundtrip (o : ByteOrder) (a : a2dp_aptx_hd_t) (h : a.InWidth) :
    a2dp_aptx_hd_t.ofBytes o (a.toBytes o) = some a := by
  obtain ⟨⟨⟨v4, v3, v2, v1, c2, c1⟩, cm, f⟩, rfa⟩ := a
  simp [a2dp_aptx_hd_t.InWidth, a2dp_aptx_t.InWidth, slotsInWidth, a2dp_aptx_t.slots,
    a2dp_vendor_codec_t.slots] at h
  rw [aptx_hd_toBytes_eq]
  cases o <;>
    simp only [List.cons_append, List.nil_append, aptx_hd_ofBytes_cons, uint32OfBytes,
      Option.some.injEq, a2dp_aptx_hd_t.mk.injEq, a2dp_aptx_t.mk.injEq,
      a2dp_vendor_codec_t.mk.injEq] <;>
    omega

theorem new_caps_toBytes_eq (o : ByteOrder) (a : a2dp_aptx_ll_new_caps_t) :
    a.toBytes o =
      [a.reserved % 256, a.target_level2 % 256, a.target_level1 % 256,
       a.initial_level2 % 256, a.initial_level1 % 256, a.sra_max_rate % 256,
       a.sra_avg_time % 256, a.good_working_level2 % 256, a.good_working_level1 % 256] := by
  cases o <;>
    simp [a2dp_aptx_ll_new_caps_t.toBytes, a2dp_aptx_ll_new_caps_t.slots, pack, packBits,
      bitfield, bitShift]

theorem new_caps_ofBytes_cons (o : ByteOrder) (b0 b1 b2 b3 b4 b5 b6 b7 b8 : Nat)
    (rest : List Nat) :
    a2dp_aptx_ll_new_caps_t.ofBytes o
        (b0 :: b1 :: b2 :: b3 :: b4 :: b5 :: b6 :: b7 :: b8 :: rest) =
      some { reserved := b0 % 256, target_level2 := b1 % 256, target_level1 := b2 % 256,
             initial_level2 := b3 % 256, initial_level1 := b4 % 256,
             sra_max_rate := b5 % 256, sra_avg_time := b6 % 256,
             good_working_level2 := b7 % 256, good_working_level1 := b8 % 256 } := by
  cases o <;>
    simp [a2dp_aptx_ll_new_caps_t.ofBytes, a2dp_aptx_ll_new_caps_t.widths, unpack,
      unpackBits, bitShift]


/-! ## Sizes and the bytes of every buffer -/

theorem vendor_codec_sizeof : a2dp_vendor_codec_t.sizeof = 6 := by
  decide

theorem vendor_codec_length (o : ByteOrder) (a : a2dp_vendor_codec_t) : (a.toBytes o).length = 6 := by
  rw [vendor_codec_toBytes_eq]; rfl

theorem vendor_codec_bytes_roundtrip (o : ByteOrder) (bytes : List Nat)
    (hlen : bytes.length = a2dp_vendor_codec_t.sizeof) (hb : ∀ b ∈ bytes, b < 256) :
    (a2dp_vendor_codec_t.ofBytes o bytes).map (a2dp_vendor_codec_t.toBytes o) = some bytes := by
  rw [vendor_codec_sizeof] at hlen
  rcases bytes with _ | ⟨b0, _ | ⟨b1, _ | ⟨b2, _ | ⟨b3, _ | ⟨b4, _ | ⟨b5, _ | ⟨x, rest⟩⟩⟩⟩⟩⟩⟩ <;>
    simp at hlen
  simp only [List.mem_cons, List.mem_singleton, forall_eq_or_imp, forall_eq] at hb
  rw [vendor_codec_ofBytes_cons, Option.map_some', vendor_codec_toBytes_eq]
  simp only [Option.some.injEq, List.cons.injEq, and_true]
  omega

theorem sbc_sizeof : a2dp_sbc_t.sizeof = 4 := by
  decide

theorem sbc_length (o : ByteOrder) (a : a2dp_sbc_t) : (a.toBytes o).length = 4 := by
  rw [sbc_toBytes_eq]; rfl

theorem sbc_bytes_roundtrip (o : ByteOrder) (bytes : List Nat)
    (hlen : bytes.length = a2dp_sbc_t.sizeof) (hb : ∀ b ∈ bytes, b < 256) :
    (a2dp_sbc_t.ofBytes o bytes).map (a2dp_sbc_t.toBytes o) = some bytes := by
  rw [sbc_sizeof] at hlen
  rcases bytes with _ | ⟨b0, _ | ⟨b1, _ | ⟨b2, _ | ⟨b3, _ | ⟨x, rest⟩⟩⟩⟩⟩ <;>
    simp at hlen
  simp only [List.mem_cons, List.mem_singleton, forall_eq_or_imp, forall_eq] at hb
  rw [sbc_ofBytes_cons, Option.map_some', sbc_toBytes_eq]
  simp only [Option.some.injEq, List.cons.injEq, and_true]
  omega

theorem mpeg_sizeof : a2dp_mpeg_t.sizeof = 4 := by
  decide

theorem mpeg_length (o : ByteOrder) (a : a2dp_mpeg_t) : (a.toBytes o).length = 4 := by
  rw [mpeg_toBytes_eq]; rfl

theorem mpeg_bytes_roundtrip (o : ByteOrder) (bytes : List Nat)
    (hlen : bytes.length = a2dp_mpeg_t.sizeof) (hb : ∀ b ∈ bytes, b < 256) :
    (a2dp_mpeg_t.ofBytes o bytes).map (a2dp_mpeg_t.toBytes o) = some bytes := by
  rw [mpeg_sizeof] at hlen
  rcases bytes with _ | ⟨b0, _ | ⟨b1, _ | ⟨b2, _ | ⟨b3, _ | ⟨x, rest⟩⟩⟩⟩⟩ <;>
    simp at hlen
  simp only [List.mem_cons, List.mem_singleton, forall_eq_or_imp, forall_eq] at hb
  rw [mpeg_ofBytes_cons, Option.map_some', mpeg_toBytes_eq]
  simp only [Option.some.injEq, List.cons.injEq, and_true]
  omega

theorem aac_sizeof : a2dp_aac_t.sizeof = 6 := by
  decide

theorem aac_length (o : ByteOrder) (a : a2dp_aac_t) : (a.toBytes o).length = 6 := by
  rw [aac_toBytes_eq]; rfl

theorem aac_bytes_roundtrip (o : ByteOrder) (bytes : List Nat)
    (hlen : bytes.length = a2dp_aac_t.sizeof) (hb : ∀ b ∈ bytes, b < 256) :
    (a2dp_aac_t.ofBytes o bytes).map (a2dp_aac_t.toBytes o) = some bytes := by
  rw [aac_sizeof] at hlen
  rcases bytes with _ | ⟨b0, _ | ⟨b1, _ | ⟨b2, _ | ⟨b3, _ | ⟨b4, _ | ⟨b5, _ | ⟨x, rest⟩⟩⟩⟩⟩⟩⟩ <;>
    simp at hlen
  simp only [List.mem_cons, List.mem_singleton, forall_eq_or_imp, forall_eq] at hb
  rw [aac_ofBytes_cons, Option.map_some', aac_toBytes_eq]
  simp only [Option.some.injEq, List.cons.injEq, and_true]
  omega

theorem heaac_sizeof : Heaac.a2dp_aac_t.sizeof = 6 := by
  decide

theorem heaac_length (o : ByteOrder) (a : Heaac.a2dp_aac_t) : (a.toBytes o).length = 6 := by
  rw [heaac_toBytes_eq]; rfl

theorem heaac_bytes_roundtrip (o : ByteOrder) (bytes : List Nat)
    (hlen : bytes.length = Heaac.a2dp_aac_t.sizeof) (hb : ∀ b ∈ bytes, b < 256) :
    (Heaac.a2dp_aac_t.ofBytes o bytes).map (Heaac.a2dp_aac_t.toBytes o) = some bytes := by
  rw [heaac_sizeof] at hlen
  rcases bytes with _ | ⟨b0, _ | ⟨b1, _ | ⟨b2, _ | ⟨b3, _ | ⟨b4, _ | ⟨b5, _ | ⟨x, rest⟩⟩⟩⟩⟩⟩⟩ <;>
    simp at hlen
  simp only [List.mem_cons, List.mem_singleton, forall_eq_or_imp, forall_eq] at hb
  rw [heaac_ofBytes_cons, Option.map_some', heaac_toBytes_eq]
  simp only [Option.some.injEq, List.cons.injEq, and_true]
  omega

theorem usac_sizeof : a2dp_usac_t.sizeof = 7 := by
  decide

theorem usac_length (o : ByteOrder) (a : a2dp_usac_t) : (a.toBytes o).length = 7 := by
  rw [usac_toBytes_eq]; rfl

theorem usac_bytes_roundtrip (o : ByteOrder) (bytes : List Nat)
    (hlen : bytes.length = a2dp_usac_t.sizeof) (hb : ∀ b ∈ bytes, b < 256) :
    (a2dp_usac_t.ofBytes o bytes).map (a2dp_usac_t.toBytes o) = some bytes := by
  rw [usac_sizeof] at hlen
  rcases bytes with _ | ⟨b0, _ | ⟨b1, _ | ⟨b2, _ | ⟨b3, _ | ⟨b4, _ | ⟨b5, _ | ⟨b6, _ | ⟨x, rest⟩⟩⟩⟩⟩⟩⟩⟩ <;>
    simp at hlen
  simp only [List.mem_cons, List.mem_singleton, forall_eq_or_imp, forall_eq] at hb
  rw [usac_ofBytes_cons, Option.map_some', usac_toBytes_eq]
  simp only [Option.some.injEq, List.cons.injEq, and_true]
  omega

theorem atrac_sizeof : a2dp_atrac_t.sizeof = 7 := by
  decide

theorem atrac_length (o : ByteOrder) (a : a2dp_atrac_t) : (a.toBytes o).length = 7 := by
  rw [atrac_toBytes_eq]; rfl

theorem atrac_bytes_roundtrip (o : ByteOrder) (bytes : List Nat)
    (hlen : bytes.length = a2dp_atrac_t.sizeof) (hb : ∀ b ∈ bytes, b < 256) :
    (a2dp_atrac_t.ofBytes o bytes).map (a2dp_atrac_t.toBytes o) = some bytes := by
  rw [atrac_sizeof] at hlen
  rcases bytes with _ | ⟨b0, _ | ⟨b1, _ | ⟨b2, _ | ⟨b3, _ | ⟨b4, _ | ⟨b5, _ | ⟨b6, _ | ⟨x, rest⟩⟩⟩⟩⟩⟩⟩⟩ <;>
    simp at hlen
  simp only [List.mem_cons, List.mem_singleton, forall_eq_or_imp, forall_eq] at hb
  rw [atrac_ofBytes_cons, Option.map_some', atrac_toBytes_eq]
  simp only [Option.some.injEq, List.cons.injEq, and_true]
  omega

theorem aptx_sizeof : a2dp_aptx_t.sizeof = 7 := by
  decide

theorem aptx_length (o : ByteOrder) (a : a2dp_aptx_t) : (a.toBytes o).length = 7 := by
  rw [aptx_toBytes_eq]; rfl

theorem aptx_bytes_roundtrip (o : ByteOrder) (bytes : List Nat)
    (hlen : bytes.length = a2dp_aptx_t.sizeof) (hb : ∀ b ∈ bytes, b < 256) :
    (a2dp_aptx_t.ofBytes o bytes).map (a2dp_aptx_t.toBytes o) = some bytes := by
  rw [aptx_sizeof] at hlen
  rcases bytes with _ | ⟨b0, _ | ⟨b1, _ | ⟨b2, _ | ⟨b3, _ | ⟨b4, _ | ⟨b5, _ | ⟨b6, _ | ⟨x, rest⟩⟩⟩⟩⟩⟩⟩⟩ <;>
    simp at hlen
  simp only [List.mem_cons, List.mem_singleton, forall_eq_or_imp, forall_eq] at hb
  rw [aptx_ofBytes_cons, Option.map_some', aptx_toBytes_eq]
  simp only [Option.some.injEq, List.cons.injEq, and_true]
  omega

theorem faststream_sizeof : a2dp_faststream_t.sizeof = 8 := by
  decide

theorem faststream_length (o : ByteOrder) (a : a2dp_faststream_t) : (a.toBytes o).length = 8 := by
  rw [faststream_toBytes_eq]; rfl

theorem faststream_bytes_roundtrip (o : ByteOrder) (bytes : List Nat)
    (hlen : bytes.length = a2dp_faststream_t.sizeof) (hb : ∀ b ∈ bytes, b < 256) :
    (a2dp_faststream_t.ofBytes o bytes).map (a2dp_faststream_t.toBytes o) = some bytes := by
  rw [faststream_sizeof] at hlen
  rcases bytes with _ | ⟨b0, _ | ⟨b1, _ | ⟨b2, _ | ⟨b3, _ | ⟨b4, _ | ⟨b5, _ | ⟨b6, _ | ⟨b7, _ | ⟨x, rest⟩⟩⟩⟩⟩⟩⟩⟩⟩ <;>
    simp at hlen
  simp only [List.mem_cons, List.mem_singleton, forall_eq_or_imp, forall_eq] at hb
  rw [faststream_ofBytes_cons, Option.map_some', faststream_toBytes_eq]
  simp only [Option.some.injEq, List.cons.injEq, and_true]
  omega

theorem aptx_ll_sizeof : a2dp_aptx_ll_t.sizeof = 8 := by
  decide

theorem aptx_ll_length (o : ByteOrder) (a : a2dp_aptx_ll_t) : (a.toBytes o).length = 8 := by
  rw [aptx_ll_toBytes_eq]; rfl

theorem aptx_ll_bytes_roundtrip (o : ByteOrder) (bytes : List Nat)
    (hlen : bytes.length = a2dp_aptx_ll_t.sizeof) (hb : ∀ b ∈ bytes, b < 256) :
    (a2dp_aptx_ll_t.ofBytes o bytes).map (a2dp_aptx_ll_t.toBytes o) = some bytes := by
  rw [aptx_ll_sizeof] at hlen
  rcases bytes with _ | ⟨b0, _ | ⟨b1, _ | ⟨b2, _ | ⟨b3, _ | ⟨b4, _ | ⟨b5, _ | ⟨b6, _ | ⟨b7, _ | ⟨x, rest⟩⟩⟩⟩⟩⟩⟩⟩⟩ <;>
    simp at hlen
  simp only [List.mem_cons, List.mem_singleton, forall_eq_or_imp, forall_eq] at hb
  rw [aptx_ll_ofBytes_cons, Option.map_some', aptx_ll_toBytes_eq]
  simp only [Option.some.injEq, List.cons.injEq, and_true]
  omega

theorem aptx_hd_sizeof : a2dp_aptx_hd_t.sizeof = 11 := by
  decide

theorem aptx_hd_length (o : ByteOrder) (a : a2dp_aptx_hd_t) : (a.toBytes o).length = 11 := by
  rw [aptx_hd_toBytes_eq]; cases o <;> rfl

theorem aptx_hd_bytes_roundtrip (o : ByteOrder) (bytes : List Nat)
    (hlen : bytes.length = a2dp_aptx_hd_t.sizeof) (hb : ∀ b ∈ bytes, b < 256) :
    (a2dp_aptx_hd_t.ofBytes o bytes).map (a2dp_aptx_hd_t.toBytes o) = some bytes := by
  rw [aptx_hd_sizeof] at hlen
  rcases bytes with _ | ⟨b0, _ | ⟨b1, _ | ⟨b2, _ | ⟨b3, _ | ⟨b4, _ | ⟨b5, _ | ⟨b6, _ | ⟨b7, _ | ⟨b8, _ | ⟨b9, _ | ⟨b10, _ | ⟨x, rest⟩⟩⟩⟩⟩⟩⟩⟩⟩⟩⟩⟩ <;>
    simp at hlen
  simp only [List.mem_cons, List.mem_singleton, forall_eq_or_imp, forall_eq] at hb
  rw [aptx_hd_ofBytes_cons, Option.map_some', aptx_hd_toBytes_eq]
  cases o <;>
    simp only [uint32OfBytes, List.cons_append, List.nil_append, Option.some.injEq,
      List.cons.injEq, and_true] <;>
    omega

theorem ldac_sizeof : a2dp_ldac_t.sizeof = 8 := by
  decide

theorem ldac_length (o : ByteOrder) (a : a2dp_ldac_t) : (a.toBytes o).length = 8 := by
  rw [ldac_toBytes_eq]; rfl

theorem ldac_bytes_roundtrip (o : ByteOrder) (bytes : List Nat)
    (hlen : bytes.length = a2dp_ldac_t.sizeof) (hb : ∀ b ∈ bytes, b < 256) :
    (a2dp_ldac_t.ofBytes o bytes).map (a2dp_ldac_t.toBytes o) = some bytes := by
  rw [ldac_sizeof] at hlen
  rcases bytes with _ | ⟨b0, _ | ⟨b1, _ | ⟨b2, _ | ⟨b3, _ | ⟨b4, _ | ⟨b5, _ | ⟨b6, _ | ⟨b7, _ | ⟨x, rest⟩⟩⟩⟩⟩⟩⟩⟩⟩ <;>
    simp at hlen
  simp only [List.mem_cons, List.mem_singleton, forall_eq_or_imp, forall_eq] at hb
  rw [ldac_ofBytes_cons, Option.map_some', ldac_toBytes_eq]
  simp only [Option.some.injEq, List.cons.injEq, and_true]
  omega

theorem new_caps_sizeof : a2dp_aptx_ll_new_caps_t.sizeof = 9 := by
  decide

theorem new_caps_length (o : ByteOrder) (a : a2dp_aptx_ll_new_caps_t) : (a.toBytes o).length = 9 := by
  rw [new_caps_toBytes_eq]; rfl

theorem new_caps_bytes_roundtrip (o : ByteOrder) (bytes : List Nat)
    (hlen : bytes.length = a2dp_aptx_ll_new_caps_t.sizeof) (hb : ∀ b ∈ bytes, b < 256) :
    (a2dp_aptx_ll_new_caps_t.ofBytes o bytes).map (a2dp_aptx_ll_new_caps_t.toBytes o) = some bytes := by
  rw [new_caps_sizeof] at hlen
  rcases bytes with _ | ⟨b0, _ | ⟨b1, _ | ⟨b2, _ | ⟨b3, _ | ⟨b4, _ | ⟨b5, _ | ⟨b6, _ | ⟨b7, _ | ⟨b8, _ | ⟨x, rest⟩⟩⟩⟩⟩⟩⟩⟩⟩⟩ <;>
    simp at hlen
  simp only [List.mem_cons, List.mem_singleton, forall_eq_or_imp, forall_eq] at hb
  rw [new_caps_ofBytes_cons, Option.map_some', new_caps_toBytes_eq]
  simp only [Option.some.injEq, List.cons.injEq, and_true]
  omega

/-! ## USAC and ATRAC scattered values -/

/-- Four chunks of 6+8+8+4 bits joined as `USAC_GET_FREQUENCY` joins them. -/
theorem usac_frequency_value (f1 f2 f3 f4 : Nat) (h2 : f2 < 256) (h3 : f3 < 256)
    (h4 : f4 < 16) :
    (((f1 <<< 20) ||| (f2 <<< 12)) ||| (f3 <<< 4)) ||| f4 =
      f1 * 2 ^ 20 + f2 * 2 ^ 12 + f3 * 2 ^ 4 + f4 := by
  have h34 : f3 <<< 4 < 2 ^ 12 := by
    rw [Nat.shiftLeft_eq]; omega
  have e : f1 * 2 ^ 20 + f2 * 2 ^ 12 + f3 <<< 4 = (f1 * 2 ^ 16 + f2 * 2 ^ 8 + f3) <<< 4 := by
    simp only [Nat.shiftLeft_eq]; omega
  rw [shl_or3 f1 f2 (f3 <<< 4) 20 12 (by omega) (by omega) h34, e, shl_or _ f4 4 (by omega)]
  omega

/-- What `USAC_GET_BITRATE` returns after `USAC_SET_BITRATE(a, x)`. -/
theorem usac_bitrate_get_set (a : a2dp_usac_t) (x : Nat) :
    USAC_GET_BITRATE (USAC_SET_BITRATE a x) = x % 2 ^ 23 := by
  simp only [USAC_GET_BITRATE, USAC_SET_BITRATE, bitfield, and_0xff, and_0x7f,
    Nat.shiftRight_eq_div_pow]
  rw [shl_or3 _ _ _ 16 8 (by omega) (by omega) (by omega)]
  omega

/-- What `USAC_GET_FREQUENCY` returns after `USAC_SET_FREQUENCY(a, x)`. -/
theorem usac_frequency_get_set (a : a2dp_usac_t) (x : Nat) :
    USAC_GET_FREQUENCY (USAC_SET_FREQUENCY a x) = x % 2 ^ 26 := by
  simp only [USAC_GET_FREQUENCY, USAC_SET_FREQUENCY, bitfield, and_0xff, and_0x3f, and_0x0f,
    Nat.shiftRight_eq_div_pow]
  rw [usac_frequency_value _ _ _ _ (by omega) (by omega) (by omega)]
  omega

/-- The value `USAC_GET_BITRATE` reads from a buffer, under either byte order. -/
theorem usac_bitrate_of_bytes (o : ByteOrder) (b0 b1 b2 b3 b4 b5 b6 : Nat)
    (rest : List Nat) :
    (a2dp_usac_t.ofBytes o (b0 :: b1 :: b2 :: b3 :: b4 :: b5 :: b6 :: rest)).map
      USAC_GET_BITRATE = some (b4 % 128 * 65536 + b5 % 256 * 256 + b6 % 256) := by
  rw [usac_ofBytes_cons]
  simp only [Option.map_some', USAC_GET_BITRATE, Option.some.injEq]
  rw [shl_or3 _ _ _ 16 8 (by omega) (by omega) (by omega)]
  omega

/-- The value `USAC_GET_FREQUENCY` reads from a buffer, under either byte order. -/
theorem usac_frequency_of_bytes (o : ByteOrder) (b0 b1 b2 b3 b4 b5 b6 : Nat)
    (rest : List Nat) :
    (a2dp_usac_t.ofBytes o (b0 :: b1 :: b2 :: b3 :: b4 :: b5 :: b6 :: rest)).map
      USAC_GET_FREQUENCY =
      some (b0 % 64 * 2 ^ 20 + b1 % 256 * 2 ^ 12 + b2 % 256 * 2 ^ 4 + b3 / 16 % 16) := by
  rw [usac_ofBytes_cons]
  simp only [Option.map_some', USAC_GET_FREQUENCY, Option.some.injEq]
  rw [usac_frequency_value _ _ _ _ (by omega) (by omega) (by omega)]

/-- After `USAC_SET_BITRATE(a, x)` the stored record reads back `x` modulo `2^23`. -/
theorem usac_bitrate_stored (o : ByteOrder) (a : a2dp_usac_t) (x : Nat) :
    (a2dp_usac_t.ofBytes o ((USAC_SET_BITRATE a x).toBytes o)).map USAC_GET_BITRATE =
      some (x % 2 ^ 23) := by
  rw [usac_toBytes_eq, usac_bitrate_of_bytes]
  simp only [USAC_SET_BITRATE, bitfield, and_0xff, and_0x7f, Nat.shiftRight_eq_div_pow,
    Option.some.injEq]
  omega

/-- After `USAC_SET_FREQUENCY(a, x)` the stored record reads back `x` modulo `2^26`. -/
theorem usac_frequency_stored (o : ByteOrder) (a : a2dp_usac_t) (x : Nat) :
    (a2dp_usac_t.ofBytes o ((USAC_SET_FREQUENCY a x).toBytes o)).map USAC_GET_FREQUENCY =
      some (x % 2 ^ 26) := by
  rw [usac_toBytes_eq, usac_frequency_of_bytes]
  simp only [USAC_SET_FREQUENCY, bitfield, and_0xff, and_0x3f, and_0x0f,
    Nat.shiftRight_eq_div_pow, Option.some.injEq]
  omega

/-- The value `ATRAC_GET_BITRATE` reads from a buffer, under either byte order. -/
theorem atrac_bitrate_of_bytes (o : ByteOrder) (b0 b1 b2 b3 b4 b5 b6 : Nat)
    (rest : List Nat) :
    (a2dp_atrac_t.ofBytes o (b0 :: b1 :: b2 :: b3 :: b4 :: b5 :: b6 :: rest)).map
      ATRAC_GET_BITRATE = some (b1 % 8 * 2 ^ 16 + b2 % 256 * 2 ^ 8 + b3 % 256) := by
  rw [atrac_ofBytes_cons]
  simp only [Option.map_some', ATRAC_GET_BITRATE, Option.some.injEq]
  rw [shl_or3 _ _ _ 16 8 (by omega) (by omega) (by omega)]

/-- The value `ATRAC_GET_MAX_SUL` reads from a buffer, under either byte order. -/
theorem atrac_max_sul_of_bytes (o : ByteOrder) (b0 b1 b2 b3 b4 b5 b6 : Nat)
    (rest : List Nat) :
    (a2dp_atrac_t.ofBytes o (b0 :: b1 :: b2 :: b3 :: b4 :: b5 :: b6 :: rest)).map
      ATRAC_GET_MAX_SUL = some (b4 % 256 * 2 ^ 8 + b5 % 256) := by
  rw [atrac_ofBytes_cons]
  simp only [Option.map_some', ATRAC_GET_MAX_SUL, Option.some.injEq]
  rw [shl_or _ _ 8 (by omega)]


/-! ## Wire bit ranges of four and six bytes -/

theorem spec_wire_value_4 (b0 b1 b2 b3 : Nat) :
    specWireValue [b0, b1, b2, b3] = b0 * 2 ^ 24 + b1 * 2 ^ 16 + b2 * 2 ^ 8 + b3 := by
  simp only [specWireValue, List.length_cons, List.length_nil]
  omega

theorem spec_wire_value_6 (b0 b1 b2 b3 b4 b5 : Nat) :
    specWireValue [b0, b1, b2, b3, b4, b5] =
      b0 * 2 ^ 40 + b1 * 2 ^ 32 + b2 * 2 ^ 24 + b3 * 2 ^ 16 + b4 * 2 ^ 8 + b5 := by
  simp only [specWireValue, List.length_cons, List.length_nil]
  omega

theorem spec_wire_bits_4 (b0 b1 b2 b3 first len : Nat) :
    specWireBits [b0, b1, b2, b3] first len =
      (b0 * 2 ^ 24 + b1 * 2 ^ 16 + b2 * 2 ^ 8 + b3) / 2 ^ (32 - first - len) % 2 ^ len := by
  simp only [specWireBits, spec_wire_value_4, List.length_cons, List.length_nil]

theorem spec_wire_bits_6 (b0 b1 b2 b3 b4 b5 first len : Nat) :
    specWireBits [b0, b1, b2, b3, b4, b5] first len =
      (b0 * 2 ^ 40 + b1 * 2 ^ 32 + b2 * 2 ^ 24 + b3 * 2 ^ 16 + b4 * 2 ^ 8 + b5)
        / 2 ^ (48 - first - len) % 2 ^ len := by
  simp only [specWireBits, spec_wire_value_6, List.length_cons, List.length_nil]

/-! ## Reserved bits -/

/-- C11. Reserved bits are preserved: for every record type and every buffer of
that record's size, with any byte values, reading all declared members
(reserved ones included) and writing them back reproduces the buffer, under
either layout; the declared members cover every bit of the record exactly
once. -/
theorem C11_reserved_bits_preserved (o : ByteOrder) :
    (∀ bytes, bytes.length = a2dp_sbc_t.sizeof → (∀ b ∈ bytes, b < 256) →
      (a2dp_sbc_t.ofBytes o bytes).map (a2dp_sbc_t.toBytes o) = some bytes) ∧
    (∀ bytes, bytes.length = a2dp_mpeg_t.sizeof → (∀ b ∈ bytes, b < 256) →
      (a2dp_mpeg_t.ofBytes o bytes).map (a2dp_mpeg_t.toBytes o) = some bytes) ∧
    (∀ bytes, bytes.length = a2dp_aac_t.sizeof → (∀ b ∈ bytes, b < 256) →
      (a2dp_aac_t.ofBytes o bytes).map (a2dp_aac_t.toBytes o) = some bytes) ∧
    (∀ bytes, bytes.length = Heaac.a2dp_aac_t.sizeof → (∀ b ∈ bytes, b < 256) →
      (Heaac.a2dp_aac_t.ofBytes o bytes).map (Heaac.a2dp_aac_t.toBytes o) = some bytes) ∧
    (∀ bytes, bytes.length = a2dp_usac_t.sizeof → (∀ b ∈ bytes, b < 256) →
      (a2dp_usac_t.ofBytes o bytes).map (a2dp_usac_t.toBytes o) = some bytes) ∧
    (∀ bytes, bytes.length = a2dp_atrac_t.sizeof → (∀ b ∈ bytes, b < 256) →
      (a2dp_atrac_t.ofBytes o bytes).map (a2dp_atrac_t.toBytes o) = some bytes) ∧
    (∀ bytes, bytes.length = a2dp_aptx_t.sizeof → (∀ b ∈ bytes, b < 256) →
      (a2dp_aptx_t.ofBytes o bytes).map (a2dp_aptx_t.toBytes o) = some bytes) ∧
    (∀ bytes, bytes.length = a2dp_faststream_t.sizeof → (∀ b ∈ bytes, b < 256) →
      (a2dp_faststream_t.ofBytes o bytes).map (a2dp_faststream_t.toBytes o) = some bytes) ∧
    (∀ bytes, bytes.length = a2dp_aptx_ll_t.sizeof → (∀ b ∈ bytes, b < 256) →
      (a2dp_aptx_ll_t.ofBytes o bytes).map (a2dp_aptx_ll_t.toBytes o) = some bytes) ∧
    (∀ bytes, bytes.length = a2dp_aptx_hd_t.sizeof → (∀ b ∈ bytes, b < 256) →
      (a2dp_aptx_hd_t.ofBytes o bytes).map (a2dp_aptx_hd_t.toBytes o) = some bytes) ∧
    (∀ bytes, bytes.length = a2dp_ldac_t.sizeof → (∀ b ∈ bytes, b < 256) →
      (a2dp_ldac_t.ofBytes o bytes).map (a2dp_ldac_t.toBytes o) = some bytes) ∧
    (∀ bytes, bytes.length = a2dp_aptx_ll_new_caps_t.sizeof → (∀ b ∈ bytes, b < 256) →
      (a2dp_aptx_ll_new_caps_t.ofBytes o bytes).map (a2dp_aptx_ll_new_caps_t.toBytes o)
        = some bytes) ∧
    (∀ bytes, bytes.length = a2dp_vendor_codec_t.sizeof → (∀ b ∈ bytes, b < 256) →
      (a2dp_vendor_codec_t.ofBytes o bytes).map (a2dp_vendor_codec_t.toBytes o)
        = some bytes) :=
  ⟨sbc_bytes_roundtrip o, mpeg_bytes_roundtrip o, aac_bytes_roundtrip o,
    heaac_bytes_roundtrip o, usac_bytes_roundtrip o, atrac_bytes_roundtrip o,
    aptx_bytes_roundtrip o, faststream_bytes_roundtrip o, aptx_ll_bytes_roundtrip o,
    aptx_hd_bytes_roundtrip o, ldac_bytes_roundtrip o, new_caps_bytes_roundtrip o,
    vendor_codec_bytes_roundtrip o⟩

/-- C11 at an MPEG buffer with the `rfa` bit set and at an LDAC buffer with
all bits of `rfa1` and `rfa2` set. -/
theorem C11_reserved_bits_preserved_witness :
    ([0x21, 0xa2, 0x80, 0x01] : List Nat).length = a2dp_mpeg_t.sizeof ∧
    (∀ b ∈ ([0x21, 0xa2, 0x80, 0x01] : List Nat), b < 256) ∧
    (a2dp_mpeg_t.ofBytes .little [0x21, 0xa2, 0x80, 0x01]).map (a2dp_mpeg_t.toBytes .little)
      = some [0x21, 0xa2, 0x80, 0x01] ∧
    ([0x2d, 0x01, 0x00, 0x00, 0xaa, 0x00, 0xe4, 0xf9] : List Nat).length
      = a2dp_ldac_t.sizeof ∧
    (∀ b ∈ ([0x2d, 0x01, 0x00, 0x00, 0xaa, 0x00, 0xe4, 0xf9] : List Nat), b < 256) ∧
    (a2dp_ldac_t.ofBytes .big [0x2d, 0x01, 0x00, 0x00, 0xaa, 0x00, 0xe4, 0xf9]).map
      (a2dp_ldac_t.toBytes .big) = some [0x2d, 0x01, 0x00, 0x00, 0xaa, 0x00, 0xe4, 0xf9] :=
  ⟨by decide, by decide,
    (C11_reserved_bits_preserved .little).2.1 _ (by decide) (by decide),
    by decide, by decide,
    (C11_reserved_bits_preserved .big).2.2.2.2.2.2.2.2.2.2.1 _ (by decide) (by decide)⟩

/-! ## USAC frequency width -/

/-- C12 as stated fails: the in-width record holding only
`USAC_SAMPLING_FREQ_7350` (`frequency1 = 0x20`, what `USAC_SET_FREQUENCY`
stores for it) has `USAC_GET_FREQUENCY = 0x02000000`, which is not below
`2^24`. -/
theorem C12_usac_frequency_counterexample :
    USAC_SET_FREQUENCY a2dp_usac_t.zero USAC_SAMPLING_FREQ_7350 =
      { frequency1 := 0x20, object_type := 0, frequency2 := 0, frequency3 := 0,
        channels := 0, frequency4 := 0, bitrate1 := 0, vbr := 0, bitrate2 := 0,
        bitrate3 := 0 } ∧
    a2dp_usac_t.InWidth
      { frequency1 := 0x20, object_type := 0, frequency2 := 0, frequency3 := 0,
        channels := 0, frequency4 := 0, bitrate1 := 0, vbr := 0, bitrate2 := 0,
        bitrate3 := 0 } ∧
    USAC_GET_FREQUENCY
      { frequency1 := 0x20, object_type := 0, frequency2 := 0, frequency3 := 0,
        channels := 0, frequency4 := 0, bitrate1 := 0, vbr := 0, bitrate2 := 0,
        bitrate3 := 0 } = 0x02000000 ∧
    ¬ USAC_GET_FREQUENCY
      { frequency1 := 0x20, object_type := 0, frequency2 := 0, frequency3 := 0,
        channels := 0, frequency4 := 0, bitrate1 := 0, vbr := 0, bitrate2 := 0,
        bitrate3 := 0 } < 2 ^ 24 := by
  decide

/-- C12, amended. USAC frequency is a 26-bit value: for every in-width
`a2dp_usac_t` record, `USAC_GET_FREQUENCY` is
`frequency1 * 2^20 + frequency2 * 2^12 + frequency3 * 2^4 + frequency4` and is
less than `2^26`. -/
theorem C12_usac_frequency_26_bit (a : a2dp_usac_t) (h : a.InWidth) :
    USAC_GET_FREQUENCY a =
      a.frequency1 * 2 ^ 20 + a.frequency2 * 2 ^ 12 + a.frequency3 * 2 ^ 4 + a.frequency4 ∧
    USAC_GET_FREQUENCY a < 2 ^ 26 := by
  obtain ⟨f1, ot, f2, f3, ch, f4, br1, vbr, br2, br3⟩ := a
  simp [a2dp_usac_t.InWidth, slotsInWidth, a2dp_usac_t.slots] at h
  simp only [USAC_GET_FREQUENCY]
  rw [usac_frequency_value f1 f2 f3 f4 (by omega) (by omega) (by omega)]
  omega

/-- C12 amended, at the record with all 26 sampling frequency flags set. -/
theorem C12_usac_frequency_26_bit_witness :
    a2dp_usac_t.InWidth
      { frequency1 := 0x3f, object_type := 0, frequency2 := 0xff, frequency3 := 0xff,
        channels := 0, frequency4 := 0x0f, bitrate1 := 0, vbr := 0, bitrate2 := 0,
        bitrate3 := 0 } ∧
    USAC_GET_FREQUENCY
      { frequency1 := 0x3f, object_type := 0, frequency2 := 0xff, frequency3 := 0xff,
        channels := 0, frequency4 := 0x0f, bitrate1 := 0, vbr := 0, bitrate2 := 0,
        bitrate3 := 0 } < 2 ^ 26 :=
  ⟨by decide, (C12_usac_frequency_26_bit _ (by decide)).2⟩

/-! ## Record sizes -/

/-- C13. Fixed record sizes: SBC 4 bytes, MPEG-1/2 4 bytes, AAC 6 bytes (both
builds), USAC 7 bytes, ATRAC 7 bytes, FastStream 8 bytes, LDAC 8 bytes, aptX-LL
8 bytes, and `a2dp_aptx_ll_new_caps_t` 9 bytes; every object of the type
occupies that many bytes under either layout. -/
theorem C13_record_sizes :
    (a2dp_sbc_t.sizeof = 4 ∧ ∀ o a, (a2dp_sbc_t.toBytes o a).length = 4) ∧
    (a2dp_mpeg_t.sizeof = 4 ∧ ∀ o a, (a2dp_mpeg_t.toBytes o a).length = 4) ∧
    (a2dp_aac_t.sizeof = 6 ∧ ∀ o a, (a2dp_aac_t.toBytes o a).length = 6) ∧
    (Heaac.a2dp_aac_t.sizeof = 6 ∧ ∀ o a, (Heaac.a2dp_aac_t.toBytes o a).length = 6) ∧
    (a2dp_usac_t.sizeof = 7 ∧ ∀ o a, (a2dp_usac_t.toBytes o a).length = 7) ∧
    (a2dp_atrac_t.sizeof = 7 ∧ ∀ o a, (a2dp_atrac_t.toBytes o a).length = 7) ∧
    (a2dp_faststream_t.sizeof = 8 ∧ ∀ o a, (a2dp_faststream_t.toBytes o a).length = 8) ∧
    (a2dp_ldac_t.sizeof = 8 ∧ ∀ o a, (a2dp_ldac_t.toBytes o a).length = 8) ∧
    (a2dp_aptx_ll_t.sizeof = 8 ∧ ∀ o a, (a2dp_aptx_ll_t.toBytes o a).length = 8) ∧
    (a2dp_aptx_ll_new_caps_t.sizeof = 9 ∧
      ∀ o a, (a2dp_aptx_ll_new_caps_t.toBytes o a).length = 9) :=
  ⟨⟨sbc_sizeof, sbc_length⟩, ⟨mpeg_sizeof, mpeg_length⟩, ⟨aac_sizeof, aac_length⟩,
    ⟨heaac_sizeof, heaac_length⟩, ⟨usac_sizeof, usac_length⟩, ⟨atrac_sizeof, atrac_length⟩,
    ⟨faststream_sizeof, faststream_length⟩, ⟨ldac_sizeof, ldac_length⟩,
    ⟨aptx_ll_sizeof, aptx_ll_length⟩, ⟨new_caps_sizeof, new_caps_length⟩⟩

/-- C14 as stated fails: `sizeof(a2dp_aptx_t)` is 7, not 8, and
`sizeof(a2dp_aptx_hd_t)` is 11, not 12; the zero-initialised objects occupy 7
and 11 bytes under either layout. -/
theorem C14_aptx_sizes_counterexample :
    a2dp_aptx_t.sizeof ≠ 8 ∧ a2dp_aptx_hd_t.sizeof ≠ 12 ∧
    ∀ o : ByteOrder,
      a2dp_aptx_t.zero.toBytes o = [0, 0, 0, 0, 0, 0, 0] ∧
      (a2dp_aptx_t.zero.toBytes o).length ≠ 8 ∧
      a2dp_aptx_hd_t.zero.toBytes o = [0, 0, 0, 0, 0, 0, 0, 0, 0, 0, 0] ∧
      (a2dp_aptx_hd_t.zero.toBytes o).length ≠ 12 := by
  decide

/-- C14, amended. aptX record sizes: `a2dp_aptx_t` (the 6-byte vendor
identifier plus the channel/frequency byte) is 7 bytes long and
`a2dp_aptx_hd_t` (the aptX record plus the 4 bytes of `rfa`) is 11 bytes long,
under either layout. -/
theorem C14_aptx_sizes :
    (a2dp_vendor_codec_t.sizeof = 6 ∧ ∀ o a, (a2dp_vendor_codec_t.toBytes o a).length = 6) ∧
    (a2dp_aptx_t.sizeof = 7 ∧ ∀ o a, (a2dp_aptx_t.toBytes o a).length = 7) ∧
    (a2dp_aptx_hd_t.sizeof = 11 ∧ ∀ o a, (a2dp_aptx_hd_t.toBytes o a).length = 11) :=
  ⟨⟨vendor_codec_sizeof, vendor_codec_length⟩, ⟨aptx_sizeof, aptx_length⟩,
    ⟨aptx_hd_sizeof, aptx_hd_length⟩⟩


/-! ## ATRAC getters -/

/-- C15. ATRAC scattered getters: for every in-width `a2dp_atrac_t` record,
`ATRAC_GET_BITRATE = bitrate1 * 2^16 + bitrate2 * 2^8 + bitrate3 < 2^19`, the
value does not change with `vbr`, `frequency` or `rfa2`, and
`ATRAC_GET_MAX_SUL = max_sul1 * 2^8 + max_sul2 < 2^16`; read from a buffer
under either layout, `bitrate1` is the low 3 bits of byte 1 and the two values
are built from bytes 1-3 and 4-5. -/
theorem C15_atrac_getters (a : a2dp_atrac_t) (h : a.InWidth) :
    ATRAC_GET_BITRATE a = a.bitrate1 * 2 ^ 16 + a.bitrate2 * 2 ^ 8 + a.bitrate3 ∧
    ATRAC_GET_BITRATE a < 2 ^ 19 ∧
    (∀ vbr frequency rfa2 : Nat,
      ATRAC_GET_BITRATE { a with vbr := vbr, frequency := frequency, rfa2 := rfa2 } =
        ATRAC_GET_BITRATE a) ∧
    ATRAC_GET_MAX_SUL a = a.max_sul1 * 2 ^ 8 + a.max_sul2 ∧
    ATRAC_GET_MAX_SUL a < 2 ^ 16 ∧
    (∀ (o : ByteOrder) (b0 b1 b2 b3 b4 b5 b6 : Nat),
      (a2dp_atrac_t.ofBytes o [b0, b1, b2, b3, b4, b5, b6]).map (fun r => r.bitrate1) =
        some (b1 % 8) ∧
      (a2dp_atrac_t.ofBytes o [b0, b1, b2, b3, b4, b5, b6]).map ATRAC_GET_BITRATE =
        some (b1 % 8 * 2 ^ 16 + b2 % 256 * 2 ^ 8 + b3 % 256) ∧
      (a2dp_atrac_t.ofBytes o [b0, b1, b2, b3, b4, b5, b6]).map ATRAC_GET_MAX_SUL =
        some (b4 % 256 * 2 ^ 8 + b5 % 256)) := by
  obtain ⟨rfa1, cm, ver, br1, vbr, f, rfa2, br2, br3, ms1, ms2, rfa3⟩ := a
  simp [a2dp_atrac_t.InWidth, slotsInWidth, a2dp_atrac_t.slots] at h
  have e1 : ((br1 <<< 16) ||| (br2 <<< 8)) ||| br3 = br1 * 2 ^ 16 + br2 * 2 ^ 8 + br3 :=
    shl_or3 br1 br2 br3 16 8 (by omega) (by omega) (by omega)
  have e2 : (ms1 <<< 8) ||| ms2 = ms1 * 2 ^ 8 + ms2 := shl_or ms1 ms2 8 (by omega)
  refine ⟨e1, ?_, fun _ _ _ => rfl, e2, ?_, fun o b0 b1 b2 b3 b4 b5 b6 => ⟨?_, ?_, ?_⟩⟩
  · simp only [ATRAC_GET_BITRATE, e1]; omega
  · simp only [ATRAC_GET_MAX_SUL, e2]; omega
  · rw [atrac_ofBytes_cons]; rfl
  · exact atrac_bitrate_of_bytes o b0 b1 b2 b3 b4 b5 b6 []
  · exact atrac_max_sul_of_bytes o b0 b1 b2 b3 b4 b5 b6 []

/-- C15 at a record with `vbr`, `frequency` and `rfa2` all set next to
`bitrate1 = 5`. -/
theorem C15_atrac_getters_witness :
    a2dp_atrac_t.InWidth
      { rfa1 := 0, channel_mode := 0x01, version := 1, bitrate1 := 5, vbr := 1,
        frequency := 3, rfa2 := 3, bitrate2 := 0x12, bitrate3 := 0x34, max_sul1 := 0xab,
        max_sul2 := 0xcd, rfa3 := 0 } ∧
    ATRAC_GET_BITRATE
      { rfa1 := 0, channel_mode := 0x01, version := 1, bitrate1 := 5, vbr := 1,
        frequency := 3, rfa2 := 3, bitrate2 := 0x12, bitrate3 := 0x34, max_sul1 := 0xab,
        max_sul2 := 0xcd, rfa3 := 0 } < 2 ^ 19 ∧
    ATRAC_GET_MAX_SUL
      { rfa1 := 0, channel_mode := 0x01, version := 1, bitrate1 := 5, vbr := 1,
        frequency := 3, rfa2 := 3, bitrate2 := 0x12, bitrate3 := 0x34, max_sul1 := 0xab,
        max_sul2 := 0xcd, rfa3 := 0 } < 2 ^ 16 :=
  ⟨by decide, (C15_atrac_getters _ (by decide)).2.1,
    (C15_atrac_getters _ (by decide)).2.2.2.2.1⟩

/-! ## Wire bit ranges read by the getters -/

/-- C16. Getters read contiguous network-order bit ranges (bit 0 = most
significant bit of the first byte): for MPEG bytes `b0..b3`,
`MPEG_GET_BITRATE = (b2 & 0x7f) << 8 | b3` = wire bits 17-31 and
`vbr = b2 >> 7` = wire bit 16; for AAC bytes `b0..b5` (default build),
`AAC_GET_FREQUENCY = b1 << 4 | b2 >> 4` = wire bits 8-19,
`AAC_GET_BITRATE = (b3 & 0x7f) << 16 | b4 << 8 | b5` = wire bits 25-47 and
`vbr = b3 >> 7` = wire bit 24; under either layout. -/
theorem C16_getters_wire_bits (o : ByteOrder) (b0 b1 b2 b3 b4 b5 : Nat)
    (h1 : b1 < 256) (h2 : b2 < 256) (h3 : b3 < 256) (h4 : b4 < 256) (h5 : b5 < 256) :
    ((a2dp_mpeg_t.ofBytes o [b0, b1, b2, b3]).map MPEG_GET_BITRATE =
        some (((b2 &&& 0x7f) <<< 8) ||| b3) ∧
      ((b2 &&& 0x7f) <<< 8) ||| b3 = specWireBits [b0, b1, b2, b3] 17 15) ∧
    ((a2dp_mpeg_t.ofBytes o [b0, b1, b2, b3]).map (fun a => a.vbr) = some (b2 >>> 7) ∧
      b2 >>> 7 = specWireBits [b0, b1, b2, b3] 16 1) ∧
    ((a2dp_aac_t.ofBytes o [b0, b1, b2, b3, b4, b5]).map AAC_GET_FREQUENCY =
        some ((b1 <<< 4) ||| (b2 >>> 4)) ∧
      (b1 <<< 4) ||| (b2 >>> 4) = specWireBits [b0, b1, b2, b3, b4, b5] 8 12) ∧
    ((a2dp_aac_t.ofBytes o [b0, b1, b2, b3, b4, b5]).map AAC_GET_BITRATE =
        some ((((b3 &&& 0x7f) <<< 16) ||| (b4 <<< 8)) ||| b5) ∧
      (((b3 &&& 0x7f) <<< 16) ||| (b4 <<< 8)) ||| b5 =
        specWireBits [b0, b1, b2, b3, b4, b5] 25 23) ∧
    ((a2dp_aac_t.ofBytes o [b0, b1, b2, b3, b4, b5]).map (fun a => a.vbr) = some (b3 >>> 7) ∧
      b3 >>> 7 = specWireBits [b0, b1, b2, b3, b4, b5] 24 1) := by
  have m1 : ((b2 &&& 0x7f) <<< 8) ||| b3 = b2 % 128 * 256 + b3 := by
    rw [and_0x7f, shl_or _ b3 8 (by omega)]; omega
  have a1 : (b1 <<< 4) ||| (b2 >>> 4) = b1 * 16 + b2 / 16 := by
    rw [Nat.shiftRight_eq_div_pow, shl_or b1 _ 4 (by omega)]; omega
  have a2 : (((b3 &&& 0x7f) <<< 16) ||| (b4 <<< 8)) ||| b5 =
      b3 % 128 * 65536 + b4 * 256 + b5 := by
    rw [and_0x7f, shl_or3 _ b4 b5 16 8 (by omega) (by omega) (by omega)]; omega
  refine ⟨⟨?_, ?_⟩, ⟨?_, ?_⟩, ⟨?_, ?_⟩, ⟨?_, ?_⟩, ⟨?_, ?_⟩⟩
  · rw [mpeg_bitrate_of_bytes, m1, Nat.mod_eq_of_lt h3]
  · rw [m1, spec_wire_bits_4]; omega
  · rw [mpeg_ofBytes_cons, Option.map_some', Nat.shiftRight_eq_div_pow]
    simp only [Option.some.injEq]; omega
  · rw [spec_wire_bits_4, Nat.shiftRight_eq_div_pow]; omega
  · rw [aac_frequency_of_bytes, a1]
    simp only [Option.some.injEq]; omega
  · rw [a1, spec_wire_bits_6]; omega
  · rw [aac_bitrate_of_bytes, a2]
    simp only [Option.some.injEq]; omega
  · rw [a2, spec_wire_bits_6]; omega
  · rw [aac_ofBytes_cons, Option.map_some', Nat.shiftRight_eq_div_pow]
    simp only [Option.some.injEq]; omega
  · rw [spec_wire_bits_6, Nat.shiftRight_eq_div_pow]; omega

/-- C16 at the bytes `80 01 8c 84 e2 00`, read as an AAC record (44.1 kHz,
`vbr` set, bitrate 320000) and, the first four, as an MPEG record. -/
theorem C16_getters_wire_bits_witness :
    (0x01 < 256 ∧ 0x8c < 256 ∧ 0x84 < 256 ∧ 0xe2 < 256 ∧ 0x00 < 256) ∧
    (a2dp_aac_t.ofBytes .little [0x80, 0x01, 0x8c, 0x84, 0xe2, 0x00]).map AAC_GET_BITRATE =
      some ((((0x84 &&& 0x7f) <<< 16) ||| (0xe2 <<< 8)) ||| 0x00) ∧
    (((0x84 &&& 0x7f) <<< 16) ||| (0xe2 <<< 8)) ||| 0x00 =
      specWireBits [0x80, 0x01, 0x8c, 0x84, 0xe2, 0x00] 25 23 :=
  ⟨by decide,
    (C16_getters_wire_bits .little 0x80 0x01 0x8c 0x84 0xe2 0x00 (by decide) (by decide)
      (by decide) (by decide) (by decide)).2.2.2.1⟩


/-! ## All-zero records -/

/-- C17. All-zero records: for every record type, the members read from an
all-zero buffer of the record's size are all 0 (the record read is the zero
object), every composite getter returns 0 on it, and the zero object occupies
an all-zero buffer, under either layout. -/
theorem C17_all_zero_records :
    ∀ o : ByteOrder,
      (a2dp_sbc_t.ofBytes o (List.replicate a2dp_sbc_t.sizeof 0) = some a2dp_sbc_t.zero ∧
        a2dp_sbc_t.zero.toBytes o = List.replicate a2dp_sbc_t.sizeof 0) ∧
      (a2dp_mpeg_t.ofBytes o (List.replicate a2dp_mpeg_t.sizeof 0) = some a2dp_mpeg_t.zero ∧
        a2dp_mpeg_t.zero.toBytes o = List.replicate a2dp_mpeg_t.sizeof 0 ∧
        MPEG_GET_BITRATE a2dp_mpeg_t.zero = 0) ∧
      (a2dp_aac_t.ofBytes o (List.replicate a2dp_aac_t.sizeof 0) = some a2dp_aac_t.zero ∧
        a2dp_aac_t.zero.toBytes o = List.replicate a2dp_aac_t.sizeof 0 ∧
        AAC_GET_BITRATE a2dp_aac_t.zero = 0 ∧ AAC_GET_FREQUENCY a2dp_aac_t.zero = 0) ∧
      (Heaac.a2dp_aac_t.ofBytes o (List.replicate Heaac.a2dp_aac_t.sizeof 0) =
          some Heaac.a2dp_aac_t.zero ∧
        Heaac.a2dp_aac_t.zero.toBytes o = List.replicate Heaac.a2dp_aac_t.sizeof 0 ∧
        Heaac.AAC_GET_BITRATE Heaac.a2dp_aac_t.zero = 0 ∧
        Heaac.AAC_GET_FREQUENCY Heaac.a2dp_aac_t.zero = 0) ∧
      (a2dp_usac_t.ofBytes o (List.replicate a2dp_usac_t.sizeof 0) = some a2dp_usac_t.zero ∧
        a2dp_usac_t.zero.toBytes o = List.replicate a2dp_usac_t.sizeof 0 ∧
        USAC_GET_BITRATE a2dp_usac_t.zero = 0 ∧ USAC_GET_FREQUENCY a2dp_usac_t.zero = 0) ∧
      (a2dp_atrac_t.ofBytes o (List.replicate a2dp_atrac_t.sizeof 0) =
          some a2dp_atrac_t.zero ∧
        a2dp_atrac_t.zero.toBytes o = List.replicate a2dp_atrac_t.sizeof 0 ∧
        ATRAC_GET_BITRATE a2dp_atrac_t.zero = 0 ∧ ATRAC_GET_MAX_SUL a2dp_atrac_t.zero = 0) ∧
      (a2dp_vendor_codec_t.ofBytes o (List.replicate a2dp_vendor_codec_t.sizeof 0) =
          some a2dp_vendor_codec_t.zero ∧
        a2dp_vendor_codec_t.zero.toBytes o = List.replicate a2dp_vendor_codec_t.sizeof 0 ∧
        A2DP_GET_VENDOR_ID a2dp_vendor_codec_t.zero = 0 ∧
        A2DP_GET_CODEC_ID a2dp_vendor_codec_t.zero = 0) ∧
      (a2dp_aptx_t.ofBytes o (List.replicate a2dp_aptx_t.sizeof 0) = some a2dp_aptx_t.zero ∧
        a2dp_aptx_t.zero.toBytes o = List.replicate a2dp_aptx_t.sizeof 0) ∧
      (a2dp_faststream_t.ofBytes o (List.replicate a2dp_faststream_t.sizeof 0) =
          some a2dp_faststream_t.zero ∧
        a2dp_faststream_t.zero.toBytes o = List.replicate a2dp_faststream_t.sizeof 0) ∧
      (a2dp_aptx_ll_t.ofBytes o (List.replicate a2dp_aptx_ll_t.sizeof 0) =
          some a2dp_aptx_ll_t.zero ∧
        a2dp_aptx_ll_t.zero.toBytes o = List.replicate a2dp_aptx_ll_t.sizeof 0) ∧
      (a2dp_aptx_hd_t.ofBytes o (List.replicate a2dp_aptx_hd_t.sizeof 0) =
          some a2dp_aptx_hd_t.zero ∧
        a2dp_aptx_hd_t.zero.toBytes o = List.replicate a2dp_aptx_hd_t.sizeof 0) ∧
      (a2dp_ldac_t.ofBytes o (List.replicate a2dp_ldac_t.sizeof 0) = some a2dp_ldac_t.zero ∧
        a2dp_ldac_t.zero.toBytes o = List.replicate a2dp_ldac_t.sizeof 0) ∧
      (a2dp_aptx_ll_new_caps_t.ofBytes o (List.replicate a2dp_aptx_ll_new_caps_t.sizeof 0) =
          some a2dp_aptx_ll_new_caps_t.zero ∧
        a2dp_aptx_ll_new_caps_t.zero.toBytes o =
          List.replicate a2dp_aptx_ll_new_caps_t.sizeof 0) := by
  intro o
  cases o <;> split_ands <;> decide


/-! ## Decoding with length validation -/

theorem vendor_codec_ofBytes_some (o : ByteOrder) (bytes : List Nat)
    (hlen : bytes.length = a2dp_vendor_codec_t.sizeof) : ∃ r, a2dp_vendor_codec_t.ofBytes o bytes = some r := by
  rw [vendor_codec_sizeof] at hlen
  rcases bytes with _ | ⟨b0, _ | ⟨b1, _ | ⟨b2, _ | ⟨b3, _ | ⟨b4, _ | ⟨b5, _ | ⟨x, rest⟩⟩⟩⟩⟩⟩⟩ <;>
    simp at hlen
  exact ⟨_, vendor_codec_ofBytes_cons o b0 b1 b2 b3 b4 b5 []⟩

theorem aptx_ofBytes_some (o : ByteOrder) (bytes : List Nat)
    (hlen : bytes.length = a2dp_aptx_t.sizeof) : ∃ r, a2dp_aptx_t.ofBytes o bytes = some r := by
  rw [aptx_sizeof] at hlen
  rcases bytes with _ | ⟨b0, _ | ⟨b1, _ | ⟨b2, _ | ⟨b3, _ | ⟨b4, _ | ⟨b5, _ | ⟨b6, _ | ⟨x, rest⟩⟩⟩⟩⟩⟩⟩⟩ <;>
    simp at hlen
  exact ⟨_, aptx_ofBytes_cons o b0 b1 b2 b3 b4 b5 b6 []⟩

theorem aptx_ll_ofBytes_some (o : ByteOrder) (bytes : List Nat)
    (hlen : bytes.length = a2dp_aptx_ll_t.sizeof) : ∃ r, a2dp_aptx_ll_t.ofBytes o bytes = some r := by
  rw [aptx_ll_sizeof] at hlen
  rcases bytes with _ | ⟨b0, _ | ⟨b1, _ | ⟨b2, _ | ⟨b3, _ | ⟨b4, _ | ⟨b5, _ | ⟨b6, _ | ⟨b7, _ | ⟨x, rest⟩⟩⟩⟩⟩⟩⟩⟩⟩ <;>
    simp at hlen
  exact ⟨_, aptx_ll_ofBytes_cons o b0 b1 b2 b3 b4 b5 b6 b7 []⟩

theorem aptx_hd_ofBytes_some (o : ByteOrder) (bytes : List Nat)
    (hlen : bytes.length = a2dp_aptx_hd_t.sizeof) : ∃ r, a2dp_aptx_hd_t.ofBytes o bytes = some r := by
  rw [aptx_hd_sizeof] at hlen
  rcases bytes with _ | ⟨b0, _ | ⟨b1, _ | ⟨b2, _ | ⟨b3, _ | ⟨b4, _ | ⟨b5, _ | ⟨b6, _ | ⟨b7, _ | ⟨b8, _ | ⟨b9, _ | ⟨b10, _ | ⟨x, rest⟩⟩⟩⟩⟩⟩⟩⟩⟩⟩⟩⟩ <;>
    simp at hlen
  exact ⟨_, aptx_hd_ofBytes_cons o b0 b1 b2 b3 b4 b5 b6 b7 b8 b9 b10 []⟩

theorem and_0x7fff (x : Nat) : x &&& 0x7FFF = x % 2 ^ 15 := and_mask x 15

theorem and_0x7fffff (x : Nat) : x &&& 0x7FFFFF = x % 2 ^ 23 := and_mask x 23

theorem and_0xfff (x : Nat) : x &&& 0xFFF = x % 2 ^ 12 := and_mask x 12

theorem and_0x3ffffff (x : Nat) : x &&& 0x3FFFFFF = x % 2 ^ 26 := and_mask x 26

/-- Stored after `MPEG_SET_BITRATE`, every member but the bitrate reads as before. -/
theorem mpeg_bitrate_frame (o : ByteOrder) (a : a2dp_mpeg_t) (x : Nat) :
    (a2dp_mpeg_t.ofBytes o ((MPEG_SET_BITRATE a x).toBytes o)).map
        (fun r => { r with bitrate1 := 0, bitrate2 := 0 }) =
      (a2dp_mpeg_t.ofBytes o (a.toBytes o)).map
        (fun r => { r with bitrate1 := 0, bitrate2 := 0 }) := by
  rw [mpeg_toBytes_eq, mpeg_toBytes_eq, mpeg_ofBytes_cons, mpeg_ofBytes_cons]
  simp only [Option.map_some', MPEG_SET_BITRATE, bitfield, Option.some.injEq,
    a2dp_mpeg_t.mk.injEq, true_and, and_true]
  omega

/-- Stored after `AAC_SET_BITRATE`, every member but the bitrate reads as before. -/
theorem aac_bitrate_frame (o : ByteOrder) (a : a2dp_aac_t) (x : Nat) :
    (a2dp_aac_t.ofBytes o ((AAC_SET_BITRATE a x).toBytes o)).map
        (fun r => { r with bitrate1 := 0, bitrate2 := 0, bitrate3 := 0 }) =
      (a2dp_aac_t.ofBytes o (a.toBytes o)).map
        (fun r => { r with bitrate1 := 0, bitrate2 := 0, bitrate3 := 0 }) := by
  rw [aac_toBytes_eq, aac_toBytes_eq, aac_ofBytes_cons, aac_ofBytes_cons]
  simp only [Option.map_some', AAC_SET_BITRATE, bitfield, Option.some.injEq,
    a2dp_aac_t.mk.injEq, true_and, and_true]
  omega

/-- Stored after `AAC_SET_FREQUENCY`, every member but the frequency reads as
before. -/
theorem aac_frequency_frame (o : ByteOrder) (a : a2dp_aac_t) (x : Nat) :
    (a2dp_aac_t.ofBytes o ((AAC_SET_FREQUENCY a x).toBytes o)).map
        (fun r => { r with frequency1 := 0, frequency2 := 0 }) =
      (a2dp_aac_t.ofBytes o (a.toBytes o)).map
        (fun r => { r with frequency1 := 0, frequency2 := 0 }) := by
  rw [aac_toBytes_eq, aac_toBytes_eq, aac_ofBytes_cons, aac_ofBytes_cons]
  simp only [Option.map_some', AAC_SET_FREQUENCY, bitfield, Option.some.injEq,
    a2dp_aac_t.mk.injEq, true_and, and_true]
  omega

/-- Stored after `AAC_SET_BITRATE`, every member but the bitrate reads as
before, HE-AAC build. -/
theorem heaac_bitrate_frame (o : ByteOrder) (a : Heaac.a2dp_aac_t) (x : Nat) :
    (Heaac.a2dp_aac_t.ofBytes o ((Heaac.AAC_SET_BITRATE a x).toBytes o)).map
        (fun r => { r with bitrate1 := 0, bitrate2 := 0, bitrate3 := 0 }) =
      (Heaac.a2dp_aac_t.ofBytes o (a.toBytes o)).map
        (fun r => { r with bitrate1 := 0, bitrate2 := 0, bitrate3 := 0 }) := by
  rw [heaac_toBytes_eq, heaac_toBytes_eq, heaac_ofBytes_cons, heaac_ofBytes_cons]
  simp only [Option.map_some', Heaac.AAC_SET_BITRATE, bitfield, Option.some.injEq,
    Heaac.a2dp_aac_t.mk.injEq, true_and, and_true]
  omega

/-- Stored after `AAC_SET_FREQUENCY`, every member but the frequency reads as
before, HE-AAC build. -/
theorem heaac_frequency_frame (o : ByteOrder) (a : Heaac.a2dp_aac_t) (x : Nat) :
    (Heaac.a2dp_aac_t.ofBytes o ((Heaac.AAC_SET_FREQUENCY a x).toBytes o)).map
        (fun r => { r with frequency1 := 0, frequency2 := 0 }) =
      (Heaac.a2dp_aac_t.ofBytes o (a.toBytes o)).map
        (fun r => { r with frequency1 := 0, frequency2 := 0 }) := by
  rw [heaac_toBytes_eq, heaac_toBytes_eq, heaac_ofBytes_cons, heaac_ofBytes_cons]
  simp only [Option.map_some', Heaac.AAC_SET_FREQUENCY, bitfield, Option.some.injEq,
    Heaac.a2dp_aac_t.mk.injEq, true_and, and_true]
  omega

/-- Stored after `USAC_SET_BITRATE`, every member but the bitrate reads as before. -/
theorem usac_bitrate_frame (o : ByteOrder) (a : a2dp_usac_t) (x : Nat) :
    (a2dp_usac_t.ofBytes o ((USAC_SET_BITRATE a x).toBytes o)).map
        (fun r => { r with bitrate1 := 0, bitrate2 := 0, bitrate3 := 0 }) =
      (a2dp_usac_t.ofBytes o (a.toBytes o)).map
        (fun r => { r with bitrate1 := 0, bitrate2 := 0, bitrate3 := 0 }) := by
  rw [usac_toBytes_eq, usac_toBytes_eq, usac_ofBytes_cons, usac_ofBytes_cons]
  simp only [Option.map_some', USAC_SET_BITRATE, bitfield, Option.some.injEq,
    a2dp_usac_t.mk.injEq, true_and, and_true]
  omega

/-- Stored after `USAC_SET_FREQUENCY`, every member but the frequency reads as
before. -/
theorem usac_frequency_frame (o : ByteOrder) (a : a2dp_usac_t) (x : Nat) :
    (a2dp_usac_t.ofBytes o ((USAC_SET_FREQUENCY a x).toBytes o)).map
        (fun r => { r with frequency1 := 0, frequency2 := 0, frequency3 := 0,
                           frequency4 := 0 }) =
      (a2dp_usac_t.ofBytes o (a.toBytes o)).map
        (fun r => { r with frequency1 := 0, frequency2 := 0, frequency3 := 0,
                           frequency4 := 0 }) := by
  rw [usac_toBytes_eq, usac_toBytes_eq, usac_ofBytes_cons, usac_ofBytes_cons]
  simp only [Option.map_some', USAC_SET_FREQUENCY, bitfield, Option.some.injEq,
    a2dp_usac_t.mk.injEq, true_and, and_true]
  omega

/-- C19. Setters mask out-of-range values to the field width: for every record
and every input `x`, the getter after the setter returns `x & 0x7FFF` (MPEG
bitrate), `x & 0x7FFFFF` (AAC and USAC bitrate), `x & 0xFFF` (AAC frequency),
`x & 0x3FFFFFF` (USAC frequency), also when read back from the stored bytes
under either layout, and every other member of the stored record (the `vbr`
flag and the neighbouring fields) reads as before the setter. -/
theorem C19_setters_mask (x : Nat) :
    (∀ a : a2dp_mpeg_t,
      MPEG_GET_BITRATE (MPEG_SET_BITRATE a x) = x &&& 0x7FFF ∧
      ∀ o : ByteOrder,
        (a2dp_mpeg_t.ofBytes o ((MPEG_SET_BITRATE a x).toBytes o)).map MPEG_GET_BITRATE =
          some (x &&& 0x7FFF) ∧
        (a2dp_mpeg_t.ofBytes o ((MPEG_SET_BITRATE a x).toBytes o)).map
            (fun r => { r with bitrate1 := 0, bitrate2 := 0 }) =
          (a2dp_mpeg_t.ofBytes o (a.toBytes o)).map
            (fun r => { r with bitrate1 := 0, bitrate2 := 0 })) ∧
    (∀ a : a2dp_aac_t,
      AAC_GET_BITRATE (AAC_SET_BITRATE a x) = x &&& 0x7FFFFF ∧
      ∀ o : ByteOrder,
        (a2dp_aac_t.ofBytes o ((AAC_SET_BITRATE a x).toBytes o)).map AAC_GET_BITRATE =
          some (x &&& 0x7FFFFF) ∧
        (a2dp_aac_t.ofBytes o ((AAC_SET_BITRATE a x).toBytes o)).map
            (fun r => { r with bitrate1 := 0, bitrate2 := 0, bitrate3 := 0 }) =
          (a2dp_aac_t.ofBytes o (a.toBytes o)).map
            (fun r => { r with bitrate1 := 0, bitrate2 := 0, bitrate3 := 0 })) ∧
    (∀ a : a2dp_aac_t,
      AAC_GET_FREQUENCY (AAC_SET_FREQUENCY a x) = x &&& 0xFFF ∧
      ∀ o : ByteOrder,
        (a2dp_aac_t.ofBytes o ((AAC_SET_FREQUENCY a x).toBytes o)).map AAC_GET_FREQUENCY =
          some (x &&& 0xFFF) ∧
        (a2dp_aac_t.ofBytes o ((AAC_SET_FREQUENCY a x).toBytes o)).map
            (fun r => { r with frequency1 := 0, frequency2 := 0 }) =
          (a2dp_aac_t.ofBytes o (a.toBytes o)).map
            (fun r => { r with frequency1 := 0, frequency2 := 0 })) ∧
    (∀ a : Heaac.a2dp_aac_t,
      Heaac.AAC_GET_BITRATE (Heaac.AAC_SET_BITRATE a x) = x &&& 0x7FFFFF ∧
      ∀ o : ByteOrder,
        (Heaac.a2dp_aac_t.ofBytes o ((Heaac.AAC_SET_BITRATE a x).toBytes o)).map
            Heaac.AAC_GET_BITRATE = some (x &&& 0x7FFFFF) ∧
        (Heaac.a2dp_aac_t.ofBytes o ((Heaac.AAC_SET_BITRATE a x).toBytes o)).map
            (fun r => { r with bitrate1 := 0, bitrate2 := 0, bitrate3 := 0 }) =
          (Heaac.a2dp_aac_t.ofBytes o (a.toBytes o)).map
            (fun r => { r with bitrate1 := 0, bitrate2 := 0, bitrate3 := 0 })) ∧
    (∀ a : Heaac.a2dp_aac_t,
      Heaac.AAC_GET_FREQUENCY (Heaac.AAC_SET_FREQUENCY a x) = x &&& 0xFFF ∧
      ∀ o : ByteOrder,
        (Heaac.a2dp_aac_t.ofBytes o ((Heaac.AAC_SET_FREQUENCY a x).toBytes o)).map
            Heaac.AAC_GET_FREQUENCY = some (x &&& 0xFFF) ∧
        (Heaac.a2dp_aac_t.ofBytes o ((Heaac.AAC_SET_FREQUENCY a x).toBytes o)).map
            (fun r => { r with frequency1 := 0, frequency2 := 0 }) =
          (Heaac.a2dp_aac_t.ofBytes o (a.toBytes o)).map
            (fun r => { r with frequency1 := 0, frequency2 := 0 })) ∧
    (∀ a : a2dp_usac_t,
      USAC_GET_BITRATE (USAC_SET_BITRATE a x) = x &&& 0x7FFFFF ∧
      ∀ o : ByteOrder,
        (a2dp_usac_t.ofBytes o ((USAC_SET_BITRATE a x).toBytes o)).map USAC_GET_BITRATE =
          some (x &&& 0x7FFFFF) ∧
        (a2dp_usac_t.ofBytes o ((USAC_SET_BITRATE a x).toBytes o)).map
            (fun r => { r with bitrate1 := 0, bitrate2 := 0, bitrate3 := 0 }) =
          (a2dp_usac_t.ofBytes o (a.toBytes o)).map
            (fun r => { r with bitrate1 := 0, bitrate2 := 0, bitrate3 := 0 })) ∧
    (∀ a : a2dp_usac_t,
      USAC_GET_FREQUENCY (USAC_SET_FREQUENCY a x) = x &&& 0x3FFFFFF ∧
      ∀ o : ByteOrder,
        (a2dp_usac_t.ofBytes o ((USAC_SET_FREQUENCY a x).toBytes o)).map USAC_GET_FREQUENCY =
          some (x &&& 0x3FFFFFF) ∧
        (a2dp_usac_t.ofBytes o ((USAC_SET_FREQUENCY a x).toBytes o)).map
            (fun r => { r with frequency1 := 0, frequency2 := 0, frequency3 := 0,
                               frequency4 := 0 }) =
          (a2dp_usac_t.ofBytes o (a.toBytes o)).map
            (fun r => { r with frequency1 := 0, frequency2 := 0, frequency3 := 0,
                               frequency4 := 0 })) := by
  refine ⟨fun a => ⟨?_, fun o => ⟨?_, mpeg_bitrate_frame o a x⟩⟩,
    fun a => ⟨?_, fun o => ⟨?_, aac_bitrate_frame o a x⟩⟩,
    fun a => ⟨?_, fun o => ⟨?_, aac_frequency_frame o a x⟩⟩,
    fun a => ⟨?_, fun o => ⟨?_, heaac_bitrate_frame o a x⟩⟩,
    fun a => ⟨?_, fun o => ⟨?_, heaac_frequency_frame o a x⟩⟩,
    fun a => ⟨?_, fun o => ⟨?_, usac_bitrate_frame o a x⟩⟩,
    fun a => ⟨?_, fun o => ⟨?_, usac_frequency_frame o a x⟩⟩⟩
  · rw [mpeg_bitrate_get_set, and_0x7fff]
  · rw [mpeg_bitrate_stored, and_0x7fff]
  · rw [aac_bitrate_get_set, and_0x7fffff]
  · rw [aac_bitrate_stored, and_0x7fffff]
  · rw [aac_frequency_get_set, and_0xfff]
  · rw [aac_frequency_stored, and_0xfff]
  · rw [heaac_bitrate_get_set, and_0x7fffff]
  · rw [heaac_bitrate_stored, and_0x7fffff]
  · rw [heaac_frequency_get_set, and_0xfff]
  · rw [heaac_frequency_stored, and_0xfff]
  · rw [usac_bitrate_get_set, and_0x7fffff]
  · rw [usac_bitrate_stored, and_0x7fffff]
  · rw [usac_frequency_get_set, and_0x3ffffff]
  · rw [usac_frequency_stored, and_0x3ffffff]


/-! ## Initialiser macros against setter macros -/

/-- C20. Construct agrees with set on a zero record: the object initialised
with only `MPEG_INIT_BITRATE(b)` (resp. `AAC_INIT_BITRATE(b)` and
`AAC_INIT_FREQUENCY(f)`, in either order and in both builds;
`USAC_INIT_BITRATE(b)` and `USAC_INIT_FREQUENCY(f)`), the members not named
being zero-initialised, equals the zero object after the matching setters,
occupies the same bytes under either layout, and these bytes hold the masked
chunks of `b` and `f` with every other bit zero. -/
theorem C20_init_agrees_with_set (b f : Nat) :
    (MPEG_INIT_BITRATE b a2dp_mpeg_t.zero = MPEG_SET_BITRATE a2dp_mpeg_t.zero b ∧
      ∀ o : ByteOrder,
        (MPEG_INIT_BITRATE b a2dp_mpeg_t.zero).toBytes o =
          (MPEG_SET_BITRATE a2dp_mpeg_t.zero b).toBytes o ∧
        (MPEG_INIT_BITRATE b a2dp_mpeg_t.zero).toBytes o =
          [0, 0, (b >>> 8) &&& 0x7f, b &&& 0xff]) ∧
    (AAC_INIT_FREQUENCY f (AAC_INIT_BITRATE b a2dp_aac_t.zero) =
        AAC_SET_FREQUENCY (AAC_SET_BITRATE a2dp_aac_t.zero b) f ∧
      AAC_INIT_BITRATE b (AAC_INIT_FREQUENCY f a2dp_aac_t.zero) =
        AAC_SET_FREQUENCY (AAC_SET_BITRATE a2dp_aac_t.zero b) f ∧
      ∀ o : ByteOrder,
        (AAC_INIT_FREQUENCY f (AAC_INIT_BITRATE b a2dp_aac_t.zero)).toBytes o =
          (AAC_SET_FREQUENCY (AAC_SET_BITRATE a2dp_aac_t.zero b) f).toBytes o ∧
        (AAC_INIT_FREQUENCY f (AAC_INIT_BITRATE b a2dp_aac_t.zero)).toBytes o =
          [0, (f >>> 4) &&& 0xff, (f &&& 0x0f) <<< 4,
           (b >>> 16) &&& 0x7f, (b >>> 8) &&& 0xff, b &&& 0xff]) ∧
    (Heaac.AAC_INIT_FREQUENCY f (Heaac.AAC_INIT_BITRATE b Heaac.a2dp_aac_t.zero) =
        Heaac.AAC_SET_FREQUENCY (Heaac.AAC_SET_BITRATE Heaac.a2dp_aac_t.zero b) f ∧
      Heaac.AAC_INIT_BITRATE b (Heaac.AAC_INIT_FREQUENCY f Heaac.a2dp_aac_t.zero) =
        Heaac.AAC_SET_FREQUENCY (Heaac.AAC_SET_BITRATE Heaac.a2dp_aac_t.zero b) f ∧
      ∀ o : ByteOrder,
        (Heaac.AAC_INIT_FREQUENCY f (Heaac.AAC_INIT_BITRATE b Heaac.a2dp_aac_t.zero)).toBytes o =
          (Heaac.AAC_SET_FREQUENCY (Heaac.AAC_SET_BITRATE Heaac.a2dp_aac_t.zero b) f).toBytes o ∧
        (Heaac.AAC_INIT_FREQUENCY f (Heaac.AAC_INIT_BITRATE b Heaac.a2dp_aac_t.zero)).toBytes o =
          [0, (f >>> 4) &&& 0xff, (f &&& 0x0f) <<< 4,
           (b >>> 16) &&& 0x7f, (b >>> 8) &&& 0xff, b &&& 0xff]) ∧
    (USAC_INIT_FREQUENCY f (USAC_INIT_BITRATE b a2dp_usac_t.zero) =
        USAC_SET_FREQUENCY (USAC_SET_BITRATE a2dp_usac_t.zero b) f ∧
      USAC_INIT_BITRATE b (USAC_INIT_FREQUENCY f a2dp_usac_t.zero) =
        USAC_SET_FREQUENCY (USAC_SET_BITRATE a2dp_usac_t.zero b) f ∧
      ∀ o : ByteOrder,
        (USAC_INIT_FREQUENCY f (USAC_INIT_BITRATE b a2dp_usac_t.zero)).toBytes o =
          (USAC_SET_FREQUENCY (USAC_SET_BITRATE a2dp_usac_t.zero b) f).toBytes o ∧
        (USAC_INIT_FREQUENCY f (USAC_INIT_BITRATE b a2dp_usac_t.zero)).toBytes o =
          [(f >>> 20) &&& 0x3f, (f >>> 12) &&& 0xff, (f >>> 4) &&& 0xff, (f &&& 0x0f) <<< 4,
           (b >>> 16) &&& 0x7f, (b >>> 8) &&& 0xff, b &&& 0xff]) := by
  refine ⟨⟨rfl, fun o => ⟨rfl, ?_⟩⟩, ⟨rfl, rfl, fun o => ⟨rfl, ?_⟩⟩,
    ⟨rfl, rfl, fun o => ⟨rfl, ?_⟩⟩, ⟨rfl, rfl, fun o => ⟨rfl, ?_⟩⟩⟩
  · rw [mpeg_toBytes_eq]
    simp only [MPEG_INIT_BITRATE, a2dp_mpeg_t.zero, bitfield, and_0xff, and_0x7f,
      Nat.shiftRight_eq_div_pow, List.cons.injEq, and_true, true_and, Nat.reducePow]
    omega
  · rw [aac_toBytes_eq]
    simp only [AAC_INIT_FREQUENCY, AAC_INIT_BITRATE, a2dp_aac_t.zero, bitfield, and_0xff,
      and_0x7f, and_0x0f, Nat.shiftRight_eq_div_pow, Nat.shiftLeft_eq, List.cons.injEq,
      and_true, true_and, Nat.reducePow]
    omega
  · rw [heaac_toBytes_eq]
    simp only [Heaac.AAC_INIT_FREQUENCY, Heaac.AAC_INIT_BITRATE, Heaac.a2dp_aac_t.zero,
      bitfield, and_0xff, and_0x7f, and_0x0f, Nat.shiftRight_eq_div_pow, Nat.shiftLeft_eq,
      List.cons.injEq, and_true, true_and, Nat.reducePow]
    omega
  · rw [usac_toBytes_eq]
    simp only [USAC_INIT_FREQUENCY, USAC_INIT_BITRATE, a2dp_usac_t.zero, bitfield, and_0xff,
      and_0x7f, and_0x3f, and_0x0f, Nat.shiftRight_eq_div_pow, Nat.shiftLeft_eq,
      List.cons.injEq, and_true, true_and, Nat.reducePow]
    omega


/-! ## Flag constants and the members that hold them -/

/-- The OR of values below `2^w` is below `2^w`. -/
theorem orAll_lt (w : Nat) (s : List Nat) (h : ∀ c ∈ s, c < 2 ^ w) : orAll s < 2 ^ w := by
  induction s with
  | nil => exact Nat.two_pow_pos w
  | cons c s ih =>
    have hc : c < 2 ^ w := h c (List.mem_cons_self c s)
    have hs : orAll s < 2 ^ w := ih (fun d hd => h d (List.mem_cons_of_mem c hd))
    exact Nat.or_lt_two_pow hc hs

/-- Any OR-combination of flags that fit a member of `w` bits is below `2^w`. -/
theorem orAll_lt_of_fit (w : Nat) (flags s : List Nat) (hf : FlagsFit w flags)
    (hs : ∀ c ∈ s, c ∈ flags) : orAll s < 2 ^ w := by
  apply orAll_lt
  intro c hc
  obtain ⟨k, hk, rfl⟩ := hf.1 c (hs c hc)
  exact Nat.pow_lt_pow_right (by decide) hk

theorem sbc_frequency_store (o : ByteOrder) (a : a2dp_sbc_t) (m : Nat) (h : m < 2 ^ 4) :
    (a2dp_sbc_t.ofBytes o (({ a with frequency := m }).toBytes o)).map (fun r => r.frequency) = some m := by
  rw [sbc_toBytes_eq, sbc_ofBytes_cons]
  simp only [Option.map_some', Option.some.injEq]
  omega

theorem sbc_channel_mode_store (o : ByteOrder) (a : a2dp_sbc_t) (m : Nat) (h : m < 2 ^ 4) :
    (a2dp_sbc_t.ofBytes o (({ a with channel_mode := m }).toBytes o)).map (fun r => r.channel_mode) = some m := by
  rw [sbc_toBytes_eq, sbc_ofBytes_cons]
  simp only [Option.map_some', Option.some.injEq]
  omega

theorem sbc_block_length_store (o : ByteOrder) (a : a2dp_sbc_t) (m : Nat) (h : m < 2 ^ 4) :
    (a2dp_sbc_t.ofBytes o (({ a with block_length := m }).toBytes o)).map (fun r => r.block_length) = some m := by
  rw [sbc_toBytes_eq, sbc_ofBytes_cons]
  simp only [Option.map_some', Option.some.injEq]
  omega

theorem sbc_subbands_store (o : ByteOrder) (a : a2dp_sbc_t) (m : Nat) (h : m < 2 ^ 2) :
    (a2dp_sbc_t.ofBytes o (({ a with subbands := m }).toBytes o)).map (fun r => r.subbands) = some m := by
  rw [sbc_toBytes_eq, sbc_ofBytes_cons]
  simp only [Option.map_some', Option.some.injEq]
  omega

theorem sbc_allocation_method_store (o : ByteOrder) (a : a2dp_sbc_t) (m : Nat) (h : m < 2 ^ 2) :
    (a2dp_sbc_t.ofBytes o (({ a with allocation_method := m }).toBytes o)).map (fun r => r.allocation_method) = some m := by
  rw [sbc_toBytes_eq, sbc_ofBytes_cons]
  simp only [Option.map_some', Option.some.injEq]
  omega

theorem mpeg_channel_mode_store (o : ByteOrder) (a : a2dp_mpeg_t) (m : Nat) (h : m < 2 ^ 4) :
    (a2dp_mpeg_t.ofBytes o (({ a with channel_mode := m }).toBytes o)).map (fun r => r.channel_mode) = some m := by
  rw [mpeg_toBytes_eq, mpeg_ofBytes_cons]
  simp only [Option.map_some', Option.some.injEq]
  omega

theorem mpeg_layer_store (o : ByteOrder) (a : a2dp_mpeg_t) (m : Nat) (h : m < 2 ^ 3) :
    (a2dp_mpeg_t.ofBytes o (({ a with layer := m }).toBytes o)).map (fun r => r.layer) = some m := by
  rw [mpeg_toBytes_eq, mpeg_ofBytes_cons]
  simp only [Option.map_some', Option.some.injEq]
  omega

theorem mpeg_frequency_store (o : ByteOrder) (a : a2dp_mpeg_t) (m : Nat) (h : m < 2 ^ 6) :
    (a2dp_mpeg_t.ofBytes o (({ a with frequency := m }).toBytes o)).map (fun r => r.frequency) = some m := by
  rw [mpeg_toBytes_eq, mpeg_ofBytes_cons]
  simp only [Option.map_some', Option.some.injEq]
  omega

theorem aac_object_type_store (o : ByteOrder) (a : a2dp_aac_t) (m : Nat) (h : m < 2 ^ 8) :
    (a2dp_aac_t.ofBytes o (({ a with object_type := m }).toBytes o)).map (fun r => r.object_type) = some m := by
  rw [aac_toBytes_eq, aac_ofBytes_cons]
  simp only [Option.map_some', Option.some.injEq]
  omega

theorem aac_channels_store (o : ByteOrder) (a : a2dp_aac_t) (m : Nat) (h : m < 2 ^ 2) :
    (a2dp_aac_t.ofBytes o (({ a with channels := m }).toBytes o)).map (fun r => r.channels) = some m := by
  rw [aac_toBytes_eq, aac_ofBytes_cons]
  simp only [Option.map_some', Option.some.injEq]
  omega

theorem heaac_object_type_store (o : ByteOrder) (a : Heaac.a2dp_aac_t) (m : Nat) (h : m < 2 ^ 7) :
    (Heaac.a2dp_aac_t.ofBytes o (({ a with object_type := m }).toBytes o)).map (fun r => r.object_type) = some m := by
  rw [heaac_toBytes_eq, heaac_ofBytes_cons]
  simp only [Option.map_some', Option.some.injEq]
  omega

theorem heaac_channels_store (o : ByteOrder) (a : Heaac.a2dp_aac_t) (m : Nat) (h : m < 2 ^ 4) :
    (Heaac.a2dp_aac_t.ofBytes o (({ a with channels := m }).toBytes o)).map (fun r => r.channels) = some m := by
  rw [heaac_toBytes_eq, heaac_ofBytes_cons]
  simp only [Option.map_some', Option.some.injEq]
  omega

theorem usac_object_type_store (o : ByteOrder) (a : a2dp_usac_t) (m : Nat) (h : m < 2 ^ 2) :
    (a2dp_usac_t.ofBytes o (({ a with object_type := m }).toBytes o)).map (fun r => r.object_type) = some m := by
  rw [usac_toBytes_eq, usac_ofBytes_cons]
  simp only [Option.map_some', Option.some.injEq]
  omega

theorem usac_channels_store (o : ByteOrder) (a : a2dp_usac_t) (m : Nat) (h : m < 2 ^ 4) :
    (a2dp_usac_t.ofBytes o (({ a with channels := m }).toBytes o)).map (fun r => r.channels) = some m := by
  rw [usac_toBytes_eq, usac_ofBytes_cons]
  simp only [Option.map_some', Option.some.injEq]
  omega

theorem atrac_channel_mode_store (o : ByteOrder) (a : a2dp_atrac_t) (m : Nat) (h : m < 2 ^ 3) :
    (a2dp_atrac_t.ofBytes o (({ a with channel_mode := m }).toBytes o)).map (fun r => r.channel_mode) = some m := by
  rw [atrac_toBytes_eq, atrac_ofBytes_cons]
  simp only [Option.map_some', Option.some.injEq]
  omega

theorem atrac_frequency_store (o : ByteOrder) (a : a2dp_atrac_t) (m : Nat) (h : m < 2 ^ 2) :
    (a2dp_atrac_t.ofBytes o (({ a with frequency := m }).toBytes o)).map (fun r => r.frequency) = some m := by
  rw [atrac_toBytes_eq, atrac_ofBytes_cons]
  simp only [Option.map_some', Option.some.injEq]
  omega

theorem aptx_channel_mode_store (o : ByteOrder) (a : a2dp_aptx_t) (m : Nat) (h : m < 2 ^ 4) :
    (a2dp_aptx_t.ofBytes o (({ a with channel_mode := m }).toBytes o)).map (fun r => r.channel_mode) = some m := by
  rw [aptx_toBytes_eq, aptx_ofBytes_cons]
  simp only [Option.map_some', Option.some.injEq]
  omega

theorem aptx_frequency_store (o : ByteOrder) (a : a2dp_aptx_t) (m : Nat) (h : m < 2 ^ 4) :
    (a2dp_aptx_t.ofBytes o (({ a with frequency := m }).toBytes o)).map (fun r => r.frequency) = some m := by
  rw [aptx_toBytes_eq, aptx_ofBytes_cons]
  simp only [Option.map_some', Option.some.injEq]
  omega

theorem faststream_direction_store (o : ByteOrder) (a : a2dp_faststream_t) (m : Nat) (h : m < 2 ^ 8) :
    (a2dp_faststream_t.ofBytes o (({ a with direction := m }).toBytes o)).map (fun r => r.direction) = some m := by
  rw [faststream_toBytes_eq, faststream_ofBytes_cons]
  simp only [Option.map_some', Option.some.injEq]
  omega

theorem faststream_frequency_music_store (o : ByteOrder) (a : a2dp_faststream_t) (m : Nat) (h : m < 2 ^ 4) :
    (a2dp_faststream_t.ofBytes o (({ a with frequency_music := m }).toBytes o)).map (fun r => r.frequency_music) = some m := by
  rw [faststream_toBytes_eq, faststream_ofBytes_cons]
  simp only [Option.map_some', Option.some.injEq]
  omega

theorem faststream_frequency_voice_store (o : ByteOrder) (a : a2dp_faststream_t) (m : Nat) (h : m < 2 ^ 4) :
    (a2dp_faststream_t.ofBytes o (({ a with frequency_voice := m }).toBytes o)).map (fun r => r.frequency_voice) = some m := by
  rw [faststream_toBytes_eq, faststream_ofBytes_cons]
  simp only [Option.map_some', Option.some.injEq]
  omega

theorem ldac_frequency_store (o : ByteOrder) (a : a2dp_ldac_t) (m : Nat) (h : m < 2 ^ 6) :
    (a2dp_ldac_t.ofBytes o (({ a with frequency := m }).toBytes o)).map (fun r => r.frequency) = some m := by
  rw [ldac_toBytes_eq, ldac_ofBytes_cons]
  simp only [Option.map_some', Option.some.injEq]
  omega

theorem ldac_channel_mode_store (o : ByteOrder) (a : a2dp_ldac_t) (m : Nat) (h : m < 2 ^ 3) :
    (a2dp_ldac_t.ofBytes o (({ a with channel_mode := m }).toBytes o)).map (fun r => r.channel_mode) = some m := by
  rw [ldac_toBytes_eq, ldac_ofBytes_cons]
  simp only [Option.map_some', Option.some.injEq]
  omega

/-- C21. Every capability flag constant fits its field: for each record member
that holds flags, every `SBC_*`, `MPEG_*`, `AAC_*` (both builds), `USAC_*`,
`ATRAC_*`, `APTX_*`, `FASTSTREAM_*` and `LDAC_*` flag constant of the member is
a single set bit below the member's width, the constants are pairwise distinct
and their OR is below `2^w`; storing any OR-combination of the member's flags
(through the member, or through the `SET` macro for the scattered MPEG
bitrate, AAC frequency and USAC frequency) and reading it back from the bytes
returns the same mask, under either layout. The per-layer names
`MPEG_MP1/MP2/MP3_BIT_RATE_*` and `MPEG_BIT_RATE_FREE` are other names of the
`MPEG_BIT_RATE_INDEX_*` flags; each layer's names are pairwise distinct. -/
theorem C21_flags_fit_fields :
    (FlagsFit 4 sbcFrequencyFlags ∧
      ∀ (o : ByteOrder) (a : a2dp_sbc_t) (s : List Nat), (∀ c ∈ s, c ∈ sbcFrequencyFlags) →
        (a2dp_sbc_t.ofBytes o (({ a with frequency := orAll s }).toBytes o)).map
          (fun r => r.frequency) = some (orAll s)) ∧
    (FlagsFit 4 sbcChannelModeFlags ∧
      ∀ (o : ByteOrder) (a : a2dp_sbc_t) (s : List Nat), (∀ c ∈ s, c ∈ sbcChannelModeFlags) →
        (a2dp_sbc_t.ofBytes o (({ a with channel_mode := orAll s }).toBytes o)).map
          (fun r => r.channel_mode) = some (orAll s)) ∧
    (FlagsFit 4 sbcBlockLengthFlags ∧
      ∀ (o : ByteOrder) (a : a2dp_sbc_t) (s : List Nat), (∀ c ∈ s, c ∈ sbcBlockLengthFlags) →
        (a2dp_sbc_t.ofBytes o (({ a with block_length := orAll s }).toBytes o)).map
          (fun r => r.block_length) = some (orAll s)) ∧
    (FlagsFit 2 sbcSubbandsFlags ∧
      ∀ (o : ByteOrder) (a : a2dp_sbc_t) (s : List Nat), (∀ c ∈ s, c ∈ sbcSubbandsFlags) →
        (a2dp_sbc_t.ofBytes o (({ a with subbands := orAll s }).toBytes o)).map
          (fun r => r.subbands) = some (orAll s)) ∧
    (FlagsFit 2 sbcAllocationFlags ∧
      ∀ (o : ByteOrder) (a : a2dp_sbc_t) (s : List Nat), (∀ c ∈ s, c ∈ sbcAllocationFlags) →
        (a2dp_sbc_t.ofBytes o (({ a with allocation_method := orAll s }).toBytes o)).map
          (fun r => r.allocation_method) = some (orAll s)) ∧
    (FlagsFit 4 mpegChannelModeFlags ∧
      ∀ (o : ByteOrder) (a : a2dp_mpeg_t) (s : List Nat), (∀ c ∈ s, c ∈ mpegChannelModeFlags) →
        (a2dp_mpeg_t.ofBytes o (({ a with channel_mode := orAll s }).toBytes o)).map
          (fun r => r.channel_mode) = some (orAll s)) ∧
    (FlagsFit 3 mpegLayerFlags ∧
      ∀ (o : ByteOrder) (a : a2dp_mpeg_t) (s : List Nat), (∀ c ∈ s, c ∈ mpegLayerFlags) →
        (a2dp_mpeg_t.ofBytes o (({ a with layer := orAll s }).toBytes o)).map
          (fun r => r.layer) = some (orAll s)) ∧
    (FlagsFit 6 mpegFrequencyFlags ∧
      ∀ (o : ByteOrder) (a : a2dp_mpeg_t) (s : List Nat), (∀ c ∈ s, c ∈ mpegFrequencyFlags) →
        (a2dp_mpeg_t.ofBytes o (({ a with frequency := orAll s }).toBytes o)).map
          (fun r => r.frequency) = some (orAll s)) ∧
    (FlagsFit 8 aacObjectTypeFlags ∧
      ∀ (o : ByteOrder) (a : a2dp_aac_t) (s : List Nat), (∀ c ∈ s, c ∈ aacObjectTypeFlags) →
        (a2dp_aac_t.ofBytes o (({ a with object_type := orAll s }).toBytes o)).map
          (fun r => r.object_type) = some (orAll s)) ∧
    (FlagsFit 2 aacChannelsFlags ∧
      ∀ (o : ByteOrder) (a : a2dp_aac_t) (s : List Nat), (∀ c ∈ s, c ∈ aacChannelsFlags) →
        (a2dp_aac_t.ofBytes o (({ a with channels := orAll s }).toBytes o)).map
          (fun r => r.channels) = some (orAll s)) ∧
    (FlagsFit 7 Heaac.aacObjectTypeFlags ∧
      ∀ (o : ByteOrder) (a : Heaac.a2dp_aac_t) (s : List Nat), (∀ c ∈ s, c ∈ Heaac.aacObjectTypeFlags) →
        (Heaac.a2dp_aac_t.ofBytes o (({ a with object_type := orAll s }).toBytes o)).map
          (fun r => r.object_type) = some (orAll s)) ∧
    (FlagsFit 4 Heaac.aacChannelsFlags ∧
      ∀ (o : ByteOrder) (a : Heaac.a2dp_aac_t) (s : List Nat), (∀ c ∈ s, c ∈ Heaac.aacChannelsFlags) →
        (Heaac.a2dp_aac_t.ofBytes o (({ a with channels := orAll s }).toBytes o)).map
          (fun r => r.channels) = some (orAll s)) ∧
    (FlagsFit 2 usacObjectTypeFlags ∧
      ∀ (o : ByteOrder) (a : a2dp_usac_t) (s : List Nat), (∀ c ∈ s, c ∈ usacObjectTypeFlags) →
        (a2dp_usac_t.ofBytes o (({ a with object_type := orAll s }).toBytes o)).map
          (fun r => r.object_type) = some (orAll s)) ∧
    (FlagsFit 4 usacChannelsFlags ∧
      ∀ (o : ByteOrder) (a : a2dp_usac_t) (s : List Nat), (∀ c ∈ s, c ∈ usacChannelsFlags) →
        (a2dp_usac_t.ofBytes o (({ a with channels := orAll s }).toBytes o)).map
          (fun r => r.channels) = some (orAll s)) ∧
    (FlagsFit 3 atracChannelModeFlags ∧
      ∀ (o : ByteOrder) (a : a2dp_atrac_t) (s : List Nat), (∀ c ∈ s, c ∈ atracChannelModeFlags) →
        (a2dp_atrac_t.ofBytes o (({ a with channel_mode := orAll s }).toBytes o)).map
          (fun r => r.channel_mode) = some (orAll s)) ∧
    (FlagsFit 2 atracFrequencyFlags ∧
      ∀ (o : ByteOrder) (a : a2dp_atrac_t) (s : List Nat), (∀ c ∈ s, c ∈ atracFrequencyFlags) →
        (a2dp_atrac_t.ofBytes o (({ a with frequency := orAll s }).toBytes o)).map
          (fun r => r.frequency) = some (orAll s)) ∧
    (FlagsFit 4 aptxChannelModeFlags ∧
      ∀ (o : ByteOrder) (a : a2dp_aptx_t) (s : List Nat), (∀ c ∈ s, c ∈ aptxChannelModeFlags) →
        (a2dp_aptx_t.ofBytes o (({ a with channel_mode := orAll s }).toBytes o)).map
          (fun r => r.channel_mode) = some (orAll s)) ∧
    (FlagsFit 4 aptxFrequencyFlags ∧
      ∀ (o : ByteOrder) (a : a2dp_aptx_t) (s : List Nat), (∀ c ∈ s, c ∈ aptxFrequencyFlags) →
        (a2dp_aptx_t.ofBytes o (({ a with frequency := orAll s }).toBytes o)).map
          (fun r => r.frequency) = some (orAll s)) ∧
    (FlagsFit 8 faststreamDirectionFlags ∧
      ∀ (o : ByteOrder) (a : a2dp_faststream_t) (s : List Nat), (∀ c ∈ s, c ∈ faststreamDirectionFlags) →
        (a2dp_faststream_t.ofBytes o (({ a with direction := orAll s }).toBytes o)).map
          (fun r => r.direction) = some (orAll s)) ∧
    (FlagsFit 4 faststreamFrequencyMusicFlags ∧
      ∀ (o : ByteOrder) (a : a2dp_faststream_t) (s : List Nat), (∀ c ∈ s, c ∈ faststreamFrequencyMusicFlags) →
        (a2dp_faststream_t.ofBytes o (({ a with frequency_music := orAll s }).toBytes o)).map
          (fun r => r.frequency_music) = some (orAll s)) ∧
    (FlagsFit 4 faststreamFrequencyVoiceFlags ∧
      ∀ (o : ByteOrder) (a : a2dp_faststream_t) (s : List Nat), (∀ c ∈ s, c ∈ faststreamFrequencyVoiceFlags) →
        (a2dp_faststream_t.ofBytes o (({ a with frequency_voice := orAll s }).toBytes o)).map
          (fun r => r.frequency_voice) = some (orAll s)) ∧
    (FlagsFit 6 ldacFrequencyFlags ∧
      ∀ (o : ByteOrder) (a : a2dp_ldac_t) (s : List Nat), (∀ c ∈ s, c ∈ ldacFrequencyFlags) →
        (a2dp_ldac_t.ofBytes o (({ a with frequency := orAll s }).toBytes o)).map
          (fun r => r.frequency) = some (orAll s)) ∧
    (FlagsFit 3 ldacChannelModeFlags ∧
      ∀ (o : ByteOrder) (a : a2dp_ldac_t) (s : List Nat), (∀ c ∈ s, c ∈ ldacChannelModeFlags) →
        (a2dp_ldac_t.ofBytes o (({ a with channel_mode := orAll s }).toBytes o)).map
          (fun r => r.channel_mode) = some (orAll s)) ∧
    (FlagsFit 15 mpegBitRateIndexFlags ∧
      FlagsFit 15 mpegMp1BitRateFlags ∧ FlagsFit 15 mpegMp2BitRateFlags ∧
      FlagsFit 15 mpegMp3BitRateFlags ∧
      (∀ c ∈ mpegMp1BitRateFlags ++ mpegMp2BitRateFlags ++ mpegMp3BitRateFlags,
        c ∈ mpegBitRateIndexFlags) ∧
      MPEG_BIT_RATE_FREE = MPEG_BIT_RATE_INDEX_0 ∧
      ∀ (o : ByteOrder) (a : a2dp_mpeg_t) (s : List Nat),
        (∀ c ∈ s, c ∈ mpegBitRateIndexFlags) →
        MPEG_GET_BITRATE (MPEG_SET_BITRATE a (orAll s)) = orAll s ∧
        (a2dp_mpeg_t.ofBytes o ((MPEG_SET_BITRATE a (orAll s)).toBytes o)).map
          MPEG_GET_BITRATE = some (orAll s)) ∧
    (FlagsFit 12 aacFrequencyFlags ∧
      ∀ (o : ByteOrder) (a : a2dp_aac_t) (s : List Nat), (∀ c ∈ s, c ∈ aacFrequencyFlags) →
        AAC_GET_FREQUENCY (AAC_SET_FREQUENCY a (orAll s)) = orAll s ∧
        (a2dp_aac_t.ofBytes o ((AAC_SET_FREQUENCY a (orAll s)).toBytes o)).map
          AAC_GET_FREQUENCY = some (orAll s)) ∧
    (∀ (o : ByteOrder) (a : Heaac.a2dp_aac_t) (s : List Nat),
      (∀ c ∈ s, c ∈ aacFrequencyFlags) →
        Heaac.AAC_GET_FREQUENCY (Heaac.AAC_SET_FREQUENCY a (orAll s)) = orAll s ∧
        (Heaac.a2dp_aac_t.ofBytes o ((Heaac.AAC_SET_FREQUENCY a (orAll s)).toBytes o)).map
          Heaac.AAC_GET_FREQUENCY = some (orAll s)) ∧
    (FlagsFit 26 usacFrequencyFlags ∧
      ∀ (o : ByteOrder) (a : a2dp_usac_t) (s : List Nat), (∀ c ∈ s, c ∈ usacFrequencyFlags) →
        USAC_GET_FREQUENCY (USAC_SET_FREQUENCY a (orAll s)) = orAll s ∧
        (a2dp_usac_t.ofBytes o ((USAC_SET_FREQUENCY a (orAll s)).toBytes o)).map
          USAC_GET_FREQUENCY = some (orAll s)) := by
  refine ⟨?_, ?_, ?_, ?_, ?_, ?_, ?_, ?_, ?_, ?_, ?_, ?_, ?_, ?_,
    ?_, ?_, ?_, ?_, ?_, ?_, ?_, ?_, ?_, ?_, ?_, ?_, ?_⟩
  · exact ⟨by decide, fun o a s hs =>
      sbc_frequency_store o a _ (orAll_lt_of_fit 4 sbcFrequencyFlags s (by decide) hs)⟩
  · exact ⟨by decide, fun o a s hs =>
      sbc_channel_mode_store o a _ (orAll_lt_of_fit 4 sbcChannelModeFlags s (by decide) hs)⟩
  · exact ⟨by decide, fun o a s hs =>
      sbc_block_length_store o a _ (orAll_lt_of_fit 4 sbcBlockLengthFlags s (by decide) hs)⟩
  · exact ⟨by decide, fun o a s hs =>
      sbc_subbands_store o a _ (orAll_lt_of_fit 2 sbcSubbandsFlags s (by decide) hs)⟩
  · exact ⟨by decide, fun o a s hs =>
      sbc_allocation_method_store o a _ (orAll_lt_of_fit 2 sbcAllocationFlags s (by decide) hs)⟩
  · exact ⟨by decide, fun o a s hs =>
      mpeg_channel_mode_store o a _ (orAll_lt_of_fit 4 mpegChannelModeFlags s (by decide) hs)⟩
  · exact ⟨by decide, fun o a s hs =>
      mpeg_layer_store o a _ (orAll_lt_of_fit 3 mpegLayerFlags s (by decide) hs)⟩
  · exact ⟨by decide, fun o a s hs =>
      mpeg_frequency_store o a _ (orAll_lt_of_fit 6 mpegFrequencyFlags s (by decide) hs)⟩
  · exact ⟨by decide, fun o a s hs =>
      aac_object_type_store o a _ (orAll_lt_of_fit 8 aacObjectTypeFlags s (by decide) hs)⟩
  · exact ⟨by decide, fun o a s hs =>
      aac_channels_store o a _ (orAll_lt_of_fit 2 aacChannelsFlags s (by decide) hs)⟩
  · exact ⟨by decide, fun o a s hs =>
      heaac_object_type_store o a _ (orAll_lt_of_fit 7 Heaac.aacObjectTypeFlags s (by decide) hs)⟩
  · exact ⟨by decide, fun o a s hs =>
      heaac_channels_store o a _ (orAll_lt_of_fit 4 Heaac.aacChannelsFlags s (by decide) hs)⟩
  · exact ⟨by decide, fun o a s hs =>
      usac_object_type_store o a _ (orAll_lt_of_fit 2 usacObjectTypeFlags s (by decide) hs)⟩
  · exact ⟨by decide, fun o a s hs =>
      usac_channels_store o a _ (orAll_lt_of_fit 4 usacChannelsFlags s (by decide) hs)⟩
  · exact ⟨by decide, fun o a s hs =>
      atrac_channel_mode_store o a _ (orAll_lt_of_fit 3 atracChannelModeFlags s (by decide) hs)⟩
  · exact ⟨by decide, fun o a s hs =>
      atrac_frequency_store o a _ (orAll_lt_of_fit 2 atracFrequencyFlags s (by decide) hs)⟩
  · exact ⟨by decide, fun o a s hs =>
      aptx_channel_mode_store o a _ (orAll_lt_of_fit 4 aptxChannelModeFlags s (by decide) hs)⟩
  · exact ⟨by decide, fun o a s hs =>
      aptx_frequency_store o a _ (orAll_lt_of_fit 4 aptxFrequencyFlags s (by decide) hs)⟩
  · exact ⟨by decide, fun o a s hs =>
      faststream_direction_store o a _ (orAll_lt_of_fit 8 faststreamDirectionFlags s (by decide) hs)⟩
  · exact ⟨by decide, fun o a s hs =>
      faststream_frequency_music_store o a _ (orAll_lt_of_fit 4 faststreamFrequencyMusicFlags s (by decide) hs)⟩
  · exact ⟨by decide, fun o a s hs =>
      faststream_frequency_voice_store o a _ (orAll_lt_of_fit 4 faststreamFrequencyVoiceFlags s (by decide) hs)⟩
  · exact ⟨by decide, fun o a s hs =>
      ldac_frequency_store o a _ (orAll_lt_of_fit 6 ldacFrequencyFlags s (by decide) hs)⟩
  · exact ⟨by decide, fun o a s hs =>
      ldac_channel_mode_store o a _ (orAll_lt_of_fit 3 ldacChannelModeFlags s (by decide) hs)⟩
  · refine ⟨by decide, by decide, by decide, by decide, by decide, rfl, fun o a s hs => ?_⟩
    have h := orAll_lt_of_fit 15 mpegBitRateIndexFlags s (by decide) hs
    rw [mpeg_bitrate_get_set, mpeg_bitrate_stored, Nat.mod_eq_of_lt h]
    exact ⟨rfl, rfl⟩
  · refine ⟨by decide, fun o a s hs => ?_⟩
    have h := orAll_lt_of_fit 12 aacFrequencyFlags s (by decide) hs
    rw [aac_frequency_get_set, aac_frequency_stored, Nat.mod_eq_of_lt h]
    exact ⟨rfl, rfl⟩
  · intro o a s hs
    have h := orAll_lt_of_fit 12 aacFrequencyFlags s (by decide) hs
    rw [heaac_frequency_get_set, heaac_frequency_stored, Nat.mod_eq_of_lt h]
    exact ⟨rfl, rfl⟩
  · refine ⟨by decide, fun o a s hs => ?_⟩
    have h := orAll_lt_of_fit 26 usacFrequencyFlags s (by decide) hs
    rw [usac_frequency_get_set, usac_frequency_stored, Nat.mod_eq_of_lt h]
    exact ⟨rfl, rfl⟩

/-- C21 at the SBC frequency mask 44.1 kHz | 48 kHz and at the MPEG bitrate
mask `MPEG_MP3_BIT_RATE_128000 | MPEG_MP3_BIT_RATE_320000 | MPEG_BIT_RATE_FREE`. -/
theorem C21_flags_fit_fields_witness :
    (∀ c ∈ [SBC_SAMPLING_FREQ_44100, SBC_SAMPLING_FREQ_48000], c ∈ sbcFrequencyFlags) ∧
    (a2dp_sbc_t.ofBytes .little
        (({ a2dp_sbc_t.zero with
            frequency := orAll [SBC_SAMPLING_FREQ_44100, SBC_SAMPLING_FREQ_48000]
          }).toBytes .little)).map (fun r => r.frequency) =
      some (orAll [SBC_SAMPLING_FREQ_44100, SBC_SAMPLING_FREQ_48000]) ∧
    (∀ c ∈ [MPEG_MP3_BIT_RATE_128000, MPEG_MP3_BIT_RATE_320000, MPEG_BIT_RATE_FREE],
      c ∈ mpegBitRateIndexFlags) ∧
    MPEG_GET_BITRATE (MPEG_SET_BITRATE a2dp_mpeg_t.zero
        (orAll [MPEG_MP3_BIT_RATE_128000, MPEG_MP3_BIT_RATE_320000, MPEG_BIT_RATE_FREE])) =
      orAll [MPEG_MP3_BIT_RATE_128000, MPEG_MP3_BIT_RATE_320000, MPEG_BIT_RATE_FREE] :=
  ⟨by decide,
    C21_flags_fit_fields.1.2 .little a2dp_sbc_t.zero _ (by decide),
    by decide,
    (C21_flags_fit_fields.2.2.2.2.2.2.2.2.2.2.2.2.2.2.2.2.2.2.2.2.2.2.2.1.2.2.2.2.2.2
      .little a2dp_mpeg_t.zero _ (by decide)).1⟩

/-! ## aptX Low Latency defaults -/

/-- C22. aptX Low Latency default parameters match their documentation:
`level1 * 256 + level2` gives target level 180, initial level 360 and good
working level 180; `APTX_LL_SRA_MAX_RATE` is 50, which is 0.005 * 10000, and
`APTX_LL_SRA_AVG_TIME` is 1. An `a2dp_aptx_ll_new_caps_t` filled with the
defaults carries each level as `level2` then `level1`, low byte first. -/
theorem C22_aptx_ll_defaults :
    APTX_LL_TARGET_LEVEL1 * 256 + APTX_LL_TARGET_LEVEL2 = 180 ∧
    APTX_LL_INITIAL_LEVEL1 * 256 + APTX_LL_INITIAL_LEVEL2 = 360 ∧
    APTX_LL_GOOD_WORKING_LEVEL1 * 256 + APTX_LL_GOOD_WORKING_LEVEL2 = 180 ∧
    APTX_LL_SRA_MAX_RATE = 50 ∧
    (APTX_LL_SRA_MAX_RATE : ℚ) = 0.005 * 10000 ∧
    APTX_LL_SRA_AVG_TIME = 1 ∧
    ∀ o : ByteOrder,
      a2dp_aptx_ll_new_caps_t.toBytes o
        { reserved := 0,
          target_level2 := APTX_LL_TARGET_LEVEL2, target_level1 := APTX_LL_TARGET_LEVEL1,
          initial_level2 := APTX_LL_INITIAL_LEVEL2, initial_level1 := APTX_LL_INITIAL_LEVEL1,
          sra_max_rate := APTX_LL_SRA_MAX_RATE, sra_avg_time := APTX_LL_SRA_AVG_TIME,
          good_working_level2 := APTX_LL_GOOD_WORKING_LEVEL2,
          good_working_level1 := APTX_LL_GOOD_WORKING_LEVEL1 } =
        [0, 180 % 256, 180 / 256, 360 % 256, 360 / 256, 50, 1, 180 % 256, 180 / 256] := by
  refine ⟨by decide, by decide, by decide, by decide, ?_, by decide, by decide⟩
  norm_num [APTX_LL_SRA_MAX_RATE]

/-! ## Vendor codec extension codes -/

/-- C23. The twelve BlueALSA 16-bit vendor codec extension codes are pairwise
distinct, each has low byte `A2DP_CODEC_VENDOR` (0xFF) and a non-zero high
byte, and none equals a standard 8-bit codec code (`A2DP_CODEC_SBC`,
`_MPEG12`, `_MPEG24`, `_ATRAC`, `_MPEGD`) or `A2DP_CODEC_VENDOR` itself; in
general no value with a non-zero high byte equals an 8-bit code. -/
theorem C23_vendor_codec_codes :
    vendorCodecCodes.length = 12 ∧
    vendorCodecCodes.Nodup ∧
    A2DP_CODEC_VENDOR = 0xFF ∧
    (∀ c ∈ vendorCodecCodes,
      c < 2 ^ 16 ∧ c &&& 0xff = A2DP_CODEC_VENDOR ∧ c >>> 8 ≠ 0 ∧
      c ∉ standardCodecCodes ∧ c ≠ A2DP_CODEC_VENDOR) ∧
    (∀ d ∈ A2DP_CODEC_VENDOR :: standardCodecCodes, d < 2 ^ 8) ∧
    (∀ c d : Nat, c >>> 8 ≠ 0 → d < 2 ^ 8 → c ≠ d) := by
  refine ⟨by decide, by decide, by decide, by decide, by decide, ?_⟩
  intro c d hc hd h
  subst h
  rw [Nat.shiftRight_eq_div_pow] at hc
  omega


/-! ## Reading the SCO routing (`hci_bcm_read_sco_pcm_params`) -/

/-- The struct `rp` laid over a six-byte reply: member `i` is reply byte `i`. -/
theorem rp_ofBytes_cons (o : ByteOrder) (b0 b1 b2 b3 b4 b5 : Nat) (rest : List Nat) :
    Hci.sco_pcm_params_rp.ofBytes o (b0 :: b1 :: b2 :: b3 :: b4 :: b5 :: rest) =
      some { status := b0 % 256, sco_routing := b1 % 256, pcm_interface_rate := b2 % 256,
             pcm_frame_type := b3 % 256, pcm_sync_mode := b4 % 256,
             pcm_clock_mode := b5 % 256 } := by
  cases o <;>
    simp [Hci.sco_pcm_params_rp.ofBytes, Hci.sco_pcm_params_rp.widths, unpack, unpackBits,
      bitShift]

/-- C24. Result and outputs of `hci_bcm_read_sco_pcm_params`, the call of
`hci_send_req` being an oracle that returns `ret`, leaves `errno` at `err` and
fills `rp` with the six reply bytes `b0..b5`: if `ret < 0` the function
returns -1 and writes no output; if `ret >= 0` and the status byte `b0` is not
0 it returns -1, sets `errno` to `EIO` and writes no output; if `ret >= 0` and
`b0 = 0` it returns 0, leaves `errno` alone, and every non-NULL pointer among
`routing`, `rate`, `frame`, `sync`, `clock` receives reply byte 1, 2, 3, 4, 5
respectively while a NULL pointer stays NULL. -/
theorem C24_read_sco_pcm_params ( EIO : Nat) (o : ByteOrder) (ret : Int) (err : Nat)
    (b0 b1 b2 b3 b4 b5 : Nat) (h0 : b0 < 256) (h1 : b1 < 256) (h2 : b2 < 256)
    (h3 : b3 < 256) (h4 : b4 < 256) (h5 : b5 < 256)
    (routing rate frame sync clock : Hci.OutPtr) :
    ∃ rp, Hci.sco_pcm_params_rp.ofBytes o [b0, b1, b2, b3, b4, b5] = some rp ∧
      (ret < 0 →
        Hci.hci_bcm_read_sco_pcm_params EIO ⟨ret, rp, err⟩ routing rate frame sync clock =
          { ret := -1, errno := err, routing := routing, rate := rate, frame := frame,
            sync := sync, clock := clock }) ∧
      (0 ≤ ret → b0 ≠ 0 →
        Hci.hci_bcm_read_sco_pcm_params EIO ⟨ret, rp, err⟩ routing rate frame sync clock =
          { ret := -1, errno := EIO, routing := routing, rate := rate, frame := frame,
            sync := sync, clock := clock }) ∧
      (0 ≤ ret → b0 = 0 →
        Hci.hci_bcm_read_sco_pcm_params EIO ⟨ret, rp, err⟩ routing rate frame sync clock =
          { ret := 0, errno := err,
            routing := routing.map (fun _ => b1), rate := rate.map (fun _ => b2),
            frame := frame.map (fun _ => b3), sync := sync.map (fun _ => b4),
            clock := clock.map (fun _ => b5) }) := by
  refine ⟨_, rp_ofBytes_cons o b0 b1 b2 b3 b4 b5 [], fun hr => ?_, fun hr hs => ?_,
    fun hr hs => ?_⟩
  · simp [Hci.hci_bcm_read_sco_pcm_params, hr]
  · have hr2 : ¬ ret < 0 := by omega
    have hs2 : b0 % 256 ≠ 0 := by omega
    simp [Hci.hci_bcm_read_sco_pcm_params, hr2, hs2]
  · have hr2 : ¬ ret < 0 := by omega
    subst hs
    simp only [Hci.hci_bcm_read_sco_pcm_params, hr2, if_false, Nat.zero_mod, ne_eq,
      not_true_eq_false, Nat.mod_eq_of_lt h1, Nat.mod_eq_of_lt h2, Nat.mod_eq_of_lt h3,
      Nat.mod_eq_of_lt h4, Nat.mod_eq_of_lt h5]
    cases routing <;> cases rate <;> cases frame <;> cases sync <;> cases clock <;>
      simp [Hci.storeIfNotNull, Nat.mod_eq_of_lt h1, Nat.mod_eq_of_lt h2,
        Nat.mod_eq_of_lt h3, Nat.mod_eq_of_lt h4, Nat.mod_eq_of_lt h5]

/-- C24 on three calls with `routing`, `frame`, `clock` pointing to bytes
holding 9 and `rate`, `sync` NULL: a failed request, a reply with status 0x0c,
and a reply with status 0. -/
theorem C24_read_sco_pcm_params_witness :
    ((-1 : Int) < 0 ∧ (0 : Int) ≤ 0 ∧ (0x0c : Nat) ≠ 0 ∧ (0 : Nat) = 0) ∧
    Hci.hci_bcm_read_sco_pcm_params 5
        ⟨-1, { status := 0, sco_routing := 1, pcm_interface_rate := 2, pcm_frame_type := 3,
               pcm_sync_mode := 4, pcm_clock_mode := 5 }, 110⟩
        (some 9) none (some 9) none (some 9) =
      { ret := -1, errno := 110, routing := some 9, rate := none, frame := some 9,
        sync := none, clock := some 9 } ∧
    Hci.hci_bcm_read_sco_pcm_params 5
        ⟨0, { status := 0x0c, sco_routing := 1, pcm_interface_rate := 2, pcm_frame_type := 3,
              pcm_sync_mode := 4, pcm_clock_mode := 5 }, 0⟩
        (some 9) none (some 9) none (some 9) =
      { ret := -1, errno := 5, routing := some 9, rate := none, frame := some 9,
        sync := none, clock := some 9 } ∧
    Hci.hci_bcm_read_sco_pcm_params 5
        ⟨0, { status := 0, sco_routing := 1, pcm_interface_rate := 2, pcm_frame_type := 3,
              pcm_sync_mode := 4, pcm_clock_mode := 5 }, 0⟩
        (some 9) none (some 9) none (some 9) =
      { ret := 0, errno := 0, routing := some 1, rate := none, frame := some 3,
        sync := none, clock := some 5 } := by
  obtain ⟨rp1, e1, f1, _, _⟩ := C24_read_sco_pcm_params 5 .little (-1) 110 0 1 2 3 4 5
    (by decide) (by decide) (by decide) (by decide) (by decide) (by decide)
    (some 9) none (some 9) none (some 9)
  obtain ⟨rp2, e2, _, f2, _⟩ := C24_read_sco_pcm_params 5 .little 0 0 0x0c 1 2 3 4 5
    (by decide) (by decide) (by decide) (by decide) (by decide) (by decide)
    (some 9) none (some 9) none (some 9)
  obtain ⟨rp3, e3, _, _, f3⟩ := C24_read_sco_pcm_params 5 .little 0 0 0 1 2 3 4 5
    (by decide) (by decide) (by decide) (by decide) (by decide) (by decide)
    (some 9) none (some 9) none (some 9)
  rw [rp_ofBytes_cons] at e1 e2 e3
  cases e1; cases e2; cases e3
  exact ⟨by decide, f1 (by decide), f2 (by decide) (by decide), f3 (by decide) rfl⟩

end A2dp
